import Mathlib

/-!
Verification of the parametric woodworking template engine
(`sketchup_mcp/templates` and `sketchup_mcp/tools/build_project.py`):
string and number formatting helpers, lumber-stock parsing, the template
data model, and the ten template variants' `generate()` functions,
shallowly embedded over `List Char` strings and exact rationals.

Modelling conventions:
* Python `str` is modelled as `List Char` (ASCII suffices for every string
  the engine manipulates).
* Python `float` is modelled as `ℚ` (exact arithmetic).  The templates only
  use `+ - * / min max` and comparisons; the verified claims only involve
  values where IEEE double rounding cannot change a comparison outcome.
* Python `int` parameters are modelled as `ℤ`; `Literal[...]` annotations
  are modelled as enumerations.
* Stateful code (instance fields assigned during `generate()` and read by
  the joint-marker hook) is modelled by explicit state passing:
  `generate : State → State × TemplateResult`.
* Fallible construction (`ValueError` from lumber parsing) is modelled with
  `Except (List Char)`.
-/

set_option allowUnsafeReducibility true

attribute [local semireducible] Rat.add Rat.mul Rat.sub Rat.inv Rat.div Rat.ofScientific

/-- Convert a string literal to the `List Char` representation used
throughout this development. -/
def strL (s : String) : List Char := s.toList

/-- Decidable equality for `Except`, used to state concrete parsing
results. -/
instance {e a : Type} [DecidableEq e] [DecidableEq a] :
    DecidableEq (Except e a) := fun x y =>
  match x, y with
  | .error u, .error v =>
    if h : u = v then isTrue (by rw [h]) else isFalse (by simp [h])
  | .ok u, .ok v =>
    if h : u = v then isTrue (by rw [h]) else isFalse (by simp [h])
  | .error _, .ok _ => isFalse (by simp)
  | .ok _, .error _ => isFalse (by simp)

/-- Number of occurrences of `needle` as a contiguous substring of `hay`
(counting every start position of a sliding-window scan). -/
def countOcc (needle : List Char) : List Char → Nat
  | [] => 0
  | c :: rest =>
    (if needle.isPrefixOf (c :: rest) then 1 else 0) + countOcc needle rest

/-- Substring containment, expressed through `countOcc`. -/
def containsSub (needle hay : List Char) : Bool :=
  0 < countOcc needle hay

theorem countOcc_nil (n : List Char) : countOcc n [] = 0 := rfl

theorem head?_mem {α : Type} {l : List α} {c : α} (h : l.head? = some c) : c ∈ l := by
  cases l with
  | nil => simp at h
  | cons d t => simp at h; simp [h]

theorem getLast?_mem {α : Type} {l : List α} {c : α} (h : l.getLast? = some c) : c ∈ l := by
  induction l with
  | nil => simp at h
  | cons d t ih =>
    cases t with
    | nil => simp at h; simp [h]
    | cons e t' =>
      rw [List.getLast?_cons_cons] at h
      exact List.mem_cons_of_mem _ (ih h)

theorem head?_append_left {α : Type} {a : List α} {c : α} (b : List α)
    (h : a.head? = some c) : (a ++ b).head? = some c := by
  cases a with
  | nil => simp at h
  | cons d t => simpa using h

/-- A prefix test cannot see past `a` into `b` when `b` starts with a
character that does not occur in the needle. -/
theorem isPrefixOf_append_headOut (n : List Char) (a b : List Char) (c : Char)
    (hb : b.head? = some c) (hc : c ∉ n) :
    n.isPrefixOf (a ++ b) = n.isPrefixOf a := by
  induction n generalizing a with
  | nil => simp [List.isPrefixOf]
  | cons x n' ih =>
    cases a with
    | nil =>
      cases b with
      | nil => simp at hb
      | cons d b' =>
        simp only [List.head?_cons, Option.some.injEq] at hb
        subst hb
        have hxd : (x == d) = false :=
          beq_eq_false_iff_ne.mpr (fun h => hc (h ▸ List.mem_cons_self x n'))
        show ((x == d) && n'.isPrefixOf b') = false
        simp [hxd]
    | cons y a' =>
      show ((x == y) && n'.isPrefixOf (a' ++ b)) = ((x == y) && n'.isPrefixOf a')
      rw [ih a' (fun hm => hc (List.mem_cons_of_mem _ hm))]

/-- A prefix test cannot see past `a` into `b` when `a` ends with a
character that does not occur in the needle. -/
theorem isPrefixOf_append_lastOut (n : List Char) (a b : List Char) (c : Char)
    (ha : a.getLast? = some c) (hc : c ∉ n) :
    n.isPrefixOf (a ++ b) = n.isPrefixOf a := by
  induction a generalizing n with
  | nil => simp at ha
  | cons y a' ih =>
    cases n with
    | nil => simp [List.isPrefixOf]
    | cons x n' =>
      cases a' with
      | nil =>
        simp only [List.getLast?_singleton, Option.some.injEq] at ha
        subst ha
        have hxy : (x == y) = false :=
          beq_eq_false_iff_ne.mpr (fun h => hc (h ▸ List.mem_cons_self x n'))
        show ((x == y) && n'.isPrefixOf b) = ((x == y) && n'.isPrefixOf [])
        simp [hxy]
      | cons z a'' =>
        rw [List.getLast?_cons_cons] at ha
        show ((x == y) && n'.isPrefixOf (z :: a'' ++ b)) =
          ((x == y) && n'.isPrefixOf (z :: a''))
        rw [ih (n := n') ha (fun hm => hc (List.mem_cons_of_mem _ hm))]

theorem countOcc_cons (n : List Char) (c : Char) (rest : List Char) :
    countOcc n (c :: rest) =
      (if n.isPrefixOf (c :: rest) then 1 else 0) + countOcc n rest := rfl

/-- Occurrence counting splits over an append whose right part starts with a
character that does not occur in the needle. -/
theorem countOcc_append_headOut (n a b : List Char) (c : Char)
    (hb : b.head? = some c) (hc : c ∉ n) :
    countOcc n (a ++ b) = countOcc n a + countOcc n b := by
  induction a with
  | nil => simp [countOcc]
  | cons y a' ih =>
    rw [List.cons_append, countOcc_cons, ← List.cons_append,
      isPrefixOf_append_headOut n (y :: a') b c hb hc, countOcc_cons, ih]
    omega

/-- Occurrence counting splits over an append whose left part ends with a
character that does not occur in the needle. -/
theorem countOcc_append_lastOut (n a b : List Char) (c : Char)
    (ha : a.getLast? = some c) (hc : c ∉ n) :
    countOcc n (a ++ b) = countOcc n a + countOcc n b := by
  induction a with
  | nil => simp at ha
  | cons y a' ih =>
    rw [List.cons_append, countOcc_cons, ← List.cons_append,
      isPrefixOf_append_lastOut n (y :: a') b c ha hc, countOcc_cons]
    cases a' with
    | nil => simp [countOcc]
    | cons z a'' =>
      rw [List.getLast?_cons_cons] at ha
      rw [ih ha]
      omega

/-- A needle whose first character does not occur in `s` never occurs in `s`. -/
theorem countOcc_zero_headOut (n s : List Char) (c : Char)
    (hn : n.head? = some c) (hc : c ∉ s) : countOcc n s = 0 := by
  induction s with
  | nil => rfl
  | cons d s' ih =>
    cases n with
    | nil => simp at hn
    | cons x n' =>
      simp only [List.head?_cons, Option.some.injEq] at hn
      subst hn
      have hcd : (x == d) = false :=
        beq_eq_false_iff_ne.mpr (fun h => hc (h ▸ List.mem_cons_self d s'))
      rw [countOcc_cons]
      have hpre : (x :: n').isPrefixOf (d :: s') = false := by
        show ((x == d) && n'.isPrefixOf s') = false
        simp [hcd]
      rw [hpre]
      simpa using ih (fun hm => hc (List.mem_cons_of_mem _ hm))

/-! ### Character classes and decimal rendering -/

/-- Characters that can appear in a rendered number (digits, decimal point,
sign, non-decimal fallback separator). -/
def numChar (c : Char) : Bool := c.isDigit || c == '.' || c == '-' || c == '/'

/-- The letters, underscore and colon: the characters the "marker" search
needles used below are built from; disjoint from `numChar` and from all the
punctuation appearing at the literal boundaries of the emitted script. -/
def wordChars : List Char :=
  strL "abcdefghijklmnopqrstuvwxyzABCDEFGHIJKLMNOPQRSTUVWXYZ_:"

/-- Membership in `wordChars`, as a character class. -/
def wordChar (c : Char) : Bool := decide (c ∈ wordChars)

theorem not_mem_of_wordAll {n : List Char} (hword : ∀ c ∈ n, wordChar c = true)
    {d : Char} (hd : wordChar d = false) : d ∉ n := by
  intro hm
  rw [hword d hm] at hd
  simp at hd

theorem wordChar_not_numChar {c : Char} (hw : wordChar c = true) :
    numChar c = false := by
  have hmem : c ∈ wordChars := by simpa [wordChar] using hw
  have H : ∀ c ∈ wordChars, numChar c = false := by decide
  exact H c hmem

theorem not_mem_of_numAll {s : List Char} (hnum : ∀ c ∈ s, numChar c = true)
    {d : Char} (hd : numChar d = false) : d ∉ s := by
  intro hm
  rw [hnum d hm] at hd
  simp at hd

/-- The ten decimal digit characters. -/
def digitChars : List Char := strL "0123456789"

/-- Digit character for a digit value (wraps mod 10 to stay total). -/
def digitCh (d : Nat) : Char := digitChars.getD (d % 10) '0'

theorem digitCh_mem (d : Nat) : digitCh d ∈ digitChars := by
  unfold digitCh List.getD
  cases h : digitChars.get? (d % 10) with
  | none => simp; decide
  | some a => simp [List.get?_mem h]

theorem digitCh_numChar (d : Nat) : numChar (digitCh d) = true := by
  have := digitCh_mem d
  revert this
  have : ∀ c ∈ digitChars, numChar c = true := by decide
  intro h
  exact this _ h

/-- Little-endian decimal digits of `n`, with explicit fuel so that the
definition is structurally recursive (and hence kernel-evaluable). -/
def natDigitsRev (fuel n : Nat) : List Char :=
  match fuel with
  | 0 => []
  | fuel + 1 => if n = 0 then [] else digitCh (n % 10) :: natDigitsRev fuel (n / 10)

/-- Decimal rendering of a natural number (most significant digit first). -/
def natStr (n : Nat) : List Char :=
  if n = 0 then ['0'] else (natDigitsRev n n).reverse

theorem natDigitsRev_chars (fuel n : Nat) :
    ∀ c ∈ natDigitsRev fuel n, numChar c = true := by
  induction fuel generalizing n with
  | zero => intro c hc; simp [natDigitsRev] at hc
  | succ fuel ih =>
    intro c hc
    unfold natDigitsRev at hc
    split at hc
    · simp at hc
    · rcases List.mem_cons.mp hc with rfl | hin
      · exact digitCh_numChar _
      · exact ih _ c hin

theorem natStr_ne_nil (n : Nat) : natStr n ≠ [] := by
  unfold natStr
  split
  · simp
  · next h =>
    have : natDigitsRev n n ≠ [] := by
      cases n with
      | zero => exact absurd rfl h
      | succ m =>
        unfold natDigitsRev
        rw [if_neg (Nat.succ_ne_zero m)]
        simp
    simpa using this

theorem natStr_chars (n : Nat) : ∀ c ∈ natStr n, numChar c = true := by
  intro c hc
  unfold natStr at hc
  split at hc
  · simp at hc; subst hc; decide
  · rw [List.mem_reverse] at hc
    exact natDigitsRev_chars n n c hc

/-- Python's `str` of an `int` value. -/
def intStr (i : Int) : List Char :=
  if i < 0 then '-' :: natStr i.natAbs else natStr i.natAbs

theorem intStr_ne_nil (i : Int) : intStr i ≠ [] := by
  unfold intStr; split <;> simp [natStr_ne_nil]

theorem intStr_chars (i : Int) : ∀ c ∈ intStr i, numChar c = true := by
  intro c hc
  unfold intStr at hc
  split at hc
  · rcases List.mem_cons.mp hc with rfl | h
    · decide
    · exact natStr_chars _ c h
  · exact natStr_chars _ c hc

/-- Python `int(x)` on a float value: truncation toward zero. -/
def pyTrunc (q : ℚ) : ℤ := if q < 0 then -(⌊-q⌋) else ⌊q⌋

/-- Least positive exponent `k ≤ 17` such that `q * 10^k` is an integer
(the number of decimal digits needed after the point), if any. -/
def decExpFind (q : ℚ) : Option Nat :=
  (List.range' 1 17).find? (fun k => (q * (10 : ℚ) ^ k).den == 1)

/-- Fractional digits of `q` (with `0 ≤ q`), `k` digits after the point. -/
def fracDigits (q : ℚ) (k : Nat) : List Char :=
  let m := ((q - (⌊q⌋ : ℚ)) * (10 : ℚ) ^ k).num.natAbs
  let s := natStr m
  List.replicate (k - s.length) '0' ++ s

/-- Rendering of a nonnegative float value, Python `repr` style for values
with a finite decimal expansion: integers render with a trailing `.0`,
other decimal rationals render their digits.  Rationals without a finite
decimal expansion (which Python's binary floats cannot represent exactly;
they only arise in this exact-rational model) fall back to a `num/den`
rendering — no verified claim depends on the digits of that case. -/
def pyFloatPos (q : ℚ) : List Char :=
  if q.den = 1 then natStr q.num.natAbs ++ strL ".0"
  else
    match decExpFind q with
    | some k => natStr (⌊q⌋).natAbs ++ '.' :: fracDigits q k
    | none => natStr q.num.natAbs ++ '/' :: natStr q.den

/-- Python's `str`/`repr` of a float value (see `pyFloatPos`). -/
def pyFloatStr (q : ℚ) : List Char :=
  if q < 0 then '-' :: pyFloatPos (-q) else pyFloatPos q

theorem pyFloatPos_ne_nil (q : ℚ) : pyFloatPos q ≠ [] := by
  unfold pyFloatPos
  split
  · simp [natStr_ne_nil]
  · split <;> simp [natStr_ne_nil]

theorem pyFloatPos_chars (q : ℚ) : ∀ c ∈ pyFloatPos q, numChar c = true := by
  intro c hc
  unfold pyFloatPos at hc
  split at hc
  · rcases List.mem_append.mp hc with h | h
    · exact natStr_chars _ c h
    · have : ∀ c ∈ strL ".0", numChar c = true := by decide
      exact this c h
  · split at hc
    · rcases List.mem_append.mp hc with h | h
      · exact natStr_chars _ c h
      · rcases List.mem_cons.mp h with rfl | h'
        · decide
        · unfold fracDigits at h'
          rcases List.mem_append.mp h' with h'' | h''
          · rw [List.eq_of_mem_replicate h'']; decide
          · exact natStr_chars _ c h''
    · rcases List.mem_append.mp hc with h | h
      · exact natStr_chars _ c h
      · rcases List.mem_cons.mp h with rfl | h'
        · decide
        · exact natStr_chars _ c h'

theorem pyFloatStr_ne_nil (q : ℚ) : pyFloatStr q ≠ [] := by
  unfold pyFloatStr; split
  · simp
  · exact pyFloatPos_ne_nil q

theorem pyFloatStr_chars (q : ℚ) : ∀ c ∈ pyFloatStr q, numChar c = true := by
  intro c hc
  unfold pyFloatStr at hc
  split at hc
  · rcases List.mem_cons.mp hc with rfl | h
    · decide
    · exact pyFloatPos_chars _ c h
  · exact pyFloatPos_chars _ c hc

theorem head_numChar_of_all {s : List Char} (hne : s ≠ [])
    (hall : ∀ c ∈ s, numChar c = true) :
    ∃ c, s.head? = some c ∧ numChar c = true := by
  cases s with
  | nil => exact absurd rfl hne
  | cons d t => exact ⟨d, rfl, hall d (List.mem_cons_self d t)⟩

theorem getLast_numChar_of_all {s : List Char} (hne : s ≠ [])
    (hall : ∀ c ∈ s, numChar c = true) :
    ∃ c, s.getLast? = some c ∧ numChar c = true := by
  obtain ⟨c, hc⟩ := List.getLast?_isSome.mpr hne |> Option.isSome_iff_exists.mp
  exact ⟨c, hc, hall c (getLast?_mem hc)⟩

/-! ### Python string and float primitives used by `BaseTemplate._parse_lumber` -/

/-- Python `str.lower()` (ASCII range, which is all the engine uses). -/
def pyLower (s : List Char) : List Char := s.map Char.toLower

/-- `str.replace("x", " ")`. -/
def replaceX (s : List Char) : List Char :=
  s.map (fun c => if c == 'x' then ' ' else c)

/-- Python whitespace characters recognized by `str.split()`. -/
def isPySpace (c : Char) : Bool :=
  c == ' ' || c == '\t' || c == '\n' || c == '\r' || c == '\x0b' || c == '\x0c'

/-- Python `str.split()` with no arguments: split on runs of whitespace,
discarding empty fields. -/
def pySplitWs : List Char → List (List Char)
  | [] => []
  | [c] => if isPySpace c then [] else [[c]]
  | c :: d :: rest =>
    if isPySpace c then pySplitWs (d :: rest)
    else if isPySpace d then [c] :: pySplitWs rest
    else
      match pySplitWs (d :: rest) with
      | [] => [[c]]
      | w :: ws => (c :: w) :: ws

/-- Split a string at every separator character satisfying `p`
(a helper for the float-literal recognizer below). -/
def splitAtPred (p : Char → Bool) : List Char → List (List Char)
  | [] => [[]]
  | c :: rest =>
    if p c then [] :: splitAtPred p rest
    else
      match splitAtPred p rest with
      | [] => [[c]]
      | h :: t => (c :: h) :: t

/-- Numeric value of a digit string (most significant first). -/
def natOfDigits (l : List Char) : Nat :=
  l.foldl (fun a c => 10 * a + (c.toNat - 48)) 0

/-- Decimal part of a Python float literal: digits with at most one `.`,
at least one digit overall (`"90"`, `"1."`, `".5"`). -/
def parseDec (s : List Char) : Option ℚ :=
  match splitAtPred (fun c => c == '.') s with
  | [ip] =>
    if !ip.isEmpty && ip.all Char.isDigit then some (natOfDigits ip) else none
  | [ip, fp] =>
    if !(ip.isEmpty && fp.isEmpty) && (ip ++ fp).all Char.isDigit then
      some ((natOfDigits ip : ℚ) + (natOfDigits fp : ℚ) / (10 : ℚ) ^ fp.length)
    else none
  | _ => none

/-- Exponent part of a Python float literal: optional sign, then digits. -/
def parseExpInt (s : List Char) : Option ℤ :=
  match s with
  | '+' :: r =>
    if !r.isEmpty && r.all Char.isDigit then some (natOfDigits r) else none
  | '-' :: r =>
    if !r.isEmpty && r.all Char.isDigit then some (-(natOfDigits r : ℤ)) else none
  | r =>
    if !r.isEmpty && r.all Char.isDigit then some (natOfDigits r) else none

/-- Unsigned Python float literal: decimal part with an optional
`e`/`E`-exponent. -/
def parseUnsigned (s : List Char) : Option ℚ :=
  match splitAtPred (fun c => c == 'e' || c == 'E') s with
  | [m] => parseDec m
  | [m, ex] =>
    match parseDec m, parseExpInt ex with
    | some v, some e => some (v * (10 : ℚ) ^ (e : ℤ))
    | _, _ => none
  | _ => none

/-- Python `float(s)` on the finite decimal-literal subset: optional sign,
decimal digits with optional point, optional exponent.  (Python's `float`
additionally strips surrounding whitespace and accepts underscores and
`inf`/`nan` spellings; those inputs never reach this parser from
`_parse_lumber`'s whitespace-split fields and are outside the verified
claims.)  Returns the exact rational value of the literal. -/
def pyFloat (s : List Char) : Option ℚ :=
  match s with
  | '+' :: r => parseUnsigned r
  | '-' :: r => (parseUnsigned r).map (fun v => -v)
  | r => parseUnsigned r

/-- Message of the `ValueError` Python's `float()` raises. -/
def floatConvMsg (part : List Char) : List Char :=
  strL "could not convert string to float: '" ++ part ++ strL "'"

/-- The explicit invalid-format message of `_parse_lumber`. -/
def invalidFormatMsg (lumber : List Char) : List Char :=
  strL "Invalid lumber format '" ++ lumber ++
    strL "'. Expected format: 'WIDTHxTHICKNESS' (e.g., '90x19', '100x25')"

/-- The explicit non-positive-dimensions message of `_parse_lumber`. -/
def nonPositiveMsg (w t : ℚ) : List Char :=
  strL "Lumber dimensions must be positive. Got: width=" ++ pyFloatStr w ++
    strL ", thickness=" ++ pyFloatStr t

/-- `BaseTemplate._parse_lumber`: lower-case the descriptor, replace `x`
by a space, split on whitespace; exactly two fields must remain, both
parsing as positive floats.  The error value is the message of the
`ValueError` that propagates out of the Python method (note that a `float()`
conversion failure is re-raised verbatim by the `except ValueError: raise`
clause, so its message names only the offending field, not the whole
descriptor). -/
def parse_lumber (lumber : List Char) : Except (List Char) (ℚ × ℚ) :=
  match pySplitWs (replaceX (pyLower lumber)) with
  | [p0, p1] =>
    match pyFloat p0 with
    | none => .error (floatConvMsg p0)
    | some w =>
      match pyFloat p1 with
      | none => .error (floatConvMsg p1)
      | some t =>
        if w ≤ 0 ∨ t ≤ 0 then .error (nonPositiveMsg w t) else .ok (w, t)
  | _ => .error (invalidFormatMsg lumber)

/-! ### Character-level facts about the float recognizer and the split -/

/-- Characters that can appear in a parsed float literal. -/
def floatChar (c : Char) : Bool :=
  c.isDigit || c == '.' || c == 'e' || c == 'E' || c == '+' || c == '-'

theorem splitAtPred_ne_nil (p : Char → Bool) (s : List Char) :
    splitAtPred p s ≠ [] := by
  induction s with
  | nil => simp [splitAtPred]
  | cons c rest ih =>
    simp only [splitAtPred]
    split
    · simp
    · split <;> simp

theorem mem_splitAtPred (p : Char → Bool) (s : List Char) (c : Char)
    (hc : c ∈ s) :
    p c = true ∨ ∃ part ∈ splitAtPred p s, c ∈ part := by
  induction s with
  | nil => simp at hc
  | cons d rest ih =>
    rcases List.mem_cons.mp hc with rfl | hmem
    · cases hp : p c with
      | true => exact Or.inl rfl
      | false =>
        right
        simp only [splitAtPred, hp, if_false]
        cases hsp : splitAtPred p rest with
        | nil => exact ⟨[c], by simp, by simp⟩
        | cons h t => exact ⟨c :: h, by simp, by simp⟩
    · rcases ih hmem with hp | ⟨part, hpart, hcp⟩
      · exact Or.inl hp
      · right
        simp only [splitAtPred]
        cases hpd : p d with
        | true =>
          rw [if_pos rfl]
          exact ⟨part, List.mem_cons_of_mem _ hpart, hcp⟩
        | false =>
          rw [if_neg (by simp)]
          cases hsp : splitAtPred p rest with
          | nil => rw [hsp] at hpart; simp at hpart
          | cons h t =>
            rw [hsp] at hpart
            rcases List.mem_cons.mp hpart with rfl | hin
            · exact ⟨d :: part, by simp, List.mem_cons_of_mem _ hcp⟩
            · exact ⟨part, List.mem_cons_of_mem _ hin, hcp⟩

theorem parseDec_chars {m : List Char} {v : ℚ} (h : parseDec m = some v) :
    ∀ c ∈ m, (c.isDigit || c == '.') = true := by
  intro c hc
  rcases mem_splitAtPred (fun c => c == '.') m c hc with hp | ⟨part, hpart, hcp⟩
  · simp [hp]
  · unfold parseDec at h
    split at h
    · next ip heq =>
      rw [heq] at hpart
      split at h
      · next hg =>
        simp only [Bool.and_eq_true, List.all_eq_true] at hg
        simp only [List.mem_singleton] at hpart
        subst hpart
        simp [hg.2 c hcp]
      · exact absurd h (by simp)
    · next ip fp heq =>
      rw [heq] at hpart
      split at h
      · next hg =>
        simp only [Bool.and_eq_true, List.all_eq_true] at hg
        rcases List.mem_cons.mp hpart with rfl | hpart'
        · simp [hg.2 c (List.mem_append.mpr (Or.inl hcp))]
        · simp only [List.mem_singleton] at hpart'
          subst hpart'
          simp [hg.2 c (List.mem_append.mpr (Or.inr hcp))]
      · exact absurd h (by simp)
    · exact absurd h (by simp)

theorem parseExpInt_chars {s : List Char} {v : ℤ} (h : parseExpInt s = some v) :
    ∀ c ∈ s, (c.isDigit || c == '+' || c == '-') = true := by
  intro c hc
  unfold parseExpInt at h
  split at h
  · next r =>
    split at h
    · next hg =>
      simp only [Bool.and_eq_true, List.all_eq_true] at hg
      rcases List.mem_cons.mp hc with rfl | hin
      · simp
      · simp [hg.2 c hin]
    · simp at h
  · next r =>
    split at h
    · next hg =>
      simp only [Bool.and_eq_true, List.all_eq_true] at hg
      rcases List.mem_cons.mp hc with rfl | hin
      · simp
      · simp [hg.2 c hin]
    · simp at h
  · split at h
    · next hg =>
      simp only [Bool.and_eq_true, List.all_eq_true] at hg
      simp [hg.2 c hc]
    · simp at h

theorem parseUnsigned_chars {s : List Char} {v : ℚ}
    (h : parseUnsigned s = some v) : ∀ c ∈ s, floatChar c = true := by
  intro c hc
  rcases mem_splitAtPred (fun c => c == 'e' || c == 'E') s c hc with
    hp | ⟨part, hpart, hcp⟩
  · rcases Bool.or_eq_true _ _ |>.mp hp with h' | h' <;>
      · rw [beq_iff_eq] at h'
        subst h'
        decide
  · unfold parseUnsigned at h
    split at h
    · next m heq =>
      rw [heq] at hpart
      simp only [List.mem_singleton] at hpart
      subst hpart
      have := parseDec_chars h c hcp
      simp only [floatChar]
      rcases Bool.or_eq_true _ _ |>.mp this with h' | h' <;> simp [h']
    · next m ex heq =>
      rw [heq] at hpart
      split at h
      · next v1 e1 hm he =>
        rcases List.mem_cons.mp hpart with rfl | hpart'
        · have := parseDec_chars hm c hcp
          simp only [floatChar]
          rcases Bool.or_eq_true _ _ |>.mp this with h' | h' <;> simp [h']
        · simp only [List.mem_singleton] at hpart'
          subst hpart'
          have := parseExpInt_chars he c hcp
          simp only [floatChar]
          rcases Bool.or_eq_true _ _ |>.mp this with h' | h'
          · rcases Bool.or_eq_true _ _ |>.mp h' with h'' | h'' <;> simp [h'']
          · simp [h']
      · exact absurd h (by simp)
    · exact absurd h (by simp)

theorem pyFloat_nil : pyFloat [] = none := rfl

theorem pyFloat_chars {s : List Char} {v : ℚ} (h : pyFloat s = some v) :
    ∀ c ∈ s, floatChar c = true := by
  intro c hc
  unfold pyFloat at h
  split at h
  · next r =>
    rcases List.mem_cons.mp hc with rfl | hin
    · decide
    · exact parseUnsigned_chars h c hin
  · next r =>
    rcases List.mem_cons.mp hc with rfl | hin
    · decide
    · simp only [Option.map_eq_some'] at h
      obtain ⟨v', hv', _⟩ := h
      exact parseUnsigned_chars hv' c hin
  · exact parseUnsigned_chars h c hc

theorem pyFloat_ne_nil {s : List Char} {v : ℚ} (h : pyFloat s = some v) :
    s ≠ [] := by
  rintro rfl
  rw [pyFloat_nil] at h
  exact Option.noConfusion h

theorem floatChar_ne_x {c : Char} (h : floatChar c = true) :
    (c == 'x') = false := by
  cases hx : c == 'x' with
  | false => rfl
  | true =>
    rw [beq_iff_eq] at hx
    subst hx
    exact absurd h (by decide)

theorem floatChar_not_space {c : Char} (h : floatChar c = true) :
    isPySpace c = false := by
  cases hs : isPySpace c with
  | false => rfl
  | true =>
    exfalso
    have hs' : c = ' ' ∨ c = '\t' ∨ c = '\n' ∨ c = '\r' ∨ c = '\x0b' ∨ c = '\x0c' := by
      simpa [isPySpace, or_assoc] using hs
    rcases hs' with rfl | rfl | rfl | rfl | rfl | rfl <;> exact absurd h (by decide)

theorem replaceX_eq_self {s : List Char} (hx : ∀ c ∈ s, (c == 'x') = false) :
    replaceX s = s := by
  unfold replaceX
  have hpt : ∀ c ∈ s, (if (c == 'x') = true then ' ' else c) = id c := by
    intro c hc
    rw [hx c hc]
    simp
  rw [List.map_congr_left hpt, List.map_id]

theorem pySplitWs_word {a : List Char} (ha : a ≠ [])
    (hn : ∀ c ∈ a, isPySpace c = false) : pySplitWs a = [a] := by
  induction a with
  | nil => exact absurd rfl ha
  | cons c a' ih =>
    cases a' with
    | nil => simp [pySplitWs, hn c (List.mem_cons_self c [])]
    | cons d a'' =>
      have hc := hn c (List.mem_cons_self c (d :: a''))
      have hd := hn d (List.mem_cons_of_mem _ (List.mem_cons_self d a''))
      rw [show pySplitWs (c :: d :: a'') =
        (if isPySpace c then pySplitWs (d :: a'')
         else if isPySpace d then [c] :: pySplitWs a''
         else
           match pySplitWs (d :: a'') with
           | [] => [[c]]
           | w :: ws => (c :: w) :: ws) from rfl,
        if_neg (by simp [hc]), if_neg (by simp [hd]),
        ih (by simp) (fun e he => hn e (List.mem_cons_of_mem _ he))]

theorem pySplitWs_word_sep {a : List Char} (s : List Char) (ha : a ≠ [])
    (hn : ∀ c ∈ a, isPySpace c = false) :
    pySplitWs (a ++ ' ' :: s) = a :: pySplitWs s := by
  induction a with
  | nil => exact absurd rfl ha
  | cons c a' ih =>
    cases a' with
    | nil =>
      have hc := hn c (List.mem_cons_self c [])
      rw [show ([c] ++ ' ' :: s) = c :: ' ' :: s from rfl]
      rw [show pySplitWs (c :: ' ' :: s) =
        (if isPySpace c then pySplitWs (' ' :: s)
         else if isPySpace ' ' then [c] :: pySplitWs s
         else
           match pySplitWs (' ' :: s) with
           | [] => [[c]]
           | w :: ws => (c :: w) :: ws) from rfl,
        if_neg (by simp [hc]), if_pos (by decide)]
    | cons d a'' =>
      have hc := hn c (List.mem_cons_self c (d :: a''))
      have hd := hn d (List.mem_cons_of_mem _ (List.mem_cons_self d a''))
      rw [show ((c :: d :: a'') ++ ' ' :: s) = c :: d :: (a'' ++ ' ' :: s) from rfl]
      rw [show pySplitWs (c :: d :: (a'' ++ ' ' :: s)) =
        (if isPySpace c then pySplitWs (d :: (a'' ++ ' ' :: s))
         else if isPySpace d then [c] :: pySplitWs (a'' ++ ' ' :: s)
         else
           match pySplitWs (d :: (a'' ++ ' ' :: s)) with
           | [] => [[c]]
           | w :: ws => (c :: w) :: ws) from rfl,
        if_neg (by simp [hc]), if_neg (by simp [hd])]
      have ih' := ih (by simp) (fun e he => hn e (List.mem_cons_of_mem _ he))
      rw [show (d :: a'') ++ ' ' :: s = d :: (a'' ++ ' ' :: s) from rfl] at ih'
      rw [ih']

theorem pyLower_append (a b : List Char) :
    pyLower (a ++ b) = pyLower a ++ pyLower b := by
  simp [pyLower]

/-- The positive half of the stock-parsing contract: any descriptor of the
form `WxT` whose fields parse as positive floats parses to exactly those
two values. -/
theorem parse_lumber_valid (w t : List Char) (W T : ℚ)
    (hw : pyFloat (pyLower w) = some W) (ht : pyFloat (pyLower t) = some T)
    (hW : 0 < W) (hT : 0 < T) :
    parse_lumber (w ++ 'x' :: t) = .ok (W, T) := by
  have hwc := pyFloat_chars hw
  have htc := pyFloat_chars ht
  have hwne := pyFloat_ne_nil hw
  have htne := pyFloat_ne_nil ht
  have e1 : pyLower (w ++ 'x' :: t) = pyLower w ++ 'x' :: pyLower t := by
    rw [pyLower_append]
    unfold pyLower
    rw [List.map_cons, show Char.toLower 'x' = 'x' from by decide]
  have e2 : replaceX (pyLower w ++ 'x' :: pyLower t) =
      pyLower w ++ ' ' :: pyLower t := by
    unfold replaceX
    rw [List.map_append, List.map_cons]
    rw [show List.map (fun c => if (c == 'x') = true then ' ' else c) (pyLower w) =
      replaceX (pyLower w) from rfl]
    rw [show List.map (fun c => if (c == 'x') = true then ' ' else c) (pyLower t) =
      replaceX (pyLower t) from rfl]
    rw [replaceX_eq_self (fun c hc => floatChar_ne_x (hwc c hc)),
      replaceX_eq_self (fun c hc => floatChar_ne_x (htc c hc))]
    simp
  have e3 : pySplitWs (pyLower w ++ ' ' :: pyLower t) =
      [pyLower w, pyLower t] := by
    rw [pySplitWs_word_sep _ hwne (fun c hc => floatChar_not_space (hwc c hc)),
      pySplitWs_word htne (fun c hc => floatChar_not_space (htc c hc))]
  unfold parse_lumber
  rw [e1, e2, e3]
  simp only [hw, ht]
  rw [if_neg (by push_neg; exact ⟨hW, hT⟩)]

/-! ### Template data model (`templates/base.py`) -/

/-- Python's `value or default` for an optional string argument: `None`
and the empty string both fall back to the default. -/
def pyOrDefault (j : Option (List Char)) (d : List Char) : List Char :=
  match j with
  | none => d
  | some s => if s.isEmpty then d else s

/-- `JOINT_COLORS`: joint type to marker color. -/
def JOINT_COLORS : List (List Char × List Char) :=
  [(strL "dado", strL "#E53935"),
   (strL "rabbet", strL "#1E88E5"),
   (strL "finger_joint", strL "#FB8C00"),
   (strL "miter", strL "#8E24AA"),
   (strL "mortise_tenon", strL "#43A047"),
   (strL "butt", strL "#757575"),
   (strL "bracket", strL "#FDD835")]

/-- `JOINT_COLORS.get(joint_type, JOINT_COLORS["butt"])`. -/
def jointColor (joint_type : List Char) : List Char :=
  match JOINT_COLORS.lookup joint_type with
  | some c => c
  | none => strL "#757575"

/-- `JointMarker`: declarative specification of a visual joint marker. -/
structure JointMarker where
  name : List Char
  joint_type : List Char
  x : ℚ
  y : ℚ
  z : ℚ
  width : ℚ
  height : ℚ
  depth : ℚ
deriving DecidableEq

/-- `JointMarker.color`. -/
def JointMarker.color (m : JointMarker) : List Char := jointColor m.joint_type

/-- `LumberPiece`: one entry of a cut list. -/
structure LumberPiece where
  name : List Char
  width : ℚ
  height : ℚ
  length : ℚ
  quantity : ℤ
  material : List Char
  notes : List Char
deriving DecidableEq

/-- `TemplateResult`: outcome of one `generate()` call. -/
structure TemplateResult where
  success : Bool
  ruby_code : List Char := []
  cut_list : List LumberPiece := []
  error : List Char := []
deriving DecidableEq

/-- `BaseTemplate._mm`: format a value as a Ruby `mm` unit. -/
def mmStr (v : ℚ) : List Char := pyFloatStr v ++ strL ".mm"

/-- `BaseTemplate._create_board_ruby`: Ruby code creating one board as a
named group (direct transliteration of the f-string). -/
def create_board_ruby (name : List Char) (width height depth x y z : ℚ) :
    List Char :=
  strL "\n# Create " ++ name ++
  strL "\ngroup = model.active_entities.add_group\ngroup.name = \"" ++ name ++
  strL "\"\nentities = group.entities\n\n# Create face and extrude\npts = [\n  [" ++
  mmStr x ++ strL ", " ++ mmStr y ++ strL ", " ++ mmStr z ++ strL "],\n  [" ++
  mmStr (x + width) ++ strL ", " ++ mmStr y ++ strL ", " ++ mmStr z ++ strL "],\n  [" ++
  mmStr (x + width) ++ strL ", " ++ mmStr (y + depth) ++ strL ", " ++ mmStr z ++ strL "],\n  [" ++
  mmStr x ++ strL ", " ++ mmStr (y + depth) ++ strL ", " ++ mmStr z ++
  strL "]\n]\nface = entities.add_face(pts)\nface.reverse! if face.normal.z < 0\nface.pushpull(" ++
  mmStr height ++ strL ")\n"

/-- The Ruby-variable form of a marker name:
`name.lower().replace(" ", "_").replace("-", "_")`. -/
def pyVarName (s : List Char) : List Char :=
  s.map (fun c =>
    let c' := Char.toLower c
    if c' == ' ' then '_' else if c' == '-' then '_' else c')

/-- `BaseTemplate._create_joint_marker_ruby` (direct transliteration). -/
def create_joint_marker_ruby (m : JointMarker) : List Char :=
  let var_name := pyVarName m.name
  let mat_name := strL "Joint_" ++ m.joint_type
  strL "\n# Create joint marker: " ++ m.name ++
  strL "\nmarker_group = model.active_entities.add_group\nmarker_group.name = \"Joint: " ++
  m.name ++
  strL "\"\nmarker_ents = marker_group.entities\n\nmarker_pts = [\n  [" ++
  mmStr m.x ++ strL ", " ++ mmStr m.y ++ strL ", " ++ mmStr m.z ++ strL "],\n  [" ++
  mmStr (m.x + m.width) ++ strL ", " ++ mmStr m.y ++ strL ", " ++ mmStr m.z ++ strL "],\n  [" ++
  mmStr (m.x + m.width) ++ strL ", " ++ mmStr (m.y + m.depth) ++ strL ", " ++ mmStr m.z ++ strL "],\n  [" ++
  mmStr m.x ++ strL ", " ++ mmStr (m.y + m.depth) ++ strL ", " ++ mmStr m.z ++
  strL "]\n]\nmarker_face = marker_ents.add_face(marker_pts)\nmarker_face.reverse! if marker_face.normal.z < 0\nmarker_face.pushpull(" ++
  mmStr m.height ++
  strL ")\n\n# Apply colored material\n" ++
  var_name ++ strL "_mat = model.materials[\"" ++ mat_name ++
  strL "\"] || model.materials.add(\"" ++ mat_name ++ strL "\")\n" ++
  var_name ++ strL "_mat.color = \"" ++ m.color ++
  strL "\"\nmarker_group.material = " ++ var_name ++ strL "_mat\n"

/-- Python `"\n".join(parts)`. -/
def joinNL : List (List Char) → List Char
  | [] => []
  | [p] => p
  | p :: rest => p ++ '\n' :: joinNL rest

/-- `BaseTemplate._generate_markers_ruby`: all markers, or nothing when
marker display is disabled or the marker list is empty. -/
def generate_markers_ruby (show_joints : Bool) (markers : List JointMarker) :
    List Char :=
  if !show_joints then []
  else if markers.isEmpty then []
  else joinNL (strL "\n# Joint markers" :: markers.map create_joint_marker_ruby)

/-- `BaseTemplate._wrap_in_operation` (direct transliteration). -/
def wrap_in_operation (ruby_code : List Char) (operation_name : List Char) :
    List Char :=
  strL "\nmodel = Sketchup.active_model\nmodel.start_operation(\"" ++
  operation_name ++
  strL "\", true)\n\nbegin\n" ++ ruby_code ++
  strL "\n  model.commit_operation\n  \"Created " ++ operation_name ++
  strL " successfully\"\nrescue => e\n  model.abort_operation\n  raise e\nend\n"

/-! ### Rational stand-ins for the float math functions used by
`shelf_bracket.py` (`math.sqrt`, `math.atan2`, `math.degrees`).  These are
deterministic computable approximations of the IEEE-double functions; no
verified claim depends on their numeric values (they only feed cut-list
note strings and one board extent). -/

/-- Truncate to 15 decimal places (keeps intermediate rationals small). -/
def roundP (q : ℚ) : ℚ := (⌊q * 10 ^ 15⌋ : ℚ) / 10 ^ 15

/-- Modelled approximation of `math.sqrt` (integer square root at 12
decimal digits of precision). -/
def sqrtQ (q : ℚ) : ℚ :=
  if q ≤ 0 then 0 else (Nat.sqrt (⌊q * 10 ^ 24⌋).natAbs : ℚ) / 10 ^ 12

/-- Rational approximation of π. -/
def piQ : ℚ := 314159265358979323846 / 10 ^ 20

/-- Taylor series for arctangent on small arguments. -/
def atanSmall (x : ℚ) : ℚ :=
  (List.range 12).foldl
    (fun acc k => acc + (-1 : ℚ) ^ k * x ^ (2 * k + 1) / ((2 * k + 1 : ℕ) : ℚ)) 0

/-- Modelled approximation of `math.atan` via two half-angle reductions. -/
def atanQ (x : ℚ) : ℚ :=
  let r1 := roundP (x / (1 + sqrtQ (1 + x ^ 2)))
  let r2 := roundP (r1 / (1 + sqrtQ (1 + r1 ^ 2)))
  4 * atanSmall r2

/-- Modelled approximation of `math.degrees(math.atan2(v, h))` for the
first-quadrant arguments the shelf-bracket template produces. -/
def atan2DegQ (v h : ℚ) : ℚ := roundP (atanQ (v / h) * 180 / piQ)

/-- Python `f"{q:.1f}"`: fixed-point rendering with one decimal digit
(rounding to nearest; the tie-breaking mode is irrelevant to the claims). -/
def fmt1f (q : ℚ) : List Char :=
  let m := ⌊q * 10 + 1 / 2⌋
  if m < 0 then '-' :: (natStr (m.natAbs / 10) ++ '.' :: [digitCh (m.natAbs % 10)])
  else natStr (m.natAbs / 10) ++ '.' :: [digitCh (m.natAbs % 10)]

/-! ### Bookshelf template (`templates/bookshelf.py`) -/

/-- Instance state of `BookshelfTemplate` (base fields plus the shelf
count and the mutable `_shelf_positions` cache). -/
structure BookshelfT where
  width : ℚ
  height : ℚ
  depth : ℚ
  lumber_width : ℚ
  lumber_thickness : ℚ
  joinery : List Char
  material : List Char
  region : List Char
  show_joints : Bool
  shelves : ℤ
  shelf_positions : List ℚ
deriving DecidableEq

/-- `BookshelfTemplate.__init__` (defaults `width=600, height=1000,
depth=300, shelves=3, lumber="90x19"`, default joinery `"dado"`); lumber
parsing may fail with a `ValueError`. -/
def bookshelfInit (width height depth : ℚ) (shelves : ℤ) (lumber : List Char)
    (joinery : Option (List Char)) (material region : List Char)
    (show_joints : Bool) : Except (List Char) BookshelfT :=
  match parse_lumber lumber with
  | .error e => .error e
  | .ok (lw, lt) =>
    .ok { width := width, height := height, depth := depth,
          lumber_width := lw, lumber_thickness := lt,
          joinery := pyOrDefault joinery (strL "dado"),
          material := material, region := region, show_joints := show_joints,
          shelves := max 1 shelves, shelf_positions := [] }

/-- `BookshelfTemplate._get_joint_markers`: two dado markers (left and
right side) per recorded shelf position. -/
def bookshelfJointMarkers (t : BookshelfT) : List JointMarker :=
  if t.shelf_positions.isEmpty then []
  else
    let side_thickness := t.lumber_thickness
    let shelf_thickness := t.lumber_thickness
    let marker_thickness : ℚ := 1 / 2
    t.shelf_positions.enum.flatMap (fun p =>
      [ { name := strL "Dado Left " ++ natStr (p.1 + 1),
          joint_type := t.joinery,
          x := side_thickness - marker_thickness, y := 0, z := p.2,
          width := marker_thickness, height := shelf_thickness,
          depth := t.depth },
        { name := strL "Dado Right " ++ natStr (p.1 + 1),
          joint_type := t.joinery,
          x := t.width - side_thickness, y := 0, z := p.2,
          width := marker_thickness, height := shelf_thickness,
          depth := t.depth } ])

/-- z-position of shelf `i` (0-based), given stock thickness and spacing. -/
def bookshelfShelfZ (shelf_thickness shelf_spacing : ℚ) (i : Nat) : ℚ :=
  shelf_thickness + ((i : ℚ) + 1) * shelf_spacing + (i : ℚ) * shelf_thickness

/-- The validation error message of `BookshelfTemplate.generate`. -/
def bookshelfHeightMsg (height : ℚ) (shelves : ℤ) (shelf_thickness min_height : ℚ) :
    List Char :=
  strL "Height " ++ pyFloatStr height ++ strL "mm is too small for " ++
  intStr shelves ++ strL " shelves with " ++ pyFloatStr shelf_thickness ++
  strL "mm lumber. Minimum height required: " ++ pyFloatStr min_height ++ strL "mm"

/-- `BookshelfTemplate.generate`, with the `_shelf_positions` mutation made
explicit (the returned state carries the updated positions; markers are
generated from that updated state, as in the source where the hook reads
the mutated instance). -/
def bookshelfGenerate (t : BookshelfT) : BookshelfT × TemplateResult :=
  let side_thickness := t.lumber_thickness
  let shelf_thickness := t.lumber_thickness
  let interior_width := t.width - 2 * side_thickness
  let total_shelf_height := (t.shelves : ℚ) * shelf_thickness
  let top_bottom_thickness := 2 * shelf_thickness
  let available_height := t.height - total_shelf_height - top_bottom_thickness
  if available_height ≤ 0 then
    let min_height := total_shelf_height + top_bottom_thickness + ((t.shelves : ℚ) + 1)
    (t, { success := false,
          error := bookshelfHeightMsg t.height t.shelves shelf_thickness min_height })
  else
    let shelf_spacing := available_height / ((t.shelves : ℚ) + 1)
    let cut_list : List LumberPiece :=
      [ { name := strL "Side Panel", width := t.lumber_width,
          height := t.height, length := t.depth, quantity := 2,
          material := t.material, notes := strL "Left and right sides" },
        { name := strL "Shelf", width := t.lumber_width,
          height := interior_width, length := t.depth, quantity := t.shelves,
          material := t.material,
          notes := strL "Fixed shelves, " ++ t.joinery ++
            strL " joints (red markers)" },
        { name := strL "Top Panel", width := t.lumber_width,
          height := interior_width, length := t.depth, quantity := 1,
          material := t.material, notes := strL "Top of bookshelf" },
        { name := strL "Bottom Panel", width := t.lumber_width,
          height := interior_width, length := t.depth, quantity := 1,
          material := t.material, notes := strL "Bottom of bookshelf" } ]
    let positions : List ℚ :=
      0 :: (List.range t.shelves.toNat).map
        (bookshelfShelfZ shelf_thickness shelf_spacing) ++
        [t.height - shelf_thickness]
    let t' := { t with shelf_positions := positions }
    let ruby_parts : List (List Char) :=
      [ create_board_ruby (strL "Left Side") side_thickness t.height t.depth 0 0 0,
        create_board_ruby (strL "Right Side") side_thickness t.height t.depth
          (t.width - side_thickness) 0 0,
        create_board_ruby (strL "Top") interior_width shelf_thickness t.depth
          side_thickness 0 (t.height - shelf_thickness),
        create_board_ruby (strL "Bottom") interior_width shelf_thickness t.depth
          side_thickness 0 0 ] ++
      (List.range t.shelves.toNat).map (fun i =>
        create_board_ruby (strL "Shelf " ++ natStr (i + 1)) interior_width
          shelf_thickness t.depth side_thickness 0
          (bookshelfShelfZ shelf_thickness shelf_spacing i)) ++
      [generate_markers_ruby t'.show_joints (bookshelfJointMarkers t')]
    let ruby_code := wrap_in_operation (joinNL ruby_parts)
      (strL "Bookshelf " ++ intStr (pyTrunc t.width) ++ strL "x" ++
       intStr (pyTrunc t.height) ++ strL "x" ++ intStr (pyTrunc t.depth))
    (t', { success := true, ruby_code := ruby_code, cut_list := cut_list })

/-- Construct a bookshelf template and run `generate()` once, as
`build_project` does; the constructor's `ValueError` propagates. -/
def runBookshelf (width height depth : ℚ) (shelves : ℤ) (lumber : List Char)
    (joinery : Option (List Char)) (material region : List Char)
    (show_joints : Bool) : Except (List Char) TemplateResult :=
  (bookshelfInit width height depth shelves lumber joinery material region
    show_joints).map (fun t => (bookshelfGenerate t).2)

/-! ### Box template (`templates/box.py`) -/

/-- Instance state of `BoxTemplate`. -/
structure BoxT where
  width : ℚ
  height : ℚ
  depth : ℚ
  lumber_width : ℚ
  lumber_thickness : ℚ
  joinery : List Char
  material : List Char
  region : List Char
  show_joints : Bool
  has_lid : Bool
  box_height : ℚ
  wall_thickness : ℚ
  bottom_thickness : ℚ
  interior_depth : ℚ
deriving DecidableEq

/-- `BoxTemplate.__init__` (defaults `200×100×150`, `has_lid=True`,
lumber `"90x12"`, joinery `"finger_joint"`); caches start at `0`. -/
def boxInit (width height depth : ℚ) (has_lid : Bool) (lumber : List Char)
    (joinery : Option (List Char)) (material region : List Char)
    (show_joints : Bool) : Except (List Char) BoxT :=
  match parse_lumber lumber with
  | .error e => .error e
  | .ok (lw, lt) =>
    .ok { width := width, height := height, depth := depth,
          lumber_width := lw, lumber_thickness := lt,
          joinery := pyOrDefault joinery (strL "finger_joint"),
          material := material, region := region, show_joints := show_joints,
          has_lid := has_lid, box_height := 0, wall_thickness := 0,
          bottom_thickness := 0, interior_depth := 0 }

/-- `BoxTemplate._get_joint_markers`: four corner joints plus four bottom
rabbet markers. -/
def boxJointMarkers (t : BoxT) : List JointMarker :=
  if t.box_height ≤ 0 then []
  else
    let marker_thickness : ℚ := 1 / 2
    let wall := t.wall_thickness
    let bottom_z := t.bottom_thickness
    [ { name := strL "Corner Front-Left", joint_type := t.joinery,
        x := 0, y := wall - marker_thickness, z := bottom_z,
        width := wall, height := t.box_height, depth := marker_thickness },
      { name := strL "Corner Front-Right", joint_type := t.joinery,
        x := t.width - wall, y := wall - marker_thickness, z := bottom_z,
        width := wall, height := t.box_height, depth := marker_thickness },
      { name := strL "Corner Back-Left", joint_type := t.joinery,
        x := 0, y := t.depth - wall, z := bottom_z,
        width := wall, height := t.box_height, depth := marker_thickness },
      { name := strL "Corner Back-Right", joint_type := t.joinery,
        x := t.width - wall, y := t.depth - wall, z := bottom_z,
        width := wall, height := t.box_height, depth := marker_thickness },
      { name := strL "Bottom Front", joint_type := strL "rabbet",
        x := wall, y := wall, z := bottom_z - marker_thickness,
        width := t.width - 2 * wall, height := marker_thickness,
        depth := marker_thickness },
      { name := strL "Bottom Back", joint_type := strL "rabbet",
        x := wall, y := t.depth - wall - marker_thickness,
        z := bottom_z - marker_thickness,
        width := t.width - 2 * wall, height := marker_thickness,
        depth := marker_thickness },
      { name := strL "Bottom Left", joint_type := strL "rabbet",
        x := wall, y := wall, z := bottom_z - marker_thickness,
        width := marker_thickness, height := marker_thickness,
        depth := t.interior_depth },
      { name := strL "Bottom Right", joint_type := strL "rabbet",
        x := t.width - wall - marker_thickness, y := wall,
        z := bottom_z - marker_thickness,
        width := marker_thickness, height := marker_thickness,
        depth := t.interior_depth } ]

/-- The first validation message of `BoxTemplate.generate`. -/
def boxHeightMsg (height wall_thickness : ℚ) (has_lid : Bool) (min_height : ℚ) :
    List Char :=
  strL "Height " ++ pyFloatStr height ++
  strL "mm is too small for a box with " ++ pyFloatStr wall_thickness ++
  strL "mm lumber" ++ (if has_lid then strL " and lid" else []) ++
  strL ". Minimum height required: " ++ pyFloatStr min_height ++ strL "mm"

/-- The second validation message of `BoxTemplate.generate`. -/
def boxDimsMsg (width depth wall_thickness min_dim : ℚ) : List Char :=
  strL "Width (" ++ pyFloatStr width ++ strL "mm) or depth (" ++
  pyFloatStr depth ++ strL "mm) is too small for " ++
  pyFloatStr wall_thickness ++ strL "mm lumber. Minimum required: " ++
  pyFloatStr min_dim ++ strL "mm"

/-- `BoxTemplate.generate`, with the cached-dimension mutation explicit. -/
def boxGenerate (t : BoxT) : BoxT × TemplateResult :=
  let wall_thickness := t.lumber_thickness
  let bottom_thickness := t.lumber_thickness
  let interior_width := t.width - 2 * wall_thickness
  let interior_depth := t.depth - 2 * wall_thickness
  let box_height0 := t.height - bottom_thickness
  let box_height := if t.has_lid then box_height0 - wall_thickness else box_height0
  if box_height ≤ 0 then
    let min_height :=
      if t.has_lid then bottom_thickness + wall_thickness + 1
      else bottom_thickness + 1
    (t, { success := false,
          error := boxHeightMsg t.height wall_thickness t.has_lid min_height })
  else if interior_width ≤ 0 ∨ interior_depth ≤ 0 then
    let min_dim := 2 * wall_thickness + 1
    (t, { success := false,
          error := boxDimsMsg t.width t.depth wall_thickness min_dim })
  else
    let t' := { t with box_height := box_height,
                       wall_thickness := wall_thickness,
                       bottom_thickness := bottom_thickness,
                       interior_depth := interior_depth }
    let cut_list : List LumberPiece :=
      [ { name := strL "Front/Back Panel", width := t.lumber_width,
          height := t.width, length := box_height, quantity := 2,
          material := t.material,
          notes := strL "Front and back, " ++ t.joinery ++
            strL " (orange markers)" },
        { name := strL "Side Panel", width := t.lumber_width,
          height := interior_depth, length := box_height, quantity := 2,
          material := t.material,
          notes := strL "Left and right sides, " ++ t.joinery ++
            strL " (orange markers)" },
        { name := strL "Bottom", width := t.lumber_width,
          height := interior_width, length := interior_depth, quantity := 1,
          material := t.material,
          notes := strL "Bottom panel, rabbet joints (blue markers)" } ] ++
      (if t.has_lid then
        [ { name := strL "Lid", width := t.lumber_width,
            height := t.width + 10, length := t.depth + 10, quantity := 1,
            material := t.material,
            notes := strL "Lid with slight overhang" } ]
       else [])
    let ruby_parts : List (List Char) :=
      [ create_board_ruby (strL "Front") t.width box_height wall_thickness
          0 0 bottom_thickness,
        create_board_ruby (strL "Back") t.width box_height wall_thickness
          0 (t.depth - wall_thickness) bottom_thickness,
        create_board_ruby (strL "Left Side") wall_thickness box_height
          interior_depth 0 wall_thickness bottom_thickness,
        create_board_ruby (strL "Right Side") wall_thickness box_height
          interior_depth (t.width - wall_thickness) wall_thickness
          bottom_thickness,
        create_board_ruby (strL "Bottom") interior_width bottom_thickness
          interior_depth wall_thickness wall_thickness 0 ] ++
      (if t.has_lid then
        [ create_board_ruby (strL "Lid") (t.width + 10) wall_thickness
            (t.depth + 10) (-5) (-5)
            (bottom_thickness + box_height + 20) ]
       else []) ++
      [generate_markers_ruby t'.show_joints (boxJointMarkers t')]
    let ruby_code := wrap_in_operation (joinNL ruby_parts)
      (strL "Box " ++ intStr (pyTrunc t.width) ++ strL "x" ++
       intStr (pyTrunc t.height) ++ strL "x" ++ intStr (pyTrunc t.depth))
    (t', { success := true, ruby_code := ruby_code, cut_list := cut_list })

/-- Construct a box template and run `generate()` once. -/
def runBox (width height depth : ℚ) (has_lid : Bool) (lumber : List Char)
    (joinery : Option (List Char)) (material region : List Char)
    (show_joints : Bool) : Except (List Char) TemplateResult :=
  (boxInit width height depth has_lid lumber joinery material region
    show_joints).map (fun t => (boxGenerate t).2)

/-! ### Table template (`templates/table.py`) -/

/-- The `variant` literal of `TableTemplate`. -/
inductive TableVariant
  | dining
  | coffee
  | end_table
deriving DecidableEq

/-- `VARIANT_DEFAULTS`: default `(width, height, depth)` per variant. -/
def tableVariantDefaults : TableVariant → ℚ × ℚ × ℚ
  | .dining => (1800, 750, 900)
  | .coffee => (1200, 450, 600)
  | .end_table => (500, 500, 500)

/-- `variant.replace("_", " ").title()` for the three legal variants. -/
def tableVariantTitle : TableVariant → List Char
  | .dining => strL "Dining"
  | .coffee => strL "Coffee"
  | .end_table => strL "End"

/-- Instance state of `TableTemplate`. -/
structure TableT where
  width : ℚ
  height : ℚ
  depth : ℚ
  lumber_width : ℚ
  lumber_thickness : ℚ
  joinery : List Char
  material : List Char
  region : List Char
  show_joints : Bool
  variant : TableVariant
  has_aprons : Bool
  has_stretchers : Bool
  leg_inset : ℚ
  leg_size : ℚ
  leg_height : ℚ
  apron_height : ℚ
  apron_thickness : ℚ
  leg_x_positions : List ℚ
  leg_y_positions : List ℚ
  apron_z : ℚ
  stretcher_z : ℚ
deriving DecidableEq

/-- `TableTemplate.__init__` (dimensions default per variant when omitted;
lumber default `"90x45"`, joinery default `"mortise_tenon"`,
`leg_inset` default `50`). -/
def tableInit (width height depth : Option ℚ) (variant : TableVariant)
    (has_aprons has_stretchers : Bool) (leg_inset : ℚ) (lumber : List Char)
    (joinery : Option (List Char)) (material region : List Char)
    (show_joints : Bool) : Except (List Char) TableT :=
  let dflt := tableVariantDefaults variant
  match parse_lumber lumber with
  | .error e => .error e
  | .ok (lw, lt) =>
    .ok { width := width.getD dflt.1, height := height.getD dflt.2.1,
          depth := depth.getD dflt.2.2,
          lumber_width := lw, lumber_thickness := lt,
          joinery := pyOrDefault joinery (strL "mortise_tenon"),
          material := material, region := region, show_joints := show_joints,
          variant := variant, has_aprons := has_aprons,
          has_stretchers := has_stretchers, leg_inset := leg_inset,
          leg_size := 0, leg_height := 0, apron_height := 0,
          apron_thickness := 0, leg_x_positions := [], leg_y_positions := [],
          apron_z := 0, stretcher_z := 0 }

/-- The four markers (up to) of one table leg: apron markers when aprons
are enabled, stretcher markers when stretchers are enabled and the
stretcher z-position came out positive.  `front` and `left` encode the
direction tags of the source's `leg_configs` entries. -/
def tableLegMarkers (t : TableT) (leg_num : Nat) (lx ly : ℚ)
    (front left : Bool) : List JointMarker :=
  let marker_thickness : ℚ := 1 / 2
  let leg := t.leg_size
  let apron_h := t.apron_height
  (if t.has_aprons then
    [ (if front then
        { name := strL "Leg " ++ natStr leg_num ++ strL " Front Apron",
          joint_type := t.joinery,
          x := lx, y := ly - marker_thickness, z := t.apron_z,
          width := leg, height := apron_h, depth := marker_thickness }
       else
        { name := strL "Leg " ++ natStr leg_num ++ strL " Back Apron",
          joint_type := t.joinery,
          x := lx, y := ly + leg, z := t.apron_z,
          width := leg, height := apron_h, depth := marker_thickness }),
      (if left then
        { name := strL "Leg " ++ natStr leg_num ++ strL " Side Apron",
          joint_type := t.joinery,
          x := lx - marker_thickness, y := ly, z := t.apron_z,
          width := marker_thickness, height := apron_h, depth := leg }
       else
        { name := strL "Leg " ++ natStr leg_num ++ strL " Side Apron",
          joint_type := t.joinery,
          x := lx + leg, y := ly, z := t.apron_z,
          width := marker_thickness, height := apron_h, depth := leg }) ]
   else []) ++
  (if t.has_stretchers ∧ 0 < t.stretcher_z then
    [ (if front then
        { name := strL "Leg " ++ natStr leg_num ++ strL " Front Stretcher",
          joint_type := t.joinery,
          x := lx, y := ly - marker_thickness, z := t.stretcher_z,
          width := leg, height := apron_h, depth := marker_thickness }
       else
        { name := strL "Leg " ++ natStr leg_num ++ strL " Back Stretcher",
          joint_type := t.joinery,
          x := lx, y := ly + leg, z := t.stretcher_z,
          width := leg, height := apron_h, depth := marker_thickness }),
      (if left then
        { name := strL "Leg " ++ natStr leg_num ++ strL " Side Stretcher",
          joint_type := t.joinery,
          x := lx - marker_thickness, y := ly, z := t.stretcher_z,
          width := marker_thickness, height := apron_h, depth := leg }
       else
        { name := strL "Leg " ++ natStr leg_num ++ strL " Side Stretcher",
          joint_type := t.joinery,
          x := lx + leg, y := ly, z := t.stretcher_z,
          width := marker_thickness, height := apron_h, depth := leg }) ]
   else [])

/-- `TableTemplate._get_joint_markers` (the source indexes its stored
two-element position lists at `[0]` and `[1]`; this model reads them with
a `getD` default that is never used on states the template produces). -/
def tableJointMarkers (t : TableT) : List JointMarker :=
  if t.leg_size ≤ 0 ∨ t.leg_x_positions.isEmpty then []
  else
    let x0 := t.leg_x_positions.getD 0 0
    let x1 := t.leg_x_positions.getD 1 0
    let y0 := t.leg_y_positions.getD 0 0
    let y1 := t.leg_y_positions.getD 1 0
    tableLegMarkers t 1 x0 y0 true true ++
    tableLegMarkers t 2 x1 y0 true false ++
    tableLegMarkers t 3 x0 y1 false true ++
    tableLegMarkers t 4 x1 y1 false false

/-- The first validation message of `TableTemplate.generate`. -/
def tableDimsMsg (leg_size leg_inset : ℚ) : List Char :=
  strL "Table dimensions too small for " ++ pyFloatStr leg_size ++
  strL "mm legs with " ++ pyFloatStr leg_inset ++
  strL "mm inset. Width must be > " ++
  pyFloatStr (2 * leg_inset + 2 * leg_size) ++
  strL "mm, depth must be > " ++
  pyFloatStr (2 * leg_inset + 2 * leg_size) ++ strL "mm"

/-- The second validation message of `TableTemplate.generate`. -/
def tableHeightMsg (height apron_height min_height : ℚ) : List Char :=
  strL "Table height " ++ pyFloatStr height ++ strL "mm too small for " ++
  pyFloatStr apron_height ++ strL "mm aprons. Minimum height: " ++
  pyFloatStr min_height ++ strL "mm"

/-- `TableTemplate.generate`, with the cached-dimension mutation explicit. -/
def tableGenerate (t : TableT) : TableT × TemplateResult :=
  let leg_size := t.lumber_thickness
  let tabletop_thickness := t.lumber_thickness
  let apron_height := t.lumber_width
  let apron_thickness := t.lumber_thickness
  let lx0 := t.leg_inset
  let lx1 := t.width - t.leg_inset - leg_size
  let ly0 := t.leg_inset
  let ly1 := t.depth - t.leg_inset - leg_size
  let long_apron_length := t.width - 2 * t.leg_inset - 2 * leg_size
  let short_apron_length := t.depth - 2 * t.leg_inset - 2 * leg_size
  let leg_height := t.height - tabletop_thickness
  if long_apron_length ≤ 0 ∨ short_apron_length ≤ 0 then
    (t, { success := false, error := tableDimsMsg leg_size t.leg_inset })
  else if leg_height ≤ apron_height then
    (t, { success := false,
          error := tableHeightMsg t.height apron_height
            (tabletop_thickness + apron_height + 50) })
  else
    let t' := { t with leg_size := leg_size, leg_height := leg_height,
                       apron_height := apron_height,
                       apron_thickness := apron_thickness,
                       leg_x_positions := [lx0, lx1],
                       leg_y_positions := [ly0, ly1],
                       apron_z := if t.has_aprons then leg_height - apron_height else 0,
                       stretcher_z :=
                         if t.has_stretchers then
                           leg_height / 3 - apron_height / 2
                         else 0 }
    let cut_list : List LumberPiece :=
      [ { name := strL "Tabletop", width := tabletop_thickness,
          height := t.width, length := t.depth, quantity := 1,
          material := t.material, notes := strL "Solid or glued-up panel" },
        { name := strL "Leg", width := leg_size, height := leg_size,
          length := leg_height, quantity := 4, material := t.material,
          notes := strL "Square legs, " ++ t.joinery ++
            strL " joints (green markers)" } ] ++
      (if t.has_aprons then
        [ { name := strL "Long Apron", width := apron_thickness,
            height := apron_height, length := long_apron_length, quantity := 2,
            material := t.material,
            notes := strL "Front and back aprons, " ++ t.joinery ++
              strL " (green markers)" },
          { name := strL "Short Apron", width := apron_thickness,
            height := apron_height, length := short_apron_length, quantity := 2,
            material := t.material,
            notes := strL "Side aprons, " ++ t.joinery ++
              strL " (green markers)" } ]
       else []) ++
      (if t.has_stretchers then
        [ { name := strL "Long Stretcher", width := apron_thickness,
            height := apron_height, length := long_apron_length, quantity := 2,
            material := t.material, notes := strL "Front and back stretchers" },
          { name := strL "Short Stretcher", width := apron_thickness,
            height := apron_height, length := short_apron_length, quantity := 2,
            material := t.material, notes := strL "Side stretchers" } ]
       else [])
    let apron_parts : List (List Char) :=
      if t.has_aprons then
        let apron_z := leg_height - apron_height
        [ create_board_ruby (strL "Front Apron") long_apron_length apron_height
            apron_thickness (lx0 + leg_size) ly0 apron_z,
          create_board_ruby (strL "Back Apron") long_apron_length apron_height
            apron_thickness (lx0 + leg_size)
            (ly1 + leg_size - apron_thickness) apron_z,
          create_board_ruby (strL "Left Apron") apron_thickness apron_height
            short_apron_length lx0 (ly0 + leg_size) apron_z,
          create_board_ruby (strL "Right Apron") apron_thickness apron_height
            short_apron_length (lx1 + leg_size - apron_thickness)
            (ly0 + leg_size) apron_z ]
      else []
    let stretcher_parts : List (List Char) :=
      if t.has_stretchers then
        let stretcher_z := leg_height / 3 - apron_height / 2
        [ create_board_ruby (strL "Front Stretcher") long_apron_length
            apron_height apron_thickness (lx0 + leg_size) ly0 stretcher_z,
          create_board_ruby (strL "Back Stretcher") long_apron_length
            apron_height apron_thickness (lx0 + leg_size)
            (ly1 + leg_size - apron_thickness) stretcher_z,
          create_board_ruby (strL "Left Stretcher") apron_thickness
            apron_height short_apron_length lx0 (ly0 + leg_size) stretcher_z,
          create_board_ruby (strL "Right Stretcher") apron_thickness
            apron_height short_apron_length
            (lx1 + leg_size - apron_thickness) (ly0 + leg_size) stretcher_z ]
      else []
    let ruby_parts : List (List Char) :=
      [ create_board_ruby (strL "Tabletop") t.width tabletop_thickness t.depth
          0 0 leg_height,
        create_board_ruby (strL "Leg 1") leg_size leg_height leg_size lx0 ly0 0,
        create_board_ruby (strL "Leg 2") leg_size leg_height leg_size lx1 ly0 0,
        create_board_ruby (strL "Leg 3") leg_size leg_height leg_size lx0 ly1 0,
        create_board_ruby (strL "Leg 4") leg_size leg_height leg_size lx1 ly1 0 ] ++
      apron_parts ++ stretcher_parts ++
      [generate_markers_ruby t'.show_joints (tableJointMarkers t')]
    let ruby_code := wrap_in_operation (joinNL ruby_parts)
      (tableVariantTitle t.variant ++ strL " Table " ++
       intStr (pyTrunc t.width) ++ strL "x" ++ intStr (pyTrunc t.height) ++
       strL "x" ++ intStr (pyTrunc t.depth))
    (t', { success := true, ruby_code := ruby_code, cut_list := cut_list })

/-- Construct a table template and run `generate()` once. -/
def runTable (width height depth : Option ℚ) (variant : TableVariant)
    (has_aprons has_stretchers : Bool) (leg_inset : ℚ) (lumber : List Char)
    (joinery : Option (List Char)) (material region : List Char)
    (show_joints : Bool) : Except (List Char) TemplateResult :=
  (tableInit width height depth variant has_aprons has_stretchers leg_inset
    lumber joinery material region show_joints).map
    (fun t => (tableGenerate t).2)

/-! ### Workbench template (`templates/workbench.py`) -/

/-- The `apron_style` literal of `WorkbenchTemplate`. -/
inductive ApronStyle
  | full
  | rails_only
deriving DecidableEq

/-- Instance state of `WorkbenchTemplate` (no mutable caches: the template
defines no joint-marker hook). -/
structure WorkbenchT where
  width : ℚ
  height : ℚ
  depth : ℚ
  lumber_width : ℚ
  lumber_thickness : ℚ
  joinery : List Char
  material : List Char
  region : List Char
  show_joints : Bool
  has_shelf : Bool
  leg_count : ℤ
  apron_style : ApronStyle
  top_thickness : ℚ
deriving DecidableEq

/-- `WorkbenchTemplate.__init__` (defaults `1800×900×600`, `has_shelf=True`,
`leg_count=4`, `apron_style="full"`, `top_thickness=45`, lumber `"90x45"`,
joinery `"mortise_tenon"`): the leg count escalates to 6 past 2000 mm of
width, and the benchtop thickness is clamped to at least 45 mm. -/
def workbenchInit (width height depth : ℚ) (has_shelf : Bool) (leg_count : ℤ)
    (apron_style : ApronStyle) (top_thickness : ℚ) (lumber : List Char)
    (joinery : Option (List Char)) (material region : List Char)
    (show_joints : Bool) : Except (List Char) WorkbenchT :=
  match parse_lumber lumber with
  | .error e => .error e
  | .ok (lw, lt) =>
    .ok { width := width, height := height, depth := depth,
          lumber_width := lw, lumber_thickness := lt,
          joinery := pyOrDefault joinery (strL "mortise_tenon"),
          material := material, region := region, show_joints := show_joints,
          has_shelf := has_shelf,
          leg_count := if leg_count = 6 ∨ width > 2000 then 6 else 4,
          apron_style := apron_style,
          top_thickness := max 45 top_thickness }

/-- The first validation message of `WorkbenchTemplate.generate`. -/
def workbenchDimsMsg (leg_size min_width : ℚ) : List Char :=
  strL "Workbench dimensions too small for " ++ pyFloatStr leg_size ++
  strL "mm legs. Minimum width: " ++ pyFloatStr min_width ++ strL "mm"

/-- The second validation message of `WorkbenchTemplate.generate`. -/
def workbenchHeightMsg (height min_height : ℚ) : List Char :=
  strL "Workbench height " ++ pyFloatStr height ++
  strL "mm too small. Minimum: " ++ pyFloatStr min_height ++ strL "mm"

/-- `WorkbenchTemplate.generate` (stateless: the instance is not mutated). -/
def workbenchGenerate (t : WorkbenchT) : TemplateResult :=
  let leg_size := t.lumber_thickness
  let apron_height := t.lumber_width
  let apron_thickness := t.lumber_thickness
  let leg_inset : ℚ := 50
  let leg_height := t.height - t.top_thickness
  let shelf_z := leg_height / 3
  let leg_x_positions : List ℚ :=
    if t.leg_count = 6 then
      [leg_inset, (t.width - leg_size) / 2, t.width - leg_inset - leg_size]
    else [leg_inset, t.width - leg_inset - leg_size]
  let ly0 := leg_inset
  let ly1 := t.depth - leg_inset - leg_size
  let long_rail_length :=
    if t.leg_count = 6 then (t.width - leg_size) / 2 - leg_inset - leg_size
    else t.width - 2 * leg_inset - 2 * leg_size
  let short_rail_length := t.depth - 2 * leg_inset - 2 * leg_size
  if long_rail_length ≤ 0 ∨ short_rail_length ≤ 0 then
    { success := false,
      error := workbenchDimsMsg leg_size (2 * leg_inset + 2 * leg_size + 100) }
  else if leg_height < apron_height + 100 then
    { success := false,
      error := workbenchHeightMsg t.height
        (t.top_thickness + apron_height + 200) }
  else
    let rail_qty_multiplier : ℤ := if t.leg_count = 4 then 2 else 4
    let cut_list : List LumberPiece :=
      [ { name := strL "Benchtop", width := t.lumber_width, height := t.width,
          length := t.depth, quantity := 1, material := t.material,
          notes := strL "Laminated top, " ++ pyFloatStr t.top_thickness ++
            strL "mm thick minimum" },
        { name := strL "Leg", width := leg_size, height := leg_size,
          length := leg_height, quantity := t.leg_count,
          material := t.material,
          notes := strL "Heavy square legs, " ++ t.joinery ++
            strL " joints" } ] ++
      (match t.apron_style with
       | .full =>
         [ { name := strL "Long Apron", width := apron_thickness,
             height := apron_height, length := long_rail_length,
             quantity := rail_qty_multiplier, material := t.material,
             notes := strL "Front and back aprons" },
           { name := strL "Short Apron", width := apron_thickness,
             height := apron_height, length := short_rail_length,
             quantity := 2, material := t.material,
             notes := strL "End aprons" } ]
       | .rails_only =>
         [ { name := strL "Long Rail", width := apron_thickness,
             height := apron_height, length := long_rail_length,
             quantity := rail_qty_multiplier * 2, material := t.material,
             notes := strL "Horizontal rails" } ]) ++
      [ { name := strL "Long Stretcher", width := apron_thickness,
          height := apron_height, length := long_rail_length,
          quantity := rail_qty_multiplier, material := t.material,
          notes := strL "Lower stretchers for shelf" },
        { name := strL "Short Stretcher", width := apron_thickness,
          height := apron_height, length := short_rail_length, quantity := 2,
          material := t.material, notes := strL "End stretchers" } ] ++
      (if t.has_shelf then
        [ { name := strL "Lower Shelf", width := t.lumber_width,
            height := t.width - 2 * leg_inset - leg_size,
            length := t.depth - 2 * leg_inset - leg_size, quantity := 1,
            material := t.material,
            notes := strL "Shelf rests on stretchers" } ]
       else [])
    let apron_z := leg_height - apron_height
    let stretcher_z := shelf_z - apron_height
    let leg_parts : List (List Char) :=
      leg_x_positions.enum.flatMap (fun p =>
        [ create_board_ruby (strL "Leg " ++ natStr (2 * p.1 + 1)) leg_size
            leg_height leg_size p.2 ly0 0,
          create_board_ruby (strL "Leg " ++ natStr (2 * p.1 + 2)) leg_size
            leg_height leg_size p.2 ly1 0 ])
    let section_parts (z : ℚ) (front back : List Char) : List (List Char) :=
      (List.range (leg_x_positions.length - 1)).flatMap (fun i =>
        let start_x := leg_x_positions.getD i 0 + leg_size
        let section_length := leg_x_positions.getD (i + 1) 0 - start_x
        [ create_board_ruby (front ++ natStr (i + 1)) section_length
            apron_height apron_thickness start_x ly0 z,
          create_board_ruby (back ++ natStr (i + 1)) section_length
            apron_height apron_thickness start_x
            (ly1 + leg_size - apron_thickness) z ])
    let last_x := leg_x_positions.getD (leg_x_positions.length - 1) 0
    let ruby_parts : List (List Char) :=
      [ create_board_ruby (strL "Benchtop") t.width t.top_thickness t.depth
          0 0 leg_height ] ++
      leg_parts ++
      section_parts apron_z (strL "Front Apron ") (strL "Back Apron ") ++
      [ create_board_ruby (strL "Left Apron") apron_thickness apron_height
          short_rail_length (leg_x_positions.getD 0 0) (ly0 + leg_size)
          apron_z,
        create_board_ruby (strL "Right Apron") apron_thickness apron_height
          short_rail_length (last_x + leg_size - apron_thickness)
          (ly0 + leg_size) apron_z ] ++
      section_parts stretcher_z (strL "Front Stretcher ")
        (strL "Back Stretcher ") ++
      [ create_board_ruby (strL "Left Stretcher") apron_thickness apron_height
          short_rail_length (leg_x_positions.getD 0 0) (ly0 + leg_size)
          stretcher_z,
        create_board_ruby (strL "Right Stretcher") apron_thickness
          apron_height short_rail_length (last_x + leg_size - apron_thickness)
          (ly0 + leg_size) stretcher_z ] ++
      (if t.has_shelf then
        let shelf_x := leg_x_positions.getD 0 0 + leg_size
        let shelf_y := ly0 + leg_size
        [ create_board_ruby (strL "Lower Shelf") (last_x - shelf_x)
            t.lumber_thickness (ly1 - shelf_y) shelf_x shelf_y shelf_z ]
       else [])
    let ruby_code := wrap_in_operation (joinNL ruby_parts)
      (strL "Workbench " ++ intStr (pyTrunc t.width) ++ strL "x" ++
       intStr (pyTrunc t.height) ++ strL "x" ++ intStr (pyTrunc t.depth))
    { success := true, ruby_code := ruby_code, cut_list := cut_list }

/-- Construct a workbench template and run `generate()` once. -/
def runWorkbench (width height depth : ℚ) (has_shelf : Bool) (leg_count : ℤ)
    (apron_style : ApronStyle) (top_thickness : ℚ) (lumber : List Char)
    (joinery : Option (List Char)) (material region : List Char)
    (show_joints : Bool) : Except (List Char) TemplateResult :=
  (workbenchInit width height depth has_shelf leg_count apron_style
    top_thickness lumber joinery material region show_joints).map
    workbenchGenerate

/-! ### Cabinet template (`templates/cabinet.py`) -/

/-- Instance state of `CabinetTemplate` (stateless `generate`). -/
structure CabinetT where
  width : ℚ
  height : ℚ
  depth : ℚ
  lumber_width : ℚ
  lumber_thickness : ℚ
  joinery : List Char
  material : List Char
  region : List Char
  show_joints : Bool
  has_doors : Bool
  door_count : ℤ
  shelf_count : ℤ
  has_base : Bool
  base_height : ℚ
deriving DecidableEq

/-- `CabinetTemplate.__init__` (defaults `600×800×400`, `has_doors=True`,
`door_count=2` clamped to `1..2`, `shelf_count=2` clamped to `≥ 0`,
`has_base=True`, `base_height=80`, lumber `"90x19"`, joinery `"dado"`). -/
def cabinetInit (width height depth : ℚ) (has_doors : Bool)
    (door_count shelf_count : ℤ) (has_base : Bool) (base_height : ℚ)
    (lumber : List Char) (joinery : Option (List Char))
    (material region : List Char) (show_joints : Bool) :
    Except (List Char) CabinetT :=
  match parse_lumber lumber with
  | .error e => .error e
  | .ok (lw, lt) =>
    .ok { width := width, height := height, depth := depth,
          lumber_width := lw, lumber_thickness := lt,
          joinery := pyOrDefault joinery (strL "dado"),
          material := material, region := region, show_joints := show_joints,
          has_doors := has_doors, door_count := max 1 (min 2 door_count),
          shelf_count := max 0 shelf_count, has_base := has_base,
          base_height := base_height }

/-- The first validation message of `CabinetTemplate.generate`. -/
def cabinetWidthMsg (width panel_thickness : ℚ) : List Char :=
  strL "Cabinet width " ++ pyFloatStr width ++ strL "mm too small for " ++
  pyFloatStr panel_thickness ++ strL "mm panels. Minimum: " ++
  pyFloatStr (2 * panel_thickness + 50) ++ strL "mm"

/-- The second validation message of `CabinetTemplate.generate`. -/
def cabinetHeightMsg (height base_height min_height : ℚ) : List Char :=
  strL "Cabinet height " ++ pyFloatStr height ++ strL "mm too small with " ++
  pyFloatStr base_height ++ strL "mm base. Minimum: " ++
  pyFloatStr min_height ++ strL "mm"

/-- `CabinetTemplate.generate`. -/
def cabinetGenerate (t : CabinetT) : TemplateResult :=
  let panel_thickness := t.lumber_thickness
  let door_thickness := t.lumber_thickness
  let carcass_height := t.height - (if t.has_base then t.base_height else 0)
  let interior_width := t.width - 2 * panel_thickness
  let interior_depth := t.depth - panel_thickness
  if interior_width ≤ 0 then
    { success := false, error := cabinetWidthMsg t.width panel_thickness }
  else if carcass_height ≤ panel_thickness * 2 then
    { success := false,
      error := cabinetHeightMsg t.height t.base_height
        (t.base_height + panel_thickness * 3) }
  else
    let available_height := carcass_height - 2 * panel_thickness
    let shelf_spacing :=
      if t.shelf_count > 0 then available_height / ((t.shelf_count : ℚ) + 1)
      else available_height
    let door_width :=
      if t.door_count > 1 then t.width / (t.door_count : ℚ) else t.width
    let door_height := carcass_height
    let cut_list : List LumberPiece :=
      [ { name := strL "Side Panel", width := t.lumber_width,
          height := carcass_height, length := t.depth, quantity := 2,
          material := t.material,
          notes := strL "Left and right sides, " ++ t.joinery ++
            strL " for shelves" },
        { name := strL "Top Panel", width := t.lumber_width,
          height := interior_width, length := t.depth, quantity := 1,
          material := t.material, notes := strL "Top of carcass" },
        { name := strL "Bottom Panel", width := t.lumber_width,
          height := interior_width, length := t.depth, quantity := 1,
          material := t.material, notes := strL "Bottom of carcass" },
        { name := strL "Back Panel", width := t.lumber_width,
          height := interior_width,
          length := carcass_height - 2 * panel_thickness, quantity := 1,
          material := t.material,
          notes := strL "Back panel, rabbeted into sides" } ] ++
      (if t.shelf_count > 0 then
        [ { name := strL "Shelf", width := t.lumber_width,
            height := interior_width, length := interior_depth - 10,
            quantity := t.shelf_count, material := t.material,
            notes := strL "Adjustable shelves, " ++ t.joinery } ]
       else []) ++
      (if t.has_base then
        [ { name := strL "Base/Toe Kick", width := t.lumber_width,
            height := t.width - 2 * panel_thickness, length := t.base_height,
            quantity := 1, material := t.material,
            notes := strL "Toe kick, recessed 50mm from front" } ]
       else []) ++
      (if t.has_doors then
        [ { name := strL "Door", width := t.lumber_width,
            height := door_width - 3, length := door_height - 3,
            quantity := t.door_count, material := t.material,
            notes := strL "Overlay doors with hinges" } ]
       else [])
    let base_z := if t.has_base then t.base_height else 0
    let door_gap : ℚ := 3
    let ruby_parts : List (List Char) :=
      [ create_board_ruby (strL "Left Side") panel_thickness carcass_height
          t.depth 0 0 base_z,
        create_board_ruby (strL "Right Side") panel_thickness carcass_height
          t.depth (t.width - panel_thickness) 0 base_z,
        create_board_ruby (strL "Top") interior_width panel_thickness t.depth
          panel_thickness 0 (base_z + carcass_height - panel_thickness),
        create_board_ruby (strL "Bottom") interior_width panel_thickness
          t.depth panel_thickness 0 base_z,
        create_board_ruby (strL "Back Panel") interior_width
          (carcass_height - 2 * panel_thickness) panel_thickness
          panel_thickness (t.depth - panel_thickness)
          (base_z + panel_thickness) ] ++
      (List.range t.shelf_count.toNat).map (fun i =>
        create_board_ruby (strL "Shelf " ++ natStr (i + 1)) interior_width
          panel_thickness (interior_depth - 10) panel_thickness 0
          (base_z + panel_thickness + ((i : ℚ) + 1) * shelf_spacing)) ++
      (if t.has_base then
        [ create_board_ruby (strL "Toe Kick")
            (t.width - 2 * panel_thickness) t.base_height panel_thickness
            panel_thickness 50 0 ]
       else []) ++
      (if t.has_doors then
        (List.range t.door_count.toNat).map (fun i =>
          create_board_ruby (strL "Door " ++ natStr (i + 1))
            (door_width - door_gap) (door_height - door_gap) door_thickness
            ((i : ℚ) * door_width + door_gap / 2) (-20)
            (base_z + door_gap / 2))
       else [])
    let ruby_code := wrap_in_operation (joinNL ruby_parts)
      (strL "Cabinet " ++ intStr (pyTrunc t.width) ++ strL "x" ++
       intStr (pyTrunc t.height) ++ strL "x" ++ intStr (pyTrunc t.depth))
    { success := true, ruby_code := ruby_code, cut_list := cut_list }

/-- Construct a cabinet template and run `generate()` once. -/
def runCabinet (width height depth : ℚ) (has_doors : Bool)
    (door_count shelf_count : ℤ) (has_base : Bool) (base_height : ℚ)
    (lumber : List Char) (joinery : Option (List Char))
    (material region : List Char) (show_joints : Bool) :
    Except (List Char) TemplateResult :=
  (cabinetInit width height depth has_doors door_count shelf_count has_base
    base_height lumber joinery material region show_joints).map
    cabinetGenerate

/-! ### Desk template (`templates/desk.py`) -/

/-- The `drawer_side` literal of `DeskTemplate`. -/
inductive DrawerSide
  | left
  | right
  | both
deriving DecidableEq

/-- Instance state of `DeskTemplate` (stateless `generate`). -/
structure DeskT where
  width : ℚ
  height : ℚ
  depth : ℚ
  lumber_width : ℚ
  lumber_thickness : ℚ
  joinery : List Char
  material : List Char
  region : List Char
  show_joints : Bool
  has_drawer : Bool
  drawer_side : DrawerSide
  has_keyboard_tray : Bool
  has_back_panel : Bool
deriving DecidableEq

/-- `DeskTemplate.__init__` (defaults `1400×750×700`, `has_drawer=True`,
`drawer_side="right"`, trays/panels off, lumber `"90x19"`, joinery
`"dado"`). -/
def deskInit (width height depth : ℚ) (has_drawer : Bool)
    (drawer_side : DrawerSide) (has_keyboard_tray has_back_panel : Bool)
    (lumber : List Char) (joinery : Option (List Char))
    (material region : List Char) (show_joints : Bool) :
    Except (List Char) DeskT :=
  match parse_lumber lumber with
  | .error e => .error e
  | .ok (lw, lt) =>
    .ok { width := width, height := height, depth := depth,
          lumber_width := lw, lumber_thickness := lt,
          joinery := pyOrDefault joinery (strL "dado"),
          material := material, region := region, show_joints := show_joints,
          has_drawer := has_drawer, drawer_side := drawer_side,
          has_keyboard_tray := has_keyboard_tray,
          has_back_panel := has_back_panel }

/-- The first validation message of `DeskTemplate.generate`. -/
def deskWidthMsg (width : ℚ) : List Char :=
  strL "Desk width " ++ pyFloatStr width ++
  strL "mm too small. Minimum: 600mm"

/-- The second validation message of `DeskTemplate.generate`. -/
def deskHeightMsg (height min_height : ℚ) : List Char :=
  strL "Desk height " ++ pyFloatStr height ++
  strL "mm too small. Minimum: " ++ pyFloatStr min_height ++ strL "mm"

/-- `DeskTemplate.generate`. -/
def deskGenerate (t : DeskT) : TemplateResult :=
  let panel_thickness := t.lumber_thickness
  let desktop_thickness := t.lumber_thickness
  let leg_panel_height := t.height - desktop_thickness
  let leg_panel_depth := t.depth - 50
  let drawer_unit_width : ℚ := 400
  let drawer_height : ℚ := 150
  if t.width < 600 then
    { success := false, error := deskWidthMsg t.width }
  else if leg_panel_height < 400 then
    { success := false,
      error := deskHeightMsg t.height (desktop_thickness + 400) }
  else
    let left_drawer := t.has_drawer ∧
      (t.drawer_side = .left ∨ t.drawer_side = .both)
    let right_drawer := t.has_drawer ∧
      (t.drawer_side = .right ∨ t.drawer_side = .both)
    let left_panel_x : ℚ := 0
    let right_panel_x := t.width - panel_thickness
    let drawer_count : ℤ :=
      (if left_drawer then 1 else 0) + (if right_drawer then 1 else 0)
    let cut_list : List LumberPiece :=
      [ { name := strL "Desktop", width := t.lumber_width, height := t.width,
          length := t.depth, quantity := 1, material := t.material,
          notes := strL "Solid or glued-up panel" },
        { name := strL "Leg Panel", width := t.lumber_width,
          height := leg_panel_depth, length := leg_panel_height, quantity := 2,
          material := t.material, notes := strL "Left and right leg panels" },
        { name := strL "Back Rail", width := t.lumber_width,
          height := t.width - 2 * panel_thickness, length := t.lumber_width,
          quantity := 1, material := t.material,
          notes := strL "Connects leg panels at back" } ] ++
      (if drawer_count > 0 then
        [ { name := strL "Drawer Front", width := t.lumber_width,
            height := drawer_unit_width - 20, length := drawer_height - 10,
            quantity := drawer_count, material := t.material,
            notes := strL "Drawer face" },
          { name := strL "Drawer Side", width := t.lumber_width,
            height := leg_panel_depth - 50, length := drawer_height - 30,
            quantity := drawer_count * 2, material := t.material,
            notes := strL "Left and right drawer sides" },
          { name := strL "Drawer Back", width := t.lumber_width,
            height := drawer_unit_width - 60, length := drawer_height - 30,
            quantity := drawer_count, material := t.material,
            notes := strL "Drawer back panel" },
          { name := strL "Drawer Bottom", width := t.lumber_width,
            height := drawer_unit_width - 60, length := leg_panel_depth - 70,
            quantity := drawer_count, material := t.material,
            notes := strL "Drawer bottom (plywood recommended)" } ]
       else []) ++
      (if t.has_keyboard_tray then
        [ { name := strL "Keyboard Tray", width := t.lumber_width,
            height := 600, length := 300, quantity := 1,
            material := t.material,
            notes := strL "Slides under desktop on runners" } ]
       else []) ++
      (if t.has_back_panel then
        [ { name := strL "Back Panel", width := t.lumber_width,
            height := t.width - 2 * panel_thickness,
            length := leg_panel_height - 200, quantity := 1,
            material := t.material,
            notes := strL "Cable management panel" } ]
       else [])
    let rail_z := leg_panel_height - t.lumber_width - 50
    let drawer_z := leg_panel_height - drawer_height - 50
    let ruby_parts : List (List Char) :=
      [ create_board_ruby (strL "Desktop") t.width desktop_thickness t.depth
          0 0 leg_panel_height,
        create_board_ruby (strL "Left Leg Panel") panel_thickness
          leg_panel_height leg_panel_depth left_panel_x
          (t.depth - leg_panel_depth) 0,
        create_board_ruby (strL "Right Leg Panel") panel_thickness
          leg_panel_height leg_panel_depth right_panel_x
          (t.depth - leg_panel_depth) 0,
        create_board_ruby (strL "Back Rail") (t.width - 2 * panel_thickness)
          t.lumber_width panel_thickness panel_thickness
          (t.depth - panel_thickness) rail_z ] ++
      (if left_drawer then
        [ create_board_ruby (strL "Left Drawer") (drawer_unit_width - 20)
            (drawer_height - 10) (leg_panel_depth - 50)
            (panel_thickness + 10) (t.depth - leg_panel_depth + 25)
            drawer_z ]
       else []) ++
      (if right_drawer then
        [ create_board_ruby (strL "Right Drawer") (drawer_unit_width - 20)
            (drawer_height - 10) (leg_panel_depth - 50)
            (t.width - panel_thickness - drawer_unit_width + 10)
            (t.depth - leg_panel_depth + 25) drawer_z ]
       else []) ++
      (if t.has_keyboard_tray then
        [ create_board_ruby (strL "Keyboard Tray") 600 panel_thickness 300
            ((t.width - 600) / 2) 50 (leg_panel_height - 50) ]
       else []) ++
      (if t.has_back_panel then
        [ create_board_ruby (strL "Back Panel")
            (t.width - 2 * panel_thickness) (leg_panel_height - 200)
            panel_thickness panel_thickness
            (t.depth - panel_thickness - 10) 100 ]
       else [])
    let ruby_code := wrap_in_operation (joinNL ruby_parts)
      (strL "Desk " ++ intStr (pyTrunc t.width) ++ strL "x" ++
       intStr (pyTrunc t.height) ++ strL "x" ++ intStr (pyTrunc t.depth))
    { success := true, ruby_code := ruby_code, cut_list := cut_list }

/-- Construct a desk template and run `generate()` once. -/
def runDesk (width height depth : ℚ) (has_drawer : Bool)
    (drawer_side : DrawerSide) (has_keyboard_tray has_back_panel : Bool)
    (lumber : List Char) (joinery : Option (List Char))
    (material region : List Char) (show_joints : Bool) :
    Except (List Char) TemplateResult :=
  (deskInit width height depth has_drawer drawer_side has_keyboard_tray
    has_back_panel lumber joinery material region show_joints).map
    deskGenerate

/-! ### Cutting board template (`templates/cutting_board.py`) -/

/-- The `pattern` literal of `CuttingBoardTemplate`. -/
inductive GrainPattern
  | edge_grain
  | end_grain
deriving DecidableEq

/-- `pattern.replace("_", " ").title()`. -/
def grainPatternTitle : GrainPattern → List Char
  | .edge_grain => strL "Edge Grain"
  | .end_grain => strL "End Grain"

/-- Instance state of `CuttingBoardTemplate` (stateless `generate`). -/
structure CuttingBoardT where
  width : ℚ
  height : ℚ
  depth : ℚ
  lumber_width : ℚ
  lumber_thickness : ℚ
  joinery : List Char
  material : List Char
  region : List Char
  show_joints : Bool
  pattern : GrainPattern
  stripe_count : ℤ
deriving DecidableEq

/-- `CuttingBoardTemplate.__init__` (defaults `400×25×300`,
`pattern="edge_grain"`, `stripe_count=5` clamped to `≥ 1`, lumber
`"90x25"`, joinery `"butt"`, material `"maple"`). -/
def cuttingBoardInit (width height depth : ℚ) (pattern : GrainPattern)
    (stripe_count : ℤ) (lumber : List Char) (joinery : Option (List Char))
    (material region : List Char) (show_joints : Bool) :
    Except (List Char) CuttingBoardT :=
  match parse_lumber lumber with
  | .error e => .error e
  | .ok (lw, lt) =>
    .ok { width := width, height := height, depth := depth,
          lumber_width := lw, lumber_thickness := lt,
          joinery := pyOrDefault joinery (strL "butt"),
          material := material, region := region, show_joints := show_joints,
          pattern := pattern, stripe_count := max 1 stripe_count }

/-- The first validation message of `CuttingBoardTemplate.generate`. -/
def cuttingBoardThicknessMsg (board_thickness : ℚ) : List Char :=
  strL "Cutting board thickness " ++ pyFloatStr board_thickness ++
  strL "mm is too thin. Minimum recommended: 15mm for durability."

/-- The second validation message of `CuttingBoardTemplate.generate`. -/
def cuttingBoardDimsMsg (width depth : ℚ) : List Char :=
  strL "Cutting board dimensions (" ++ pyFloatStr width ++ strL "x" ++
  pyFloatStr depth ++
  strL "mm) too small. Minimum recommended: 100x100mm."

/-- `CuttingBoardTemplate.generate`. -/
def cuttingBoardGenerate (t : CuttingBoardT) : TemplateResult :=
  let board_thickness := t.height
  if board_thickness < 15 then
    { success := false, error := cuttingBoardThicknessMsg board_thickness }
  else if t.width < 100 ∨ t.depth < 100 then
    { success := false, error := cuttingBoardDimsMsg t.width t.depth }
  else
    let stripe_width := t.width / (t.stripe_count : ℚ)
    let cut_list : List LumberPiece :=
      match t.pattern with
      | .end_grain =>
        [ { name := strL "End Grain Strip", width := t.lumber_width,
            height := board_thickness, length := t.depth,
            quantity := t.stripe_count, material := t.material,
            notes := strL "Cut strips, rotate 90°, glue faces together for end grain pattern" } ]
      | .edge_grain =>
        [ { name := strL "Edge Grain Strip", width := stripe_width,
            height := board_thickness, length := t.depth,
            quantity := t.stripe_count, material := t.material,
            notes := strL "Glue strips edge-to-edge for edge grain pattern" } ]
    let ruby_parts : List (List Char) :=
      [ create_board_ruby (strL "Cutting Board") t.width board_thickness
          t.depth 0 0 0 ]
    let ruby_code := wrap_in_operation (joinNL ruby_parts)
      (grainPatternTitle t.pattern ++ strL " Cutting Board " ++
       intStr (pyTrunc t.width) ++ strL "x" ++ intStr (pyTrunc t.depth))
    { success := true, ruby_code := ruby_code, cut_list := cut_list }

/-- Construct a cutting-board template and run `generate()` once. -/
def runCuttingBoard (width height depth : ℚ) (pattern : GrainPattern)
    (stripe_count : ℤ) (lumber : List Char) (joinery : Option (List Char))
    (material region : List Char) (show_joints : Bool) :
    Except (List Char) TemplateResult :=
  (cuttingBoardInit width height depth pattern stripe_count lumber joinery
    material region show_joints).map cuttingBoardGenerate

/-! ### Tray template (`templates/tray.py`) -/

/-- Instance state of `TrayTemplate` (stateless `generate`). -/
structure TrayT where
  width : ℚ
  height : ℚ
  depth : ℚ
  lumber_width : ℚ
  lumber_thickness : ℚ
  joinery : List Char
  material : List Char
  region : List Char
  show_joints : Bool
  has_handles : Bool
  wall_height : ℚ
  has_dividers : Bool
  divider_count : ℤ
deriving DecidableEq

/-- `TrayTemplate.__init__` (defaults `400×50×300`, `has_handles=True`,
`wall_height=40` clamped to `height − 5`, `divider_count=1` clamped to
`≥ 1`, lumber `"90x12"`, joinery `"rabbet"`, material `"walnut"`). -/
def trayInit (width height depth : ℚ) (has_handles : Bool) (wall_height : ℚ)
    (has_dividers : Bool) (divider_count : ℤ) (lumber : List Char)
    (joinery : Option (List Char)) (material region : List Char)
    (show_joints : Bool) : Except (List Char) TrayT :=
  match parse_lumber lumber with
  | .error e => .error e
  | .ok (lw, lt) =>
    .ok { width := width, height := height, depth := depth,
          lumber_width := lw, lumber_thickness := lt,
          joinery := pyOrDefault joinery (strL "rabbet"),
          material := material, region := region, show_joints := show_joints,
          has_handles := has_handles,
          wall_height := min wall_height (height - 5),
          has_dividers := has_dividers,
          divider_count := max 1 divider_count }

/-- The first validation message of `TrayTemplate.generate`. -/
def trayDimsMsg (width depth wall_thickness : ℚ) : List Char :=
  strL "Tray dimensions (" ++ pyFloatStr width ++ strL "x" ++
  pyFloatStr depth ++ strL "mm) too small for " ++
  pyFloatStr wall_thickness ++ strL "mm walls. Minimum: " ++
  pyFloatStr (2 * wall_thickness + 50) ++ strL "mm each side."

/-- The second validation message of `TrayTemplate.generate`. -/
def trayWallMsg (wall_height : ℚ) : List Char :=
  strL "Wall height " ++ pyFloatStr wall_height ++
  strL "mm too small. Minimum: 20mm"

/-- `TrayTemplate.generate`. -/
def trayGenerate (t : TrayT) : TemplateResult :=
  let wall_thickness := t.lumber_thickness
  let bottom_thickness := t.lumber_thickness
  let interior_width := t.width - 2 * wall_thickness
  let interior_depth := t.depth - 2 * wall_thickness
  if interior_width ≤ 0 ∨ interior_depth ≤ 0 then
    { success := false, error := trayDimsMsg t.width t.depth wall_thickness }
  else if t.wall_height < 20 then
    { success := false, error := trayWallMsg t.wall_height }
  else
    let cut_list : List LumberPiece :=
      [ { name := strL "Bottom", width := t.lumber_width,
          height := interior_width, length := interior_depth, quantity := 1,
          material := t.material,
          notes := strL "Bottom panel, rabbeted into walls" },
        { name := strL "Long Wall", width := wall_thickness,
          height := t.width, length := t.wall_height, quantity := 2,
          material := t.material,
          notes := strL "Front and back walls, " ++ t.joinery ++
            strL " corners" },
        { name := strL "End Wall", width := wall_thickness,
          height := interior_depth, length := t.wall_height, quantity := 2,
          material := t.material,
          notes := if t.has_handles then
              strL "End walls with handle cutouts"
            else strL "End walls" } ] ++
      (if t.has_dividers then
        [ { name := strL "Divider", width := wall_thickness,
            height := interior_depth - 10, length := t.wall_height - 10,
            quantity := t.divider_count, material := t.material,
            notes := strL "Internal dividers" } ]
       else [])
    let ruby_parts : List (List Char) :=
      [ create_board_ruby (strL "Bottom") interior_width bottom_thickness
          interior_depth wall_thickness wall_thickness 0,
        create_board_ruby (strL "Front Wall") t.width t.wall_height
          wall_thickness 0 0 bottom_thickness,
        create_board_ruby (strL "Back Wall") t.width t.wall_height
          wall_thickness 0 (t.depth - wall_thickness) bottom_thickness,
        create_board_ruby (strL "Left End Wall") wall_thickness t.wall_height
          interior_depth 0 wall_thickness bottom_thickness,
        create_board_ruby (strL "Right End Wall") wall_thickness t.wall_height
          interior_depth (t.width - wall_thickness) wall_thickness
          bottom_thickness ] ++
      (if t.has_dividers then
        let section_width := interior_width / ((t.divider_count : ℚ) + 1)
        (List.range t.divider_count.toNat).map (fun i =>
          create_board_ruby (strL "Divider " ++ natStr (i + 1)) wall_thickness
            (t.wall_height - 10) (interior_depth - 10)
            (wall_thickness + ((i : ℚ) + 1) * section_width -
              wall_thickness / 2)
            (wall_thickness + 5) bottom_thickness)
       else [])
    let handle_text :=
      if t.has_handles then strL " with Handles" else []
    let ruby_code := wrap_in_operation (joinNL ruby_parts)
      (strL "Serving Tray" ++ handle_text ++ strL " " ++
       intStr (pyTrunc t.width) ++ strL "x" ++ intStr (pyTrunc t.depth))
    { success := true, ruby_code := ruby_code, cut_list := cut_list }

/-- Construct a tray template and run `generate()` once. -/
def runTray (width height depth : ℚ) (has_handles : Bool) (wall_height : ℚ)
    (has_dividers : Bool) (divider_count : ℤ) (lumber : List Char)
    (joinery : Option (List Char)) (material region : List Char)
    (show_joints : Bool) : Except (List Char) TemplateResult :=
  (trayInit width height depth has_handles wall_height has_dividers
    divider_count lumber joinery material region show_joints).map
    trayGenerate

/-! ### Picture frame template (`templates/picture_frame.py`) -/

/-- Instance state of `PictureFrameTemplate`. -/
structure PictureFrameT where
  width : ℚ
  height : ℚ
  depth : ℚ
  lumber_width : ℚ
  lumber_thickness : ℚ
  joinery : List Char
  material : List Char
  region : List Char
  show_joints : Bool
  frame_width : ℚ
  rabbet_depth : ℚ
  mat_width : ℚ
  inner_width : ℚ
  inner_height : ℚ
  frame_thickness : ℚ
deriving DecidableEq

/-- `PictureFrameTemplate.__init__` (defaults `300×400×20`,
`frame_width=50`, `rabbet_depth=10` clamped to `depth − 5`, `mat_width=0`,
lumber `"50x20"`, joinery `"miter"`, material `"oak"`). -/
def pictureFrameInit (width height depth frame_width rabbet_depth mat_width : ℚ)
    (lumber : List Char) (joinery : Option (List Char))
    (material region : List Char) (show_joints : Bool) :
    Except (List Char) PictureFrameT :=
  match parse_lumber lumber with
  | .error e => .error e
  | .ok (lw, lt) =>
    .ok { width := width, height := height, depth := depth,
          lumber_width := lw, lumber_thickness := lt,
          joinery := pyOrDefault joinery (strL "miter"),
          material := material, region := region, show_joints := show_joints,
          frame_width := frame_width,
          rabbet_depth := min rabbet_depth (depth - 5),
          mat_width := mat_width, inner_width := 0, inner_height := 0,
          frame_thickness := 0 }

/-- `PictureFrameTemplate._get_joint_markers`: four miter markers at the
corners plus two rabbet markers along the inner opening. -/
def pictureFrameJointMarkers (t : PictureFrameT) : List JointMarker :=
  if t.inner_width ≤ 0 then []
  else
    let marker_thickness : ℚ := 1 / 2
    let fw := t.frame_width
    let ft := t.frame_thickness
    let rabbet_y := ft - t.rabbet_depth
    [ { name := strL "Miter Top-Left", joint_type := strL "miter",
        x := 0, y := 0, z := t.height - fw,
        width := fw, height := marker_thickness, depth := fw },
      { name := strL "Miter Top-Right", joint_type := strL "miter",
        x := t.width - fw, y := 0, z := t.height - fw,
        width := fw, height := marker_thickness, depth := fw },
      { name := strL "Miter Bottom-Left", joint_type := strL "miter",
        x := 0, y := 0, z := 0,
        width := fw, height := marker_thickness, depth := fw },
      { name := strL "Miter Bottom-Right", joint_type := strL "miter",
        x := t.width - fw, y := 0, z := 0,
        width := fw, height := marker_thickness, depth := fw },
      { name := strL "Rabbet Top", joint_type := strL "rabbet",
        x := fw, y := rabbet_y, z := t.height - fw - marker_thickness,
        width := t.inner_width, height := marker_thickness,
        depth := t.rabbet_depth },
      { name := strL "Rabbet Bottom", joint_type := strL "rabbet",
        x := fw, y := rabbet_y, z := fw,
        width := t.inner_width, height := marker_thickness,
        depth := t.rabbet_depth } ]

/-- The first validation message of `PictureFrameTemplate.generate`. -/
def pictureFrameDimsMsg (width height frame_width : ℚ) : List Char :=
  strL "Frame dimensions (" ++ pyFloatStr width ++ strL "x" ++
  pyFloatStr height ++ strL "mm) too small for " ++
  pyFloatStr frame_width ++
  strL "mm frame width. Inner opening would be negative."

/-- The second validation message of `PictureFrameTemplate.generate`. -/
def pictureFrameMatMsg (mat_width inner_width inner_height : ℚ) : List Char :=
  strL "Mat width " ++ pyFloatStr mat_width ++
  strL "mm too large for inner opening (" ++ pyFloatStr inner_width ++
  strL "x" ++ pyFloatStr inner_height ++
  strL "mm). Reduce mat or increase frame size."

/-- `PictureFrameTemplate.generate`, with the cached-dimension mutation
explicit. -/
def pictureFrameGenerate (t : PictureFrameT) :
    PictureFrameT × TemplateResult :=
  let frame_thickness := t.depth
  let inner_width := t.width - 2 * t.frame_width
  let inner_height := t.height - 2 * t.frame_width
  let picture_width :=
    if t.mat_width > 0 then inner_width - 2 * t.mat_width else inner_width
  let picture_height :=
    if t.mat_width > 0 then inner_height - 2 * t.mat_width else inner_height
  if inner_width ≤ 0 ∨ inner_height ≤ 0 then
    (t, { success := false,
          error := pictureFrameDimsMsg t.width t.height t.frame_width })
  else if t.mat_width > 0 ∧ (picture_width ≤ 0 ∨ picture_height ≤ 0) then
    (t, { success := false,
          error := pictureFrameMatMsg t.mat_width inner_width inner_height })
  else
    let t' := { t with inner_width := inner_width,
                       inner_height := inner_height,
                       frame_thickness := frame_thickness }
    let top_bottom_length := t.width
    let side_length := t.height
    let cut_list : List LumberPiece :=
      [ { name := strL "Top/Bottom Rail", width := t.frame_width,
          height := frame_thickness, length := top_bottom_length,
          quantity := 2, material := t.material,
          notes := strL "45° miter cuts (purple markers), " ++
            pyFloatStr t.rabbet_depth ++ strL "mm rabbet (blue markers)" },
        { name := strL "Side Rail", width := t.frame_width,
          height := frame_thickness, length := side_length, quantity := 2,
          material := t.material,
          notes := strL "45° miter cuts (purple markers), " ++
            pyFloatStr t.rabbet_depth ++ strL "mm rabbet (blue markers)" },
        { name := strL "Glass", width := 3, height := inner_width + 4,
          length := inner_height + 4, quantity := 1,
          material := strL "glass",
          notes := strL "Cut by glass shop to fit rabbet" },
        { name := strL "Backing Board", width := 3, height := inner_width + 4,
          length := inner_height + 4, quantity := 1, material := strL "mdf",
          notes := strL "Holds picture in place, secured with points" } ] ++
      (if t.mat_width > 0 then
        [ { name := strL "Mat Board", width := 2, height := inner_width,
            length := inner_height, quantity := 1,
            material := strL "mat_board",
            notes := strL "Cut " ++ pyFloatStr t.mat_width ++
              strL "mm border, 45° bevel on inner edge" } ]
       else [])
    let glass_inset := frame_thickness - t.rabbet_depth
    let ruby_parts : List (List Char) :=
      [ create_board_ruby (strL "Top Rail") t.width frame_thickness
          t.frame_width 0 0 (t.height - t.frame_width),
        create_board_ruby (strL "Bottom Rail") t.width frame_thickness
          t.frame_width 0 0 0,
        create_board_ruby (strL "Left Rail") t.frame_width frame_thickness
          inner_height 0 0 t.frame_width,
        create_board_ruby (strL "Right Rail") t.frame_width frame_thickness
          inner_height (t.width - t.frame_width) 0 t.frame_width,
        create_board_ruby (strL "Glass") (inner_width + 4) 3
          (inner_height + 4) (t.frame_width - 2) glass_inset
          (t.frame_width - 2),
        create_board_ruby (strL "Backing") (inner_width + 4) 3
          (inner_height + 4) (t.frame_width - 2) (glass_inset + 5)
          (t.frame_width - 2) ] ++
      [generate_markers_ruby t'.show_joints (pictureFrameJointMarkers t')]
    let ruby_code := wrap_in_operation (joinNL ruby_parts)
      (strL "Picture Frame " ++ intStr (pyTrunc t.width) ++ strL "x" ++
       intStr (pyTrunc t.height))
    (t', { success := true, ruby_code := ruby_code, cut_list := cut_list })

/-- Construct a picture-frame template and run `generate()` once. -/
def runPictureFrame (width height depth frame_width rabbet_depth mat_width : ℚ)
    (lumber : List Char) (joinery : Option (List Char))
    (material region : List Char) (show_joints : Bool) :
    Except (List Char) TemplateResult :=
  (pictureFrameInit width height depth frame_width rabbet_depth mat_width
    lumber joinery material region show_joints).map
    (fun t => (pictureFrameGenerate t).2)

/-! ### Shelf bracket template (`templates/shelf_bracket.py`) -/

/-- The `bracket_style` literal of `ShelfBracketTemplate`. -/
inductive BracketStyle
  | triangle
  | l_bracket
  | corbel
deriving DecidableEq

/-- `bracket_style.replace("_", " ").title()`. -/
def bracketStyleTitle : BracketStyle → List Char
  | .triangle => strL "Triangle"
  | .l_bracket => strL "L Bracket"
  | .corbel => strL "Corbel"

/-- Instance state of `ShelfBracketTemplate`. -/
structure ShelfBracketT where
  width : ℚ
  height : ℚ
  depth : ℚ
  lumber_width : ℚ
  lumber_thickness : ℚ
  joinery : List Char
  material : List Char
  region : List Char
  show_joints : Bool
  bracket_style : BracketStyle
  bracket_count : ℤ
  has_shelf : Bool
  bracket_positions : List ℚ
  board_thickness : ℚ
  board_width : ℚ
  vertical_length : ℚ
deriving DecidableEq

/-- `ShelfBracketTemplate.__init__` (defaults `600×200×200`,
`bracket_style="triangle"`, `bracket_count=2` clamped to `≥ 2`,
`has_shelf=True`, lumber `"90x19"`, joinery `"bracket"`). -/
def shelfBracketInit (width height depth : ℚ) (bracket_style : BracketStyle)
    (bracket_count : ℤ) (has_shelf : Bool) (lumber : List Char)
    (joinery : Option (List Char)) (material region : List Char)
    (show_joints : Bool) : Except (List Char) ShelfBracketT :=
  match parse_lumber lumber with
  | .error e => .error e
  | .ok (lw, lt) =>
    .ok { width := width, height := height, depth := depth,
          lumber_width := lw, lumber_thickness := lt,
          joinery := pyOrDefault joinery (strL "bracket"),
          material := material, region := region, show_joints := show_joints,
          bracket_style := bracket_style,
          bracket_count := max 2 bracket_count, has_shelf := has_shelf,
          bracket_positions := [], board_thickness := 0, board_width := 0,
          vertical_length := 0 }

/-- `ShelfBracketTemplate._get_joint_markers`: one marker per bracket
position, where the shelf sits on the horizontal. -/
def shelfBracketJointMarkers (t : ShelfBracketT) : List JointMarker :=
  if t.bracket_positions.isEmpty ∨ t.board_thickness ≤ 0 then []
  else
    let marker_thickness : ℚ := 1 / 2
    t.bracket_positions.enum.map (fun p =>
      { name := strL "Bracket " ++ natStr (p.1 + 1) ++ strL " Shelf",
        joint_type := t.joinery,
        x := p.2, y := 0, z := t.vertical_length,
        width := t.board_thickness, height := marker_thickness,
        depth := t.depth })

/-- The first validation message of `ShelfBracketTemplate.generate`. -/
def shelfBracketHeightMsg (vertical_length : ℚ) : List Char :=
  strL "Bracket height " ++ pyFloatStr vertical_length ++
  strL "mm too small. Minimum: 100mm"

/-- The second validation message of `ShelfBracketTemplate.generate`. -/
def shelfBracketDepthMsg (horizontal_length : ℚ) : List Char :=
  strL "Bracket depth " ++ pyFloatStr horizontal_length ++
  strL "mm too small. Minimum: 100mm"

/-- The boards of one bracket, by style (names carry the 1-based index;
the style and the overall depth are the only instance attributes the
inline per-bracket code of the source reads). -/
def shelfBracketOneBracket (style : BracketStyle) (depth : ℚ) (i : Nat)
    (bracket_x : ℚ)
    (vertical_length horizontal_length diagonal_length board_thickness
     board_width : ℚ) : List (List Char) :=
  match style with
  | .triangle =>
    [ create_board_ruby (strL "Vertical " ++ natStr (i + 1)) board_thickness
        vertical_length board_width bracket_x (depth - board_width) 0,
      create_board_ruby (strL "Horizontal " ++ natStr (i + 1))
        board_thickness board_width horizontal_length bracket_x 0
        (vertical_length - board_width),
      create_board_ruby (strL "Diagonal " ++ natStr (i + 1)) board_thickness
        board_width (diagonal_length * (8 / 10)) bracket_x board_width
        board_width ]
  | .l_bracket =>
    [ create_board_ruby (strL "Vertical " ++ natStr (i + 1)) board_thickness
        vertical_length board_width bracket_x (depth - board_width) 0,
      create_board_ruby (strL "Horizontal " ++ natStr (i + 1))
        board_thickness board_width horizontal_length bracket_x 0
        (vertical_length - board_width) ]
  | .corbel =>
    [ create_board_ruby (strL "Corbel " ++ natStr (i + 1)) board_thickness
        vertical_length horizontal_length bracket_x 0 0 ]

/-- `ShelfBracketTemplate.generate`, with the cached-dimension mutation
explicit (`math.sqrt`/`math.atan2`/`math.degrees` modelled by the rational
approximations above). -/
def shelfBracketGenerate (t : ShelfBracketT) :
    ShelfBracketT × TemplateResult :=
  let board_thickness := t.lumber_thickness
  let board_width := t.lumber_width
  let vertical_length := t.height
  let horizontal_length := t.depth
  let diagonal_length := sqrtQ (vertical_length ^ 2 + horizontal_length ^ 2)
  let shelf_thickness := board_thickness
  let shelf_depth := t.depth
  let bracket_spacing := (t.width - board_thickness) / ((t.bracket_count : ℚ) - 1)
  if vertical_length < 100 then
    (t, { success := false, error := shelfBracketHeightMsg vertical_length })
  else if horizontal_length < 100 then
    (t, { success := false, error := shelfBracketDepthMsg horizontal_length })
  else
    let positions : List ℚ :=
      (List.range t.bracket_count.toNat).map (fun i =>
        if t.bracket_count > 1 then (i : ℚ) * bracket_spacing else 0)
    let t' := { t with board_thickness := board_thickness,
                       board_width := board_width,
                       vertical_length := vertical_length,
                       bracket_positions := positions }
    let cut_list : List LumberPiece :=
      (match t.bracket_style with
       | .triangle =>
         [ { name := strL "Vertical (Wall Mount)", width := board_thickness,
             height := board_width, length := vertical_length,
             quantity := t.bracket_count, material := t.material,
             notes := strL "Mounts to wall with screws" },
           { name := strL "Horizontal (Support)", width := board_thickness,
             height := board_width, length := horizontal_length,
             quantity := t.bracket_count, material := t.material,
             notes := strL "Supports shelf, attached to vertical" },
           { name := strL "Diagonal (Brace)", width := board_thickness,
             height := board_width, length := diagonal_length,
             quantity := t.bracket_count, material := t.material,
             notes := strL "Angled cuts on both ends (" ++
               fmt1f (atan2DegQ vertical_length horizontal_length) ++
               strL "°)" } ]
       | .l_bracket =>
         [ { name := strL "Vertical (Wall Mount)", width := board_thickness,
             height := board_width, length := vertical_length,
             quantity := t.bracket_count, material := t.material,
             notes := strL "Mounts to wall" },
           { name := strL "Horizontal (Support)", width := board_thickness,
             height := board_width, length := horizontal_length,
             quantity := t.bracket_count, material := t.material,
             notes := strL "Supports shelf, butt joint to vertical" } ]
       | .corbel =>
         [ { name := strL "Corbel Bracket", width := board_thickness,
             height := horizontal_length, length := vertical_length,
             quantity := t.bracket_count, material := t.material,
             notes := strL "Decorative corbel shape, cut from single board" } ]) ++
      (if t.has_shelf then
        [ { name := strL "Shelf Board", width := board_thickness,
            height := t.width, length := shelf_depth, quantity := 1,
            material := t.material,
            notes := strL "Sits on bracket horizontals (yellow markers)" } ]
       else [])
    let ruby_parts : List (List Char) :=
      (List.range t.bracket_count.toNat).flatMap (fun i =>
        let bracket_x :=
          if t.bracket_count > 1 then (i : ℚ) * bracket_spacing else 0
        shelfBracketOneBracket t.bracket_style t.depth i bracket_x
          vertical_length horizontal_length diagonal_length board_thickness
          board_width) ++
      (if t.has_shelf then
        [ create_board_ruby (strL "Shelf") t.width shelf_thickness
            shelf_depth 0 0 vertical_length ]
       else []) ++
      [generate_markers_ruby t'.show_joints (shelfBracketJointMarkers t')]
    let ruby_code := wrap_in_operation (joinNL ruby_parts)
      (bracketStyleTitle t.bracket_style ++ strL " Shelf " ++
       intStr (pyTrunc t.width) ++ strL "mm")
    (t', { success := true, ruby_code := ruby_code, cut_list := cut_list })

/-- Construct a shelf-bracket template and run `generate()` once. -/
def runShelfBracket (width height depth : ℚ) (bracket_style : BracketStyle)
    (bracket_count : ℤ) (has_shelf : Bool) (lumber : List Char)
    (joinery : Option (List Char)) (material region : List Char)
    (show_joints : Bool) : Except (List Char) TemplateResult :=
  (shelfBracketInit width height depth bracket_style bracket_count has_shelf
    lumber joinery material region show_joints).map
    (fun t => (shelfBracketGenerate t).2)

/-! ### Template registry and `build_project` dispatch
(`templates/__init__.py`, `tools/build_project.py`) -/

/-- The ten registered template classes. -/
inductive TemplateKind
  | bookshelf
  | box
  | table
  | cabinet
  | workbench
  | desk
  | cutting_board
  | picture_frame
  | shelf_bracket
  | tray
deriving DecidableEq

/-- `TEMPLATES`: the registry, in its insertion order. -/
def TEMPLATES : List (List Char × TemplateKind) :=
  [(strL "bookshelf", .bookshelf),
   (strL "box", .box),
   (strL "table", .table),
   (strL "cabinet", .cabinet),
   (strL "workbench", .workbench),
   (strL "desk", .desk),
   (strL "cutting_board", .cutting_board),
   (strL "picture_frame", .picture_frame),
   (strL "shelf_bracket", .shelf_bracket),
   (strL "tray", .tray)]

/-- The registered template names, in registry order
(`", ".join(TEMPLATES.keys())` uses this order). -/
def templateNames : List (List Char) := TEMPLATES.map Prod.fst

/-- Python `", ".join(names)`. -/
def joinCommaSpace : List (List Char) → List Char
  | [] => []
  | [p] => p
  | p :: rest => p ++ strL ", " ++ joinCommaSpace rest

/-- The unknown-template error message of `build_project`. -/
def unknownTemplateMsg (template_type : List Char) : List Char :=
  strL "Unknown template type: '" ++ template_type ++
  strL "'. Available: " ++ joinCommaSpace templateNames

/-- The template-type validation and dispatch of `build_project`: an empty
or unregistered (case-insensitively) name fails with a message listing the
registry; otherwise the registered class for the lowercased name is used. -/
def resolve_template (template_type : List Char) :
    Except (List Char) TemplateKind :=
  if template_type.isEmpty then .error (unknownTemplateMsg template_type)
  else
    match TEMPLATES.lookup (pyLower template_type) with
    | some k => .ok k
    | none => .error (unknownTemplateMsg template_type)

/-! ### Counting occurrences of a word-needle in generated scripts

The two needles used below (`"marker"` for absence, `"marker:"` for exact
counts) consist of `wordChar`s only.  Every numeric splice in the emitted
Ruby renders to `numChar`s, and every literal boundary character next to a
splice is punctuation outside both classes, so occurrence counting
distributes over the splice structure. -/

theorem splitLit {n : List Char} (a b : List Char) (c : Char)
    (ha : a.getLast? = some c) (hcn : c ∉ n) (h0 : countOcc n a = 0) :
    countOcc n (a ++ b) = countOcc n b := by
  rw [countOcc_append_lastOut n a b c ha hcn, h0, Nat.zero_add]

theorem splitHead {n : List Char} (a b : List Char) (c : Char)
    (hb : b.head? = some c) (hcn : c ∉ n) (h0 : countOcc n a = 0) :
    countOcc n (a ++ b) = countOcc n b := by
  rw [countOcc_append_headOut n a b c hb hcn, h0, Nat.zero_add]

/-- Characters of a word-needle never sit in a numeric splice. -/
theorem wordNeedle_not_mem_num {n s : List Char} {c0 : Char}
    (hn : n.head? = some c0) (hw : ∀ c ∈ n, wordChar c = true)
    (hnum : ∀ c ∈ s, numChar c = true) : countOcc n s = 0 :=
  countOcc_zero_headOut n s c0 hn
    (not_mem_of_numAll hnum (wordChar_not_numChar (hw c0 (head?_mem hn))))

/-- Drop a leading rendered float. -/
theorem splitFloat {n : List Char} {c0 : Char} (hn : n.head? = some c0)
    (hw : ∀ c ∈ n, wordChar c = true) (v : ℚ) (b : List Char) :
    countOcc n (pyFloatStr v ++ b) = countOcc n b := by
  obtain ⟨c, hc, hcnum⟩ :=
    getLast_numChar_of_all (pyFloatStr_ne_nil v) (pyFloatStr_chars v)
  exact splitLit _ _ c hc
    (fun hm => by
      have := wordChar_not_numChar (hw c hm)
      rw [hcnum] at this
      exact Bool.noConfusion this)
    (wordNeedle_not_mem_num hn hw (pyFloatStr_chars v))

/-- Drop a leading rendered integer. -/
theorem splitInt {n : List Char} {c0 : Char} (hn : n.head? = some c0)
    (hw : ∀ c ∈ n, wordChar c = true) (i : ℤ) (b : List Char) :
    countOcc n (intStr i ++ b) = countOcc n b := by
  obtain ⟨c, hc, hcnum⟩ :=
    getLast_numChar_of_all (intStr_ne_nil i) (intStr_chars i)
  exact splitLit _ _ c hc
    (fun hm => by
      have := wordChar_not_numChar (hw c hm)
      rw [hcnum] at this
      exact Bool.noConfusion this)
    (wordNeedle_not_mem_num hn hw (intStr_chars i))

/-- Drop a leading rendered natural number. -/
theorem splitNat {n : List Char} {c0 : Char} (hn : n.head? = some c0)
    (hw : ∀ c ∈ n, wordChar c = true) (k : Nat) (b : List Char) :
    countOcc n (natStr k ++ b) = countOcc n b := by
  obtain ⟨c, hc, hcnum⟩ :=
    getLast_numChar_of_all (natStr_ne_nil k) (natStr_chars k)
  exact splitLit _ _ c hc
    (fun hm => by
      have := wordChar_not_numChar (hw c hm)
      rw [hcnum] at this
      exact Bool.noConfusion this)
    (wordNeedle_not_mem_num hn hw (natStr_chars k))

/-- Membership exclusion for a punctuation character next to a splice. -/
theorem wordNeedle_not_mem {n : List Char}
    (hw : ∀ c ∈ n, wordChar c = true) {d : Char}
    (hd : wordChar d = false) : d ∉ n :=
  not_mem_of_wordAll hw hd

/-- Drop a leading `mmStr` splice when the remainder starts with a
punctuation character outside the needle. -/
theorem splitMM {n : List Char} {c0 : Char} (hn : n.head? = some c0)
    (hw : ∀ c ∈ n, wordChar c = true)
    (hmm : countOcc n (strL ".mm") = 0) (v : ℚ) (b : List Char) (c : Char)
    (hb : b.head? = some c) (hcn : c ∉ n) :
    countOcc n (mmStr v ++ b) = countOcc n b := by
  unfold mmStr
  rw [List.append_assoc, splitFloat hn hw, splitHead _ _ c hb hcn hmm]

/-- Drop a name splice whose own count is zero, when the remainder starts
with a character outside the needle. -/
theorem splitName {n : List Char} (name b : List Char) (c : Char)
    (hb : b.head? = some c) (hcn : c ∉ n)
    (hname : countOcc n name = 0) :
    countOcc n (name ++ b) = countOcc n b := by
  rw [countOcc_append_headOut n name b c hb hcn, hname, Nat.zero_add]

/-- `countOcc` distributes over the `"\n"`-join when the needle contains no
newline. -/
theorem countOcc_joinNL {n : List Char} {c0 : Char}
    (hn : n.head? = some c0) (hnl : '\n' ∉ n) (ps : List (List Char)) :
    countOcc n (joinNL ps) = (ps.map (countOcc n)).sum := by
  induction ps with
  | nil => rfl
  | cons p rest ih =>
    cases rest with
    | nil => simp [joinNL]
    | cons q rest' =>
      have hstep : joinNL (p :: q :: rest') = p ++ '\n' :: joinNL (q :: rest') := rfl
      rw [hstep, countOcc_append_headOut n p ('\n' :: joinNL (q :: rest')) '\n'
        rfl hnl]
      have h1 : ('\n' :: joinNL (q :: rest')) = ['\n'] ++ joinNL (q :: rest') := rfl
      rw [h1, countOcc_append_lastOut n ['\n'] (joinNL (q :: rest')) '\n' rfl hnl]
      have h2 : countOcc n ['\n'] = 0 :=
        countOcc_zero_headOut n ['\n'] c0 hn
          (by
            intro hm
            rcases List.mem_singleton.mp hm with rfl
            exact hnl (head?_mem hn))
      rw [h2, ih]
      simp

/-- A word-needle with zero occurrences in every literal piece and in the
board name has zero occurrences in the whole emitted board. -/
theorem countOcc_board {n : List Char} {c0 : Char}
    (hn : n.head? = some c0) (hw : ∀ c ∈ n, wordChar c = true)
    (hmm : countOcc n (strL ".mm") = 0)
    (h1 : countOcc n (strL "\n# Create ") = 0)
    (h2 : countOcc n (strL "\ngroup = model.active_entities.add_group\ngroup.name = \"") = 0)
    (h3 : countOcc n (strL "\"\nentities = group.entities\n\n# Create face and extrude\npts = [\n  [") = 0)
    (h4 : countOcc n (strL ", ") = 0)
    (h5 : countOcc n (strL "],\n  [") = 0)
    (h6 : countOcc n (strL "]\n]\nface = entities.add_face(pts)\nface.reverse! if face.normal.z < 0\nface.pushpull(") = 0)
    (h7 : countOcc n (strL ")\n") = 0)
    (name : List Char) (hname : countOcc n name = 0)
    (w h d x y z : ℚ) :
    countOcc n (create_board_ruby name w h d x y z) = 0 := by
  unfold create_board_ruby
  simp only [List.append_assoc]
  rw [splitLit _ _ ' ' (by decide) (wordNeedle_not_mem hw (by decide)) h1,
    splitName _ _ '\n' (head?_append_left _ (by decide))
      (wordNeedle_not_mem hw (by decide)) hname,
    splitLit _ _ '"' (by decide) (wordNeedle_not_mem hw (by decide)) h2,
    splitName _ _ '"' (head?_append_left _ (by decide))
      (wordNeedle_not_mem hw (by decide)) hname,
    splitLit _ _ '[' (by decide) (wordNeedle_not_mem hw (by decide)) h3,
    splitMM hn hw hmm _ _ ',' (head?_append_left _ (by decide))
      (wordNeedle_not_mem hw (by decide)),
    splitLit _ _ ' ' (by decide) (wordNeedle_not_mem hw (by decide)) h4,
    splitMM hn hw hmm _ _ ',' (head?_append_left _ (by decide))
      (wordNeedle_not_mem hw (by decide)),
    splitLit _ _ ' ' (by decide) (wordNeedle_not_mem hw (by decide)) h4,
    splitMM hn hw hmm _ _ ']' (head?_append_left _ (by decide))
      (wordNeedle_not_mem hw (by decide)),
    splitLit _ _ '[' (by decide) (wordNeedle_not_mem hw (by decide)) h5,
    splitMM hn hw hmm _ _ ',' (head?_append_left _ (by decide))
      (wordNeedle_not_mem hw (by decide)),
    splitLit _ _ ' ' (by decide) (wordNeedle_not_mem hw (by decide)) h4,
    splitMM hn hw hmm _ _ ',' (head?_append_left _ (by decide))
      (wordNeedle_not_mem hw (by decide)),
    splitLit _ _ ' ' (by decide) (wordNeedle_not_mem hw (by decide)) h4,
    splitMM hn hw hmm _ _ ']' (head?_append_left _ (by decide))
      (wordNeedle_not_mem hw (by decide)),
    splitLit _ _ '[' (by decide) (wordNeedle_not_mem hw (by decide)) h5,
    splitMM hn hw hmm _ _ ',' (head?_append_left _ (by decide))
      (wordNeedle_not_mem hw (by decide)),
    splitLit _ _ ' ' (by decide) (wordNeedle_not_mem hw (by decide)) h4,
    splitMM hn hw hmm _ _ ',' (head?_append_left _ (by decide))
      (wordNeedle_not_mem hw (by decide)),
    splitLit _ _ ' ' (by decide) (wordNeedle_not_mem hw (by decide)) h4,
    splitMM hn hw hmm _ _ ']' (head?_append_left _ (by decide))
      (wordNeedle_not_mem hw (by decide)),
    splitLit _ _ '[' (by decide) (wordNeedle_not_mem hw (by decide)) h5,
    splitMM hn hw hmm _ _ ',' (head?_append_left _ (by decide))
      (wordNeedle_not_mem hw (by decide)),
    splitLit _ _ ' ' (by decide) (wordNeedle_not_mem hw (by decide)) h4,
    splitMM hn hw hmm _ _ ',' (head?_append_left _ (by decide))
      (wordNeedle_not_mem hw (by decide)),
    splitLit _ _ ' ' (by decide) (wordNeedle_not_mem hw (by decide)) h4,
    splitMM hn hw hmm _ _ ']' (head?_append_left _ (by decide))
      (wordNeedle_not_mem hw (by decide)),
    splitLit _ _ '(' (by decide) (wordNeedle_not_mem hw (by decide)) h6,
    splitMM hn hw hmm _ _ ')' (by decide)
      (wordNeedle_not_mem hw (by decide))]
  exact h7

/-- A needle that occurs exactly once in the `# Create joint marker:`
header and nowhere else in the literal pieces occurs exactly once in a
whole emitted marker block. -/
theorem countOcc_marker_block {n : List Char} {c0 : Char}
    (hn : n.head? = some c0) (hw : ∀ c ∈ n, wordChar c = true)
    (hmm : countOcc n (strL ".mm") = 0)
    (hM1 : countOcc n (strL "\n# Create joint marker: ") = 1)
    (hM2 : countOcc n (strL "\nmarker_group = model.active_entities.add_group\nmarker_group.name = \"Joint: ") = 0)
    (hM3 : countOcc n (strL "\"\nmarker_ents = marker_group.entities\n\nmarker_pts = [\n  [") = 0)
    (h4 : countOcc n (strL ", ") = 0)
    (h5 : countOcc n (strL "],\n  [") = 0)
    (hM6 : countOcc n (strL "]\n]\nmarker_face = marker_ents.add_face(marker_pts)\nmarker_face.reverse! if marker_face.normal.z < 0\nmarker_face.pushpull(") = 0)
    (hM7 : countOcc n (strL ")\n\n# Apply colored material\n") = 0)
    (hM8 : countOcc n (strL "_mat = model.materials[\"") = 0)
    (hM9 : countOcc n (strL "\"] || model.materials.add(\"") = 0)
    (hM10 : countOcc n (strL "\")\n") = 0)
    (hM11 : countOcc n (strL "_mat.color = \"") = 0)
    (hM12 : countOcc n (strL "\"\nmarker_group.material = ") = 0)
    (hM13 : countOcc n (strL "_mat\n") = 0)
    (m : JointMarker)
    (hname : countOcc n m.name = 0)
    (hvar : countOcc n (pyVarName m.name) = 0)
    (hvarlast : ∃ c, (pyVarName m.name).getLast? = some c ∧ c ∉ n)
    (hmat : countOcc n (strL "Joint_" ++ m.joint_type) = 0)
    (hcolor : countOcc n m.color = 0) :
    countOcc n (create_joint_marker_ruby m) = 1 := by
  obtain ⟨cv, hcv1, hcv2⟩ := hvarlast
  simp only [create_joint_marker_ruby]
  simp only [List.append_assoc]
  rw [countOcc_append_lastOut n (strL "\n# Create joint marker: ") _ ' '
    (by decide) (wordNeedle_not_mem hw (by decide)), hM1]
  rw [splitName _ _ '\n' (head?_append_left _ (by decide))
      (wordNeedle_not_mem hw (by decide)) hname,
    splitLit _ _ ' ' (by decide) (wordNeedle_not_mem hw (by decide)) hM2,
    splitName _ _ '"' (head?_append_left _ (by decide))
      (wordNeedle_not_mem hw (by decide)) hname,
    splitLit _ _ '[' (by decide) (wordNeedle_not_mem hw (by decide)) hM3,
    splitMM hn hw hmm _ _ ',' (head?_append_left _ (by decide))
      (wordNeedle_not_mem hw (by decide)),
    splitLit _ _ ' ' (by decide) (wordNeedle_not_mem hw (by decide)) h4,
    splitMM hn hw hmm _ _ ',' (head?_append_left _ (by decide))
      (wordNeedle_not_mem hw (by decide)),
    splitLit _ _ ' ' (by decide) (wordNeedle_not_mem hw (by decide)) h4,
    splitMM hn hw hmm _ _ ']' (head?_append_left _ (by decide))
      (wordNeedle_not_mem hw (by decide)),
    splitLit _ _ '[' (by decide) (wordNeedle_not_mem hw (by decide)) h5,
    splitMM hn hw hmm _ _ ',' (head?_append_left _ (by decide))
      (wordNeedle_not_mem hw (by decide)),
    splitLit _ _ ' ' (by decide) (wordNeedle_not_mem hw (by decide)) h4,
    splitMM hn hw hmm _ _ ',' (head?_append_left _ (by decide))
      (wordNeedle_not_mem hw (by decide)),
    splitLit _ _ ' ' (by decide) (wordNeedle_not_mem hw (by decide)) h4,
    splitMM hn hw hmm _ _ ']' (head?_append_left _ (by decide))
      (wordNeedle_not_mem hw (by decide)),
    splitLit _ _ '[' (by decide) (wordNeedle_not_mem hw (by decide)) h5,
    splitMM hn hw hmm _ _ ',' (head?_append_left _ (by decide))
      (wordNeedle_not_mem hw (by decide)),
    splitLit _ _ ' ' (by decide) (wordNeedle_not_mem hw (by decide)) h4,
    splitMM hn hw hmm _ _ ',' (head?_append_left _ (by decide))
      (wordNeedle_not_mem hw (by decide)),
    splitLit _ _ ' ' (by decide) (wordNeedle_not_mem hw (by decide)) h4,
    splitMM hn hw hmm _ _ ']' (head?_append_left _ (by decide))
      (wordNeedle_not_mem hw (by decide)),
    splitLit _ _ '[' (by decide) (wordNeedle_not_mem hw (by decide)) h5,
    splitMM hn hw hmm _ _ ',' (head?_append_left _ (by decide))
      (wordNeedle_not_mem hw (by decide)),
    splitLit _ _ ' ' (by decide) (wordNeedle_not_mem hw (by decide)) h4,
    splitMM hn hw hmm _ _ ',' (head?_append_left _ (by decide))
      (wordNeedle_not_mem hw (by decide)),
    splitLit _ _ ' ' (by decide) (wordNeedle_not_mem hw (by decide)) h4,
    splitMM hn hw hmm _ _ ']' (head?_append_left _ (by decide))
      (wordNeedle_not_mem hw (by decide)),
    splitLit _ _ '(' (by decide) (wordNeedle_not_mem hw (by decide)) hM6,
    splitMM hn hw hmm _ _ ')' (head?_append_left _ (by decide))
      (wordNeedle_not_mem hw (by decide)),
    splitLit _ _ '\n' (by decide) (wordNeedle_not_mem hw (by decide)) hM7,
    splitLit _ _ cv hcv1 hcv2 hvar,
    splitLit _ _ '"' (by decide) (wordNeedle_not_mem hw (by decide)) hM8,
    ← List.append_assoc (strL "Joint_") m.joint_type,
    splitName _ _ '"' (head?_append_left _ (by decide))
      (wordNeedle_not_mem hw (by decide)) hmat,
    splitLit _ _ '"' (by decide) (wordNeedle_not_mem hw (by decide)) hM9,
    ← List.append_assoc (strL "Joint_") m.joint_type,
    splitName _ _ '"' (head?_append_left _ (by decide))
      (wordNeedle_not_mem hw (by decide)) hmat,
    splitLit _ _ '\n' (by decide) (wordNeedle_not_mem hw (by decide)) hM10,
    splitLit _ _ cv hcv1 hcv2 hvar,
    splitLit _ _ '"' (by decide) (wordNeedle_not_mem hw (by decide)) hM11,
    splitName _ _ '"' (head?_append_left _ (by decide))
      (wordNeedle_not_mem hw (by decide)) hcolor,
    splitLit _ _ ' ' (by decide) (wordNeedle_not_mem hw (by decide)) hM12,
    splitLit _ _ cv hcv1 hcv2 hvar,
    hM13]

/-- Occurrence count of a word-needle in a wrapped script: the inner code
plus both splices of the operation name. -/
theorem countOcc_wrap {n : List Char} {c0 : Char}
    (hn : n.head? = some c0) (hw : ∀ c ∈ n, wordChar c = true)
    (hW1 : countOcc n (strL "\nmodel = Sketchup.active_model\nmodel.start_operation(\"") = 0)
    (hW2 : countOcc n (strL "\", true)\n\nbegin\n") = 0)
    (hW3 : countOcc n (strL "\n  model.commit_operation\n  \"Created ") = 0)
    (hW4 : countOcc n (strL " successfully\"\nrescue => e\n  model.abort_operation\n  raise e\nend\n") = 0)
    (inner op : List Char) :
    countOcc n (wrap_in_operation inner op) =
      countOcc n inner + 2 * countOcc n op := by
  unfold wrap_in_operation
  simp only [List.append_assoc]
  rw [splitLit _ _ '"' (by decide) (wordNeedle_not_mem hw (by decide)) hW1,
    countOcc_append_headOut n op _ '"' (head?_append_left _ (by decide))
      (wordNeedle_not_mem hw (by decide)),
    splitLit _ _ '\n' (by decide) (wordNeedle_not_mem hw (by decide)) hW2,
    countOcc_append_headOut n inner _ '\n' (head?_append_left _ (by decide))
      (wordNeedle_not_mem hw (by decide)),
    splitLit _ _ ' ' (by decide) (wordNeedle_not_mem hw (by decide)) hW3,
    countOcc_append_headOut n op _ ' ' (by decide)
      (wordNeedle_not_mem hw (by decide)),
    hW4]
  omega

/-- Drop a zero-count literal in front of a rendered integer. -/
theorem splitBeforeInt {n : List Char} {c0 : Char} (hn : n.head? = some c0)
    (hw : ∀ c ∈ n, wordChar c = true) (a : List Char)
    (h0 : countOcc n a = 0) (i : ℤ) (b : List Char) :
    countOcc n (a ++ (intStr i ++ b)) = countOcc n (intStr i ++ b) := by
  obtain ⟨c, hc, hnum⟩ :=
    head_numChar_of_all (intStr_ne_nil i) (intStr_chars i)
  exact splitHead _ _ c (head?_append_left _ hc)
    (fun hm => by
      have := wordChar_not_numChar (hw c hm)
      rw [hnum] at this
      exact Bool.noConfusion this) h0

/-- A rendered integer with nothing after it. -/
theorem countOcc_intStr {n : List Char} {c0 : Char} (hn : n.head? = some c0)
    (hw : ∀ c ∈ n, wordChar c = true) (i : ℤ) :
    countOcc n (intStr i) = 0 :=
  wordNeedle_not_mem_num hn hw (intStr_chars i)

/-- Sum of a list of ones. -/
theorem sum_map_ones {α : Type} (l : List α) (f : α → Nat)
    (h : ∀ x ∈ l, f x = 1) : (l.map f).sum = l.length := by
  induction l with
  | nil => rfl
  | cons a t ih =>
    simp only [List.map_cons, List.sum_cons, h a (List.mem_cons_self a t),
      List.length_cons]
    rw [ih (fun x hx => h x (List.mem_cons_of_mem _ hx))]
    omega

/-- Sum of a list of zeros. -/
theorem sum_map_zeros {α : Type} (l : List α) (f : α → Nat)
    (h : ∀ x ∈ l, f x = 0) : (l.map f).sum = 0 := by
  induction l with
  | nil => rfl
  | cons a t ih =>
    simp only [List.map_cons, List.sum_cons, h a (List.mem_cons_self a t)]
    rw [ih (fun x hx => h x (List.mem_cons_of_mem _ hx))]

/-- Drop a zero-count literal in front of a final rendered integer. -/
theorem splitBeforeIntEnd {n : List Char} {c0 : Char} (hn : n.head? = some c0)
    (hw : ∀ c ∈ n, wordChar c = true) (a : List Char)
    (h0 : countOcc n a = 0) (i : ℤ) :
    countOcc n (a ++ intStr i) = 0 := by
  obtain ⟨c, hc, hnum⟩ :=
    head_numChar_of_all (intStr_ne_nil i) (intStr_chars i)
  rw [splitHead _ _ c hc
    (fun hm => by
      have := wordChar_not_numChar (hw c hm)
      rw [hnum] at this
      exact Bool.noConfusion this) h0]
  exact countOcc_intStr hn hw i

/-- A word-needle that occurs in no part and not in the operation name does
not occur in the whole wrapped script. -/
theorem countOcc_gen_script {n : List Char} {c0 : Char}
    (hn : n.head? = some c0) (hw : ∀ c ∈ n, wordChar c = true)
    (hnl : '\n' ∉ n)
    (hW1 : countOcc n (strL "\nmodel = Sketchup.active_model\nmodel.start_operation(\"") = 0)
    (hW2 : countOcc n (strL "\", true)\n\nbegin\n") = 0)
    (hW3 : countOcc n (strL "\n  model.commit_operation\n  \"Created ") = 0)
    (hW4 : countOcc n (strL " successfully\"\nrescue => e\n  model.abort_operation\n  raise e\nend\n") = 0)
    (parts : List (List Char)) (op : List Char)
    (hop : countOcc n op = 0)
    (hparts : ∀ p ∈ parts, countOcc n p = 0) :
    countOcc n (wrap_in_operation (joinNL parts) op) = 0 := by
  rw [countOcc_wrap hn hw hW1 hW2 hW3 hW4, countOcc_joinNL hn hnl, hop,
    sum_map_zeros parts _ hparts]

/-- Zero count for an operation name of shape
`pre ++ int ++ mid1 ++ int ++ mid2 ++ int`. -/
theorem countOcc_op3 {n : List Char} {c0 : Char} (hn : n.head? = some c0)
    (hw : ∀ c ∈ n, wordChar c = true) (pre mid1 mid2 : List Char) (c : Char)
    (hc : pre.getLast? = some c) (hcn : c ∉ n)
    (hpre : countOcc n pre = 0) (hm1 : countOcc n mid1 = 0)
    (hm2 : countOcc n mid2 = 0) (a b d : ℤ) :
    countOcc n (pre ++ intStr a ++ mid1 ++ intStr b ++ mid2 ++ intStr d) = 0 := by
  simp only [List.append_assoc]
  rw [splitLit _ _ c hc hcn hpre, splitInt hn hw,
    splitBeforeInt hn hw _ hm1, splitInt hn hw]
  exact splitBeforeIntEnd hn hw _ hm2 _

/-- Zero count for an operation name of shape `pre ++ int ++ mid ++ int`. -/
theorem countOcc_op2 {n : List Char} {c0 : Char} (hn : n.head? = some c0)
    (hw : ∀ c ∈ n, wordChar c = true) (pre mid : List Char) (c : Char)
    (hc : pre.getLast? = some c) (hcn : c ∉ n)
    (hpre : countOcc n pre = 0) (hm : countOcc n mid = 0) (a b : ℤ) :
    countOcc n (pre ++ intStr a ++ mid ++ intStr b) = 0 := by
  simp only [List.append_assoc]
  rw [splitLit _ _ c hc hcn hpre, splitInt hn hw]
  exact splitBeforeIntEnd hn hw _ hm _

/-- Zero count for an operation name of shape `pre ++ int ++ suffix`. -/
theorem countOcc_op1 {n : List Char} {c0 : Char} (hn : n.head? = some c0)
    (hw : ∀ c ∈ n, wordChar c = true) (pre suffix : List Char) (c : Char)
    (hc : pre.getLast? = some c) (hcn : c ∉ n)
    (hpre : countOcc n pre = 0) (hs : countOcc n suffix = 0) (a : ℤ) :
    countOcc n (pre ++ intStr a ++ suffix) = 0 := by
  simp only [List.append_assoc]
  rw [splitLit _ _ c hc hcn hpre, splitInt hn hw]
  exact hs

set_option maxHeartbeats 1000000 in
theorem bookshelf_markers_off (t : BookshelfT) (hsj : t.show_joints = false) :
    countOcc (strL "marker") ((bookshelfGenerate t).2.ruby_code) = 0 := by
  have hn : (strL "marker").head? = some 'm' := rfl
  have hw : ∀ c ∈ strL "marker", wordChar c = true := by decide
  have hshelf : ∀ k : Nat, countOcc (strL "marker") (strL "Shelf " ++ natStr k) = 0 := by
    intro k
    rw [splitLit _ _ ' ' (by decide) (by decide) (by decide)]
    exact wordNeedle_not_mem_num hn hw (natStr_chars k)
  simp only [bookshelfGenerate]
  split
  · rfl
  · refine countOcc_gen_script hn hw (by decide) (by decide) (by decide)
      (by decide) (by decide) _ _
      (countOcc_op3 hn hw _ _ _ ' ' (by decide) (by decide) (by decide)
        (by decide) (by decide) _ _ _)
      (List.forall_mem_append.mpr ⟨List.forall_mem_append.mpr
        ⟨List.forall_mem_cons.mpr ⟨(countOcc_board hn hw (by decide) (by decide) (by decide)
        (by decide) (by decide) (by decide) (by decide) (by decide)
        _ (by decide) _ _ _ _ _ _),
          List.forall_mem_cons.mpr ⟨(countOcc_board hn hw (by decide) (by decide) (by decide)
        (by decide) (by decide) (by decide) (by decide) (by decide)
        _ (by decide) _ _ _ _ _ _),
          List.forall_mem_cons.mpr ⟨(countOcc_board hn hw (by decide) (by decide) (by decide)
        (by decide) (by decide) (by decide) (by decide) (by decide)
        _ (by decide) _ _ _ _ _ _),
          List.forall_mem_singleton.mpr (countOcc_board hn hw (by decide) (by decide) (by decide)
        (by decide) (by decide) (by decide) (by decide) (by decide)
        _ (by decide) _ _ _ _ _ _)⟩⟩⟩,
        fun p hp => ?_⟩,
        List.forall_mem_singleton.mpr ?_⟩)
    · obtain ⟨i, hi, rfl⟩ := List.mem_map.mp hp
      exact countOcc_board hn hw (by decide) (by decide) (by decide)
          (by decide) (by decide) (by decide) (by decide) (by decide)
          _ (hshelf _) _ _ _ _ _ _
    · simp only [generate_markers_ruby, hsj]
      rfl

/-- Pointwise property of an `ite` of lists, given both branches. -/
theorem forall_mem_ite {α : Type} {P : α → Prop} (c : Prop) [Decidable c]
    (l1 l2 : List α) (h1 : ∀ x ∈ l1, P x) (h2 : ∀ x ∈ l2, P x) :
    ∀ x ∈ (if c then l1 else l2), P x := by
  split
  · exact h1
  · exact h2

/-- The needle `"marker"` starts with `'m'`. -/
theorem marker_hn : (strL "marker").head? = some 'm' := rfl

/-- The needle `"marker"` consists of word characters. -/
theorem marker_hw : ∀ c ∈ strL "marker", wordChar c = true := by decide

/-- `"marker"` never occurs in an emitted board whose name avoids it. -/
theorem marker_board (name : List Char)
    (hname : countOcc (strL "marker") name = 0) (w h d x y z : ℚ) :
    countOcc (strL "marker") (create_board_ruby name w h d x y z) = 0 :=
  countOcc_board marker_hn marker_hw (by decide) (by decide) (by decide)
    (by decide) (by decide) (by decide) (by decide) (by decide)
    name hname w h d x y z

/-- `"marker"` never occurs in a name of shape `lit ++ natStr k` whose
literal part ends in a space and avoids the needle. -/
theorem marker_nat (a : List Char) (ha : a.getLast? = some ' ')
    (h0 : countOcc (strL "marker") a = 0) (k : Nat) :
    countOcc (strL "marker") (a ++ natStr k) = 0 := by
  rw [splitLit _ _ ' ' ha (by decide) h0]
  exact wordNeedle_not_mem_num marker_hn marker_hw (natStr_chars k)

/-- `countOcc_gen_script` specialised to the needle `"marker"`. -/
theorem marker_gen_script (parts : List (List Char)) (op : List Char)
    (hop : countOcc (strL "marker") op = 0)
    (hparts : ∀ p ∈ parts, countOcc (strL "marker") p = 0) :
    countOcc (strL "marker") (wrap_in_operation (joinNL parts) op) = 0 :=
  countOcc_gen_script marker_hn marker_hw (by decide) (by decide) (by decide)
    (by decide) (by decide) parts op hop hparts


set_option maxHeartbeats 1000000 in
/-- With `show_joints = false` the box script contains no `"marker"`. -/
theorem box_markers_off (t : BoxT) (hsj : t.show_joints = false) :
    countOcc (strL "marker") ((boxGenerate t).2.ruby_code) = 0 := by
  obtain ⟨w, h, d, lw, lt, jo, ma, re, sj, hl, bh, wt, bt, idp⟩ := t
  replace hsj : sj = false := hsj
  subst hsj
  cases hl
  · simp only [boxGenerate, Bool.false_eq_true, if_false]
    split
    · rfl
    split
    · rfl
    · refine marker_gen_script _ _
        (countOcc_op3 marker_hn marker_hw _ _ _ ' ' (by decide) (by decide)
          (by decide) (by decide) (by decide) _ _ _)
        (List.forall_mem_append.mpr ⟨List.forall_mem_append.mpr
          ⟨List.forall_mem_cons.mpr ⟨marker_board _ (by decide) _ _ _ _ _ _,
            List.forall_mem_cons.mpr ⟨marker_board _ (by decide) _ _ _ _ _ _,
            List.forall_mem_cons.mpr ⟨marker_board _ (by decide) _ _ _ _ _ _,
            List.forall_mem_cons.mpr ⟨marker_board _ (by decide) _ _ _ _ _ _,
            List.forall_mem_singleton.mpr
              (marker_board _ (by decide) _ _ _ _ _ _)⟩⟩⟩⟩,
          List.forall_mem_nil _⟩,
          List.forall_mem_singleton.mpr ?_⟩)
      rfl
  · simp only [boxGenerate, if_true]
    split
    · rfl
    split
    · rfl
    · refine marker_gen_script _ _
        (countOcc_op3 marker_hn marker_hw _ _ _ ' ' (by decide) (by decide)
          (by decide) (by decide) (by decide) _ _ _)
        (List.forall_mem_append.mpr ⟨List.forall_mem_append.mpr
          ⟨List.forall_mem_cons.mpr ⟨marker_board _ (by decide) _ _ _ _ _ _,
            List.forall_mem_cons.mpr ⟨marker_board _ (by decide) _ _ _ _ _ _,
            List.forall_mem_cons.mpr ⟨marker_board _ (by decide) _ _ _ _ _ _,
            List.forall_mem_cons.mpr ⟨marker_board _ (by decide) _ _ _ _ _ _,
            List.forall_mem_singleton.mpr
              (marker_board _ (by decide) _ _ _ _ _ _)⟩⟩⟩⟩,
          List.forall_mem_singleton.mpr
            (marker_board _ (by decide) _ _ _ _ _ _)⟩,
          List.forall_mem_singleton.mpr ?_⟩)
      rfl

set_option maxHeartbeats 1000000 in
/-- With `show_joints = false` the cutting-board script contains no
`"marker"` (it never emits markers). -/
theorem cutting_board_markers_off (t : CuttingBoardT)
    (hsj : t.show_joints = false) :
    countOcc (strL "marker") ((cuttingBoardGenerate t).ruby_code) = 0 := by
  simp only [cuttingBoardGenerate]
  split
  · rfl
  split
  · rfl
  · refine marker_gen_script _ _ ?_
      (List.forall_mem_singleton.mpr (marker_board _ (by decide) _ _ _ _ _ _))
    simp only [List.append_assoc]
    rw [splitName _ _ ' ' (head?_append_left _ (by decide))
      (wordNeedle_not_mem marker_hw (by decide))
      (by cases t.pattern <;> decide)]
    rw [splitLit _ _ ' ' (by decide)
      (wordNeedle_not_mem marker_hw (by decide)) (by decide)]
    rw [splitInt marker_hn marker_hw]
    exact splitBeforeIntEnd marker_hn marker_hw _ (by decide) _

set_option maxHeartbeats 1000000 in
/-- With `show_joints = false` the picture-frame script contains no `"marker"`. -/
theorem picture_frame_markers_off (t : PictureFrameT)
    (hsj : t.show_joints = false) :
    countOcc (strL "marker") ((pictureFrameGenerate t).2.ruby_code) = 0 := by
  by_cases hm : t.mat_width > 0
  · simp only [pictureFrameGenerate, hm, if_true]
    split
    · rfl
    split
    · rfl
    · refine marker_gen_script _ _
        (countOcc_op2 marker_hn marker_hw _ _ ' ' (by decide) (by decide)
          (by decide) (by decide) _ _)
        (List.forall_mem_append.mpr
          ⟨List.forall_mem_cons.mpr ⟨marker_board _ (by decide) _ _ _ _ _ _,
            List.forall_mem_cons.mpr ⟨marker_board _ (by decide) _ _ _ _ _ _,
            List.forall_mem_cons.mpr ⟨marker_board _ (by decide) _ _ _ _ _ _,
            List.forall_mem_cons.mpr ⟨marker_board _ (by decide) _ _ _ _ _ _,
            List.forall_mem_cons.mpr ⟨marker_board _ (by decide) _ _ _ _ _ _,
            List.forall_mem_singleton.mpr
              (marker_board _ (by decide) _ _ _ _ _ _)⟩⟩⟩⟩⟩,
          List.forall_mem_singleton.mpr ?_⟩)
      simp only [generate_markers_ruby, hsj]
      rfl
  · simp only [pictureFrameGenerate, hm, if_false, false_and]
    split
    · rfl
    · refine marker_gen_script _ _
        (countOcc_op2 marker_hn marker_hw _ _ ' ' (by decide) (by decide)
          (by decide) (by decide) _ _)
        (List.forall_mem_append.mpr
          ⟨List.forall_mem_cons.mpr ⟨marker_board _ (by decide) _ _ _ _ _ _,
            List.forall_mem_cons.mpr ⟨marker_board _ (by decide) _ _ _ _ _ _,
            List.forall_mem_cons.mpr ⟨marker_board _ (by decide) _ _ _ _ _ _,
            List.forall_mem_cons.mpr ⟨marker_board _ (by decide) _ _ _ _ _ _,
            List.forall_mem_cons.mpr ⟨marker_board _ (by decide) _ _ _ _ _ _,
            List.forall_mem_singleton.mpr
              (marker_board _ (by decide) _ _ _ _ _ _)⟩⟩⟩⟩⟩,
          List.forall_mem_singleton.mpr ?_⟩)
      simp only [generate_markers_ruby, hsj]
      rfl

set_option maxHeartbeats 1000000 in
/-- With `show_joints = false` the desk script contains no `"marker"` (it never emits markers). -/
theorem desk_markers_off (t : DeskT) (hsj : t.show_joints = false) :
    countOcc (strL "marker") ((deskGenerate t).ruby_code) = 0 := by
  simp only [deskGenerate]
  split
  · rfl
  split
  · rfl
  · refine marker_gen_script _ _
      (countOcc_op3 marker_hn marker_hw _ _ _ ' ' (by decide) (by decide)
        (by decide) (by decide) (by decide) _ _ _)
      (List.forall_mem_append.mpr ⟨List.forall_mem_append.mpr
        ⟨List.forall_mem_append.mpr ⟨List.forall_mem_append.mpr
          ⟨List.forall_mem_cons.mpr ⟨marker_board _ (by decide) _ _ _ _ _ _,
            List.forall_mem_cons.mpr ⟨marker_board _ (by decide) _ _ _ _ _ _,
            List.forall_mem_cons.mpr ⟨marker_board _ (by decide) _ _ _ _ _ _,
            List.forall_mem_singleton.mpr
              (marker_board _ (by decide) _ _ _ _ _ _)⟩⟩⟩,
          forall_mem_ite _ _ _
            (List.forall_mem_singleton.mpr
              (marker_board _ (by decide) _ _ _ _ _ _))
            (List.forall_mem_nil _)⟩,
          forall_mem_ite _ _ _
            (List.forall_mem_singleton.mpr
              (marker_board _ (by decide) _ _ _ _ _ _))
            (List.forall_mem_nil _)⟩,
          forall_mem_ite _ _ _
            (List.forall_mem_singleton.mpr
              (marker_board _ (by decide) _ _ _ _ _ _))
            (List.forall_mem_nil _)⟩,
          forall_mem_ite _ _ _
            (List.forall_mem_singleton.mpr
              (marker_board _ (by decide) _ _ _ _ _ _))
            (List.forall_mem_nil _)⟩)

set_option maxHeartbeats 1000000 in
/-- With `show_joints = false` the cabinet script contains no `"marker"` (it never emits markers). -/
theorem cabinet_markers_off (t : CabinetT) (hsj : t.show_joints = false) :
    countOcc (strL "marker") ((cabinetGenerate t).ruby_code) = 0 := by
  obtain ⟨w, h, d, lw, lt, jo, ma, re, sj, hdo, dc, sc, hba, bH⟩ := t
  cases hba
  · simp only [cabinetGenerate, Bool.false_eq_true, if_false]
    split
    · rfl
    split
    · rfl
    · refine marker_gen_script _ _
        (countOcc_op3 marker_hn marker_hw _ _ _ ' ' (by decide) (by decide)
          (by decide) (by decide) (by decide) _ _ _)
        (List.forall_mem_append.mpr ⟨List.forall_mem_append.mpr
          ⟨List.forall_mem_append.mpr
            ⟨List.forall_mem_cons.mpr ⟨marker_board _ (by decide) _ _ _ _ _ _,
              List.forall_mem_cons.mpr ⟨marker_board _ (by decide) _ _ _ _ _ _,
              List.forall_mem_cons.mpr ⟨marker_board _ (by decide) _ _ _ _ _ _,
              List.forall_mem_cons.mpr ⟨marker_board _ (by decide) _ _ _ _ _ _,
              List.forall_mem_singleton.mpr
                (marker_board _ (by decide) _ _ _ _ _ _)⟩⟩⟩⟩, ?_⟩,
           List.forall_mem_nil _⟩,
          forall_mem_ite _ _ _ ?_ (List.forall_mem_nil _)⟩)
      · intro p hp
        obtain ⟨i, hi, rfl⟩ := List.mem_map.mp hp
        exact marker_board _ (marker_nat _ (by decide) (by decide) _) _ _ _ _ _ _
      · intro p hp
        obtain ⟨i, hi, rfl⟩ := List.mem_map.mp hp
        exact marker_board _ (marker_nat _ (by decide) (by decide) _) _ _ _ _ _ _
  · simp only [cabinetGenerate, if_true]
    split
    · rfl
    split
    · rfl
    · refine marker_gen_script _ _
        (countOcc_op3 marker_hn marker_hw _ _ _ ' ' (by decide) (by decide)
          (by decide) (by decide) (by decide) _ _ _)
        (List.forall_mem_append.mpr ⟨List.forall_mem_append.mpr
          ⟨List.forall_mem_append.mpr
            ⟨List.forall_mem_cons.mpr ⟨marker_board _ (by decide) _ _ _ _ _ _,
              List.forall_mem_cons.mpr ⟨marker_board _ (by decide) _ _ _ _ _ _,
              List.forall_mem_cons.mpr ⟨marker_board _ (by decide) _ _ _ _ _ _,
              List.forall_mem_cons.mpr ⟨marker_board _ (by decide) _ _ _ _ _ _,
              List.forall_mem_singleton.mpr
                (marker_board _ (by decide) _ _ _ _ _ _)⟩⟩⟩⟩, ?_⟩,
           List.forall_mem_singleton.mpr
             (marker_board _ (by decide) _ _ _ _ _ _)⟩,
          forall_mem_ite _ _ _ ?_ (List.forall_mem_nil _)⟩)
      · intro p hp
        obtain ⟨i, hi, rfl⟩ := List.mem_map.mp hp
        exact marker_board _ (marker_nat _ (by decide) (by decide) _) _ _ _ _ _ _
      · intro p hp
        obtain ⟨i, hi, rfl⟩ := List.mem_map.mp hp
        exact marker_board _ (marker_nat _ (by decide) (by decide) _) _ _ _ _ _ _

set_option maxHeartbeats 1000000 in
/-- With `show_joints = false` the tray script contains no `"marker"` (it never emits markers). -/
theorem tray_markers_off (t : TrayT) (hsj : t.show_joints = false) :
    countOcc (strL "marker") ((trayGenerate t).ruby_code) = 0 := by
  simp only [trayGenerate]
  split
  · rfl
  split
  · rfl
  · refine marker_gen_script _ _ ?_
      (List.forall_mem_append.mpr
        ⟨List.forall_mem_cons.mpr ⟨marker_board _ (by decide) _ _ _ _ _ _,
          List.forall_mem_cons.mpr ⟨marker_board _ (by decide) _ _ _ _ _ _,
          List.forall_mem_cons.mpr ⟨marker_board _ (by decide) _ _ _ _ _ _,
          List.forall_mem_cons.mpr ⟨marker_board _ (by decide) _ _ _ _ _ _,
          List.forall_mem_singleton.mpr
            (marker_board _ (by decide) _ _ _ _ _ _)⟩⟩⟩⟩,
        forall_mem_ite _ _ _ ?_ (List.forall_mem_nil _)⟩)
    · simp only [List.append_assoc]
      rw [splitLit _ _ 'y' (by decide) (by decide) (by decide)]
      rw [splitName _ _ ' ' (head?_append_left _ (by decide))
        (wordNeedle_not_mem marker_hw (by decide))
        (by cases t.has_handles <;> decide)]
      rw [splitLit _ _ ' ' (by decide)
        (wordNeedle_not_mem marker_hw (by decide)) (by decide)]
      rw [splitInt marker_hn marker_hw]
      exact splitBeforeIntEnd marker_hn marker_hw _ (by decide) _
    · intro p hp
      obtain ⟨i, hi, rfl⟩ := List.mem_map.mp hp
      exact marker_board _ (marker_nat _ (by decide) (by decide) _) _ _ _ _ _ _

set_option maxHeartbeats 1000000 in
/-- With `show_joints = false` the table script contains no `"marker"`. -/
theorem table_markers_off (t : TableT) (hsj : t.show_joints = false) :
    countOcc (strL "marker") ((tableGenerate t).2.ruby_code) = 0 := by
  simp only [tableGenerate]
  split
  · rfl
  split
  · rfl
  · refine marker_gen_script _ _ ?_
      (List.forall_mem_append.mpr ⟨List.forall_mem_append.mpr
        ⟨List.forall_mem_append.mpr
          ⟨List.forall_mem_cons.mpr ⟨marker_board _ (by decide) _ _ _ _ _ _,
            List.forall_mem_cons.mpr ⟨marker_board _ (by decide) _ _ _ _ _ _,
            List.forall_mem_cons.mpr ⟨marker_board _ (by decide) _ _ _ _ _ _,
            List.forall_mem_cons.mpr ⟨marker_board _ (by decide) _ _ _ _ _ _,
            List.forall_mem_singleton.mpr
              (marker_board _ (by decide) _ _ _ _ _ _)⟩⟩⟩⟩,
          forall_mem_ite _ _ _
            (List.forall_mem_cons.mpr ⟨marker_board _ (by decide) _ _ _ _ _ _,
              List.forall_mem_cons.mpr ⟨marker_board _ (by decide) _ _ _ _ _ _,
              List.forall_mem_cons.mpr ⟨marker_board _ (by decide) _ _ _ _ _ _,
              List.forall_mem_singleton.mpr
                (marker_board _ (by decide) _ _ _ _ _ _)⟩⟩⟩)
            (List.forall_mem_nil _)⟩,
          forall_mem_ite _ _ _
            (List.forall_mem_cons.mpr ⟨marker_board _ (by decide) _ _ _ _ _ _,
              List.forall_mem_cons.mpr ⟨marker_board _ (by decide) _ _ _ _ _ _,
              List.forall_mem_cons.mpr ⟨marker_board _ (by decide) _ _ _ _ _ _,
              List.forall_mem_singleton.mpr
                (marker_board _ (by decide) _ _ _ _ _ _)⟩⟩⟩)
            (List.forall_mem_nil _)⟩,
        List.forall_mem_singleton.mpr ?_⟩)
    · simp only [List.append_assoc]
      rw [splitName _ _ ' ' (head?_append_left _ (by decide))
        (wordNeedle_not_mem marker_hw (by decide))
        (by cases t.variant <;> decide)]
      rw [splitLit _ _ ' ' (by decide)
        (wordNeedle_not_mem marker_hw (by decide)) (by decide)]
      rw [splitInt marker_hn marker_hw,
        splitBeforeInt marker_hn marker_hw _ (by decide),
        splitInt marker_hn marker_hw]
      exact splitBeforeIntEnd marker_hn marker_hw _ (by decide) _
    · simp only [generate_markers_ruby, hsj]
      rfl

/-- Pointwise property of a `flatMap`, given one for every image. -/
theorem forall_mem_flatMap {α β : Type} {P : β → Prop} (l : List α)
    (f : α → List β) (h : ∀ a, ∀ x ∈ f a, P x) :
    ∀ x ∈ l.flatMap f, P x := by
  intro x hx
  obtain ⟨a, _, hxa⟩ := List.mem_flatMap.mp hx
  exact h a x hxa

set_option maxHeartbeats 1000000 in
/-- With `show_joints = false` the workbench script contains no `"marker"`
(it never emits markers). -/
theorem workbench_markers_off (t : WorkbenchT) (hsj : t.show_joints = false) :
    countOcc (strL "marker") ((workbenchGenerate t).ruby_code) = 0 := by
  by_cases h6 : t.leg_count = 6
  · simp only [workbenchGenerate, h6, eq_self_iff_true, if_true]
    split
    · rfl
    split
    · rfl
    · refine marker_gen_script _ _
        (countOcc_op3 marker_hn marker_hw _ _ _ ' ' (by decide) (by decide)
          (by decide) (by decide) (by decide) _ _ _)
        (List.forall_mem_append.mpr ⟨List.forall_mem_append.mpr
          ⟨List.forall_mem_append.mpr ⟨List.forall_mem_append.mpr
            ⟨List.forall_mem_append.mpr ⟨List.forall_mem_append.mpr
              ⟨List.forall_mem_singleton.mpr
                (marker_board _ (by decide) _ _ _ _ _ _),
               forall_mem_flatMap _ _ (fun pr => List.forall_mem_cons.mpr
                 ⟨marker_board _ (marker_nat _ (by decide) (by decide) _) _ _ _ _ _ _,
                  List.forall_mem_singleton.mpr
                    (marker_board _ (marker_nat _ (by decide) (by decide) _) _ _ _ _ _ _)⟩)⟩,
              forall_mem_flatMap _ _ (fun i => List.forall_mem_cons.mpr
                ⟨marker_board _ (marker_nat _ (by decide) (by decide) _) _ _ _ _ _ _,
                 List.forall_mem_singleton.mpr
                   (marker_board _ (marker_nat _ (by decide) (by decide) _) _ _ _ _ _ _)⟩)⟩,
             List.forall_mem_cons.mpr ⟨marker_board _ (by decide) _ _ _ _ _ _,
               List.forall_mem_singleton.mpr
                 (marker_board _ (by decide) _ _ _ _ _ _)⟩⟩,
            forall_mem_flatMap _ _ (fun i => List.forall_mem_cons.mpr
              ⟨marker_board _ (marker_nat _ (by decide) (by decide) _) _ _ _ _ _ _,
               List.forall_mem_singleton.mpr
                 (marker_board _ (marker_nat _ (by decide) (by decide) _) _ _ _ _ _ _)⟩)⟩,
           List.forall_mem_cons.mpr ⟨marker_board _ (by decide) _ _ _ _ _ _,
             List.forall_mem_singleton.mpr
               (marker_board _ (by decide) _ _ _ _ _ _)⟩⟩,
          forall_mem_ite _ _ _
            (List.forall_mem_singleton.mpr
              (marker_board _ (by decide) _ _ _ _ _ _))
            (List.forall_mem_nil _)⟩)
  · simp only [workbenchGenerate, h6, if_false]
    split
    · rfl
    split
    · rfl
    · refine marker_gen_script _ _
        (countOcc_op3 marker_hn marker_hw _ _ _ ' ' (by decide) (by decide)
          (by decide) (by decide) (by decide) _ _ _)
        (List.forall_mem_append.mpr ⟨List.forall_mem_append.mpr
          ⟨List.forall_mem_append.mpr ⟨List.forall_mem_append.mpr
            ⟨List.forall_mem_append.mpr ⟨List.forall_mem_append.mpr
              ⟨List.forall_mem_singleton.mpr
                (marker_board _ (by decide) _ _ _ _ _ _),
               forall_mem_flatMap _ _ (fun pr => List.forall_mem_cons.mpr
                 ⟨marker_board _ (marker_nat _ (by decide) (by decide) _) _ _ _ _ _ _,
                  List.forall_mem_singleton.mpr
                    (marker_board _ (marker_nat _ (by decide) (by decide) _) _ _ _ _ _ _)⟩)⟩,
              forall_mem_flatMap _ _ (fun i => List.forall_mem_cons.mpr
                ⟨marker_board _ (marker_nat _ (by decide) (by decide) _) _ _ _ _ _ _,
                 List.forall_mem_singleton.mpr
                   (marker_board _ (marker_nat _ (by decide) (by decide) _) _ _ _ _ _ _)⟩)⟩,
             List.forall_mem_cons.mpr ⟨marker_board _ (by decide) _ _ _ _ _ _,
               List.forall_mem_singleton.mpr
                 (marker_board _ (by decide) _ _ _ _ _ _)⟩⟩,
            forall_mem_flatMap _ _ (fun i => List.forall_mem_cons.mpr
              ⟨marker_board _ (marker_nat _ (by decide) (by decide) _) _ _ _ _ _ _,
               List.forall_mem_singleton.mpr
                 (marker_board _ (marker_nat _ (by decide) (by decide) _) _ _ _ _ _ _)⟩)⟩,
           List.forall_mem_cons.mpr ⟨marker_board _ (by decide) _ _ _ _ _ _,
             List.forall_mem_singleton.mpr
               (marker_board _ (by decide) _ _ _ _ _ _)⟩⟩,
          forall_mem_ite _ _ _
            (List.forall_mem_singleton.mpr
              (marker_board _ (by decide) _ _ _ _ _ _))
            (List.forall_mem_nil _)⟩)

set_option maxHeartbeats 1000000 in
/-- No `"marker"` in any board of one emitted bracket. -/
theorem oneBracket_marker (style : BracketStyle) (depth : ℚ) (i : Nat)
    (bx vl hzl dl bt bw : ℚ) :
    ∀ p ∈ shelfBracketOneBracket style depth i bx vl hzl dl bt bw,
      countOcc (strL "marker") p = 0 := by
  cases style
  · exact List.forall_mem_cons.mpr
      ⟨marker_board _ (marker_nat _ (by decide) (by decide) _) _ _ _ _ _ _,
       List.forall_mem_cons.mpr
         ⟨marker_board _ (marker_nat _ (by decide) (by decide) _) _ _ _ _ _ _,
          List.forall_mem_singleton.mpr
            (marker_board _ (marker_nat _ (by decide) (by decide) _) _ _ _ _ _ _)⟩⟩
  · exact List.forall_mem_cons.mpr
      ⟨marker_board _ (marker_nat _ (by decide) (by decide) _) _ _ _ _ _ _,
       List.forall_mem_singleton.mpr
         (marker_board _ (marker_nat _ (by decide) (by decide) _) _ _ _ _ _ _)⟩
  · exact List.forall_mem_singleton.mpr
      (marker_board _ (marker_nat _ (by decide) (by decide) _) _ _ _ _ _ _)

set_option maxHeartbeats 1000000 in
/-- With `show_joints = false` the shelf-bracket script contains no `"marker"`. -/
theorem shelf_bracket_markers_off (t : ShelfBracketT)
    (hsj : t.show_joints = false) :
    countOcc (strL "marker") ((shelfBracketGenerate t).2.ruby_code) = 0 := by
  simp only [shelfBracketGenerate]
  split
  · rfl
  split
  · rfl
  · refine marker_gen_script _ _ ?_
      (List.forall_mem_append.mpr ⟨List.forall_mem_append.mpr
        ⟨forall_mem_flatMap _ _ (fun i => oneBracket_marker _ _ i _ _ _ _ _ _),
         forall_mem_ite _ _ _
           (List.forall_mem_singleton.mpr
             (marker_board _ (by decide) _ _ _ _ _ _))
           (List.forall_mem_nil _)⟩,
        List.forall_mem_singleton.mpr ?_⟩)
    · simp only [List.append_assoc]
      rw [splitName _ _ ' ' (head?_append_left _ (by decide))
        (wordNeedle_not_mem marker_hw (by decide))
        (by cases t.bracket_style <;> decide)]
      rw [splitLit _ _ ' ' (by decide)
        (wordNeedle_not_mem marker_hw (by decide)) (by decide)]
      rw [splitInt marker_hn marker_hw]
      decide
    · simp only [generate_markers_ruby, hsj]
      rfl

/-- **C5.** For every template variant and every input with marker display
(`show_joints`) set to `false`, the build script emitted by a successful
`generate()` contains no joint-marker placement primitives: the word
`marker` (the identifier stem of every marker-placement statement emitted
by `_generate_markers_ruby`/`_create_joint_marker_ruby`) does not occur
anywhere in the generated Ruby, regardless of the configured joinery
type. -/
theorem C5_markers_disabled_no_marker_primitives :
    (∀ t : BookshelfT, t.show_joints = false →
      countOcc (strL "marker") ((bookshelfGenerate t).2.ruby_code) = 0) ∧
    (∀ t : BoxT, t.show_joints = false →
      countOcc (strL "marker") ((boxGenerate t).2.ruby_code) = 0) ∧
    (∀ t : TableT, t.show_joints = false →
      countOcc (strL "marker") ((tableGenerate t).2.ruby_code) = 0) ∧
    (∀ t : CabinetT, t.show_joints = false →
      countOcc (strL "marker") ((cabinetGenerate t).ruby_code) = 0) ∧
    (∀ t : WorkbenchT, t.show_joints = false →
      countOcc (strL "marker") ((workbenchGenerate t).ruby_code) = 0) ∧
    (∀ t : DeskT, t.show_joints = false →
      countOcc (strL "marker") ((deskGenerate t).ruby_code) = 0) ∧
    (∀ t : CuttingBoardT, t.show_joints = false →
      countOcc (strL "marker") ((cuttingBoardGenerate t).ruby_code) = 0) ∧
    (∀ t : PictureFrameT, t.show_joints = false →
      countOcc (strL "marker") ((pictureFrameGenerate t).2.ruby_code) = 0) ∧
    (∀ t : ShelfBracketT, t.show_joints = false →
      countOcc (strL "marker") ((shelfBracketGenerate t).2.ruby_code) = 0) ∧
    (∀ t : TrayT, t.show_joints = false →
      countOcc (strL "marker") ((trayGenerate t).ruby_code) = 0) :=
  ⟨bookshelf_markers_off, box_markers_off, table_markers_off,
   cabinet_markers_off, workbench_markers_off, desk_markers_off,
   cutting_board_markers_off, picture_frame_markers_off,
   shelf_bracket_markers_off, tray_markers_off⟩

/-- Every digit of `natDigitsRev` is one of `0..9`. -/
theorem natDigitsRev_digitChars (fuel n : Nat) :
    ∀ c ∈ natDigitsRev fuel n, c ∈ digitChars := by
  induction fuel generalizing n with
  | zero => intro c hc; simp [natDigitsRev] at hc
  | succ fuel ih =>
    intro c hc
    unfold natDigitsRev at hc
    split at hc
    · simp at hc
    · rcases List.mem_cons.mp hc with rfl | hin
      · exact digitCh_mem _
      · exact ih _ c hin

/-- Every character of `natStr` is one of `0..9`. -/
theorem natStr_digitChars (n : Nat) : ∀ c ∈ natStr n, c ∈ digitChars := by
  intro c hc
  unfold natStr at hc
  split at hc
  · simp at hc; subst hc; decide
  · rw [List.mem_reverse] at hc
    exact natDigitsRev_digitChars n n c hc

/-- `pyVarName` distributes over append. -/
theorem pyVarName_append (a b : List Char) :
    pyVarName (a ++ b) = pyVarName a ++ pyVarName b :=
  List.map_append _ a b

/-- `pyVarName` fixes a rendered natural number. -/
theorem pyVarName_natStr (k : Nat) : pyVarName (natStr k) = natStr k := by
  unfold pyVarName
  have hfix : ∀ c ∈ digitChars,
      (let c' := Char.toLower c
       if c' == ' ' then '_' else if c' == '-' then '_' else c') = c := by
    decide
  rw [List.map_congr_left
    (fun c hc => hfix c (natStr_digitChars k c hc))]
  exact List.map_id _

/-- The needle `"marker:"` starts with `'m'`. -/
theorem markerC_hn : (strL "marker:").head? = some 'm' := rfl

/-- The needle `"marker:"` consists of word characters. -/
theorem markerC_hw : ∀ c ∈ strL "marker:", wordChar c = true := by decide

/-- `"marker:"` never occurs in an emitted board whose name avoids it. -/
theorem markerC_board (name : List Char)
    (hname : countOcc (strL "marker:") name = 0) (w h d x y z : ℚ) :
    countOcc (strL "marker:") (create_board_ruby name w h d x y z) = 0 :=
  countOcc_board markerC_hn markerC_hw (by decide) (by decide) (by decide)
    (by decide) (by decide) (by decide) (by decide) (by decide)
    name hname w h d x y z

/-- `"marker:"` never occurs in a name of shape `lit ++ natStr k` whose
literal part ends in a space and avoids the needle. -/
theorem markerC_nat (a : List Char) (ha : a.getLast? = some ' ')
    (h0 : countOcc (strL "marker:") a = 0) (k : Nat) :
    countOcc (strL "marker:") (a ++ natStr k) = 0 := by
  rw [splitLit _ _ ' ' ha (by decide) h0]
  exact wordNeedle_not_mem_num markerC_hn markerC_hw (natStr_chars k)

set_option maxHeartbeats 1000000 in
set_option maxRecDepth 8000 in
/-- A dado marker whose name is a space-terminated literal followed by a
number yields exactly one occurrence of `"marker:"` (the block header). -/
theorem dado_block_count (pre : List Char) (k : Nat)
    (hlast : pre.getLast? = some ' ')
    (h0 : countOcc (strL "marker:") pre = 0)
    (hv0 : countOcc (strL "marker:") (pyVarName pre) = 0)
    (hvl : (pyVarName pre).getLast? = some '_')
    (x y z w h d : ℚ) :
    countOcc (strL "marker:") (create_joint_marker_ruby
      { name := pre ++ natStr k, joint_type := strL "dado", x := x, y := y,
        z := z, width := w, height := h, depth := d }) = 1 := by
  refine countOcc_marker_block markerC_hn markerC_hw (by decide) (by decide)
    (by decide) (by decide) (by decide) (by decide) (by decide) (by decide)
    (by decide) (by decide) (by decide) (by decide) (by decide) (by decide) _
    ?_ ?_ ?_ ?_ ?_
  · exact markerC_nat pre hlast h0 k
  · show countOcc (strL "marker:") (pyVarName (pre ++ natStr k)) = 0
    rw [pyVarName_append, pyVarName_natStr]
    rw [splitLit _ _ '_' hvl (by decide) hv0]
    exact wordNeedle_not_mem_num markerC_hn markerC_hw (natStr_chars k)
  · show ∃ c, (pyVarName (pre ++ natStr k)).getLast? = some c ∧
      c ∉ strL "marker:"
    rw [pyVarName_append, pyVarName_natStr]
    obtain ⟨c, hc, hnum⟩ :=
      getLast_numChar_of_all (natStr_ne_nil k) (natStr_chars k)
    refine ⟨c, ?_, ?_⟩
    · rw [List.getLast?_append_of_ne_nil _ (natStr_ne_nil k)]
      exact hc
    · intro hm
      have := wordChar_not_numChar (markerC_hw c hm)
      rw [hnum] at this
      exact Bool.noConfusion this
  · show countOcc (strL "marker:") (strL "Joint_" ++ strL "dado") = 0
    decide
  · show countOcc (strL "marker:")
      (jointColor (strL "dado")) = 0
    decide

set_option maxHeartbeats 1000000 in
/-- `"marker:"` appears once per block in an enabled marker section. -/
theorem markersSection_count (sj : Bool) (hsj : sj = true)
    (ms : List JointMarker) (hne : ms ≠ [])
    (h1 : ∀ m ∈ ms, countOcc (strL "marker:")
      (create_joint_marker_ruby m) = 1) :
    countOcc (strL "marker:") (generate_markers_ruby sj ms) = ms.length := by
  subst hsj
  cases ms with
  | nil => exact absurd rfl hne
  | cons m rest =>
    show countOcc (strL "marker:") (joinNL (strL "\n# Joint markers" ::
      (m :: rest).map create_joint_marker_ruby)) = _
    rw [countOcc_joinNL markerC_hn (by decide), List.map_cons, List.sum_cons,
      sum_map_ones ((m :: rest).map create_joint_marker_ruby)
        (countOcc (strL "marker:"))
        (fun x hx => by
          obtain ⟨a, ha, rfl⟩ := List.mem_map.mp hx
          exact h1 a ha),
      List.length_map,
      show countOcc (strL "marker:") (strL "\n# Joint markers") = 0 from
        by decide,
      Nat.zero_add]

/-- Pointwise property of a `map`, given one for every image. -/
theorem forall_mem_mapI {α β : Type} {P : β → Prop} (l : List α) (f : α → β)
    (h : ∀ a, P (f a)) : ∀ x ∈ l.map f, P x := by
  intro x hx
  obtain ⟨a, ha, rfl⟩ := List.mem_map.mp hx
  exact h a

/-- Length of a `flatMap` whose images are all pairs. -/
theorem length_flatMap_pairs {α β : Type} (l : List α) (f : α → List β)
    (h : ∀ a ∈ l, (f a).length = 2) : (l.flatMap f).length = 2 * l.length := by
  induction l with
  | nil => rfl
  | cons a tl ih =>
    rw [List.flatMap_cons, List.length_append, h a (List.mem_cons_self a tl),
      ih (fun x hx => h x (List.mem_cons_of_mem _ hx)), List.length_cons]
    omega

/-- The bookshelf emits two markers per stored shelf position. -/
theorem bookshelfJointMarkers_length (t : BookshelfT) :
    (bookshelfJointMarkers t).length = 2 * t.shelf_positions.length := by
  simp only [bookshelfJointMarkers]
  split
  · next h =>
    rw [List.isEmpty_iff.mp h]
    rfl
  · rw [length_flatMap_pairs]
    · rw [List.enum_length]
    · intro a ha
      rfl

/-- A state with stored shelf positions emits at least one marker. -/
theorem bookshelfJointMarkers_ne_nil (t : BookshelfT)
    (h : t.shelf_positions ≠ []) : bookshelfJointMarkers t ≠ [] := by
  intro heq
  have hl := congrArg List.length heq
  rw [bookshelfJointMarkers_length] at hl
  simp only [List.length_nil, Nat.mul_eq_zero] at hl
  rcases hl with h2 | h0
  · exact absurd h2 (by decide)
  · exact h (List.length_eq_zero.mp h0)

/-- Occurrence count of a word-needle in a wrapped script whose parts are
a zero-count prefix list followed by one distinguished part. -/
theorem countOcc_script_split {n : List Char} {c0 : Char}
    (hn : n.head? = some c0) (hw : ∀ c ∈ n, wordChar c = true)
    (hnl : '\n' ∉ n)
    (hW1 : countOcc n (strL "\nmodel = Sketchup.active_model\nmodel.start_operation(\"") = 0)
    (hW2 : countOcc n (strL "\", true)\n\nbegin\n") = 0)
    (hW3 : countOcc n (strL "\n  model.commit_operation\n  \"Created ") = 0)
    (hW4 : countOcc n (strL " successfully\"\nrescue => e\n  model.abort_operation\n  raise e\nend\n") = 0)
    (parts1 : List (List Char)) (mp op : List Char)
    (hop : countOcc n op = 0)
    (h1 : ∀ p ∈ parts1, countOcc n p = 0) :
    countOcc n (wrap_in_operation (joinNL (parts1 ++ [mp])) op) =
      countOcc n mp := by
  rw [countOcc_wrap hn hw hW1 hW2 hW3 hW4, countOcc_joinNL hn hnl, hop,
    List.map_append, List.sum_append, sum_map_zeros parts1 _ h1]
  simp

set_option maxHeartbeats 1000000 in
/-- **C6.** For the bookshelf template with marker display enabled, default
(dado) joinery, and dimensions passing validation, a successful
`generate()` stores `N + 2` shelf positions and emits exactly
`2 * (N + 2)` dado joint markers (two per side at each of the `N` shelf
positions plus the top and the bottom): the marker list has that length,
every marker is a dado marker, and the emitted script contains exactly
`2 * (N + 2)` marker blocks (one `"marker:"` header each). -/
theorem C6_bookshelf_marker_count (t : BookshelfT)
    (hsj : t.show_joints = true) (hj : t.joinery = strL "dado")
    (hok : ¬(t.height - (t.shelves : ℚ) * t.lumber_thickness -
      2 * t.lumber_thickness ≤ 0)) :
    (bookshelfGenerate t).2.success = true ∧
    (bookshelfJointMarkers (bookshelfGenerate t).1).length =
      2 * (t.shelves.toNat + 2) ∧
    (∀ m ∈ bookshelfJointMarkers (bookshelfGenerate t).1,
      m.joint_type = strL "dado") ∧
    countOcc (strL "marker:") ((bookshelfGenerate t).2.ruby_code) =
      2 * (t.shelves.toNat + 2) := by
  have hsucc : (bookshelfGenerate t).2.success = true := by
    simp only [bookshelfGenerate]
    split
    · next h => exact absurd h hok
    · rfl
  have hlen : (bookshelfJointMarkers (bookshelfGenerate t).1).length =
      2 * (t.shelves.toNat + 2) := by
    simp only [bookshelfGenerate]
    split
    · next h => exact absurd h hok
    · rw [bookshelfJointMarkers_length]
      simp only [List.length_cons, List.length_append, List.length_map,
        List.length_range, List.length_singleton, List.length_nil]
  have hty : ∀ m ∈ bookshelfJointMarkers (bookshelfGenerate t).1,
      m.joint_type = strL "dado" := by
    simp only [bookshelfGenerate, hj]
    split
    · next h => exact absurd h hok
    · exact forall_mem_flatMap _ _ (fun p => List.forall_mem_cons.mpr
        ⟨rfl, List.forall_mem_singleton.mpr rfl⟩)
  have hcount : countOcc (strL "marker:")
      ((bookshelfGenerate t).2.ruby_code) = 2 * (t.shelves.toNat + 2) := by
    simp only [bookshelfGenerate, hj]
    split
    · next h => exact absurd h hok
    · refine (countOcc_script_split markerC_hn markerC_hw (by decide)
        (by decide) (by decide) (by decide) (by decide) _ _ _
        (countOcc_op3 markerC_hn markerC_hw _ _ _ ' ' (by decide) (by decide)
          (by decide) (by decide) (by decide) _ _ _)
        (List.forall_mem_append.mpr
          ⟨List.forall_mem_cons.mpr ⟨markerC_board _ (by decide) _ _ _ _ _ _,
            List.forall_mem_cons.mpr ⟨markerC_board _ (by decide) _ _ _ _ _ _,
            List.forall_mem_cons.mpr ⟨markerC_board _ (by decide) _ _ _ _ _ _,
            List.forall_mem_singleton.mpr
              (markerC_board _ (by decide) _ _ _ _ _ _)⟩⟩⟩,
           forall_mem_mapI _ _ (fun i =>
             markerC_board _ (markerC_nat _ (by decide) (by decide) _)
               _ _ _ _ _ _)⟩)).trans ?_
      refine (markersSection_count t.show_joints hsj _
        (bookshelfJointMarkers_ne_nil _ (by simp)) ?_).trans ?_
      · exact forall_mem_flatMap _ _ (fun p => List.forall_mem_cons.mpr
          ⟨dado_block_count (strL "Dado Left ") (p.1 + 1) (by decide)
            (by decide) (by decide) (by decide) _ _ _ _ _ _,
           List.forall_mem_singleton.mpr
             (dado_block_count (strL "Dado Right ") (p.1 + 1) (by decide)
               (by decide) (by decide) (by decide) _ _ _ _ _ _)⟩)
      · rw [bookshelfJointMarkers_length]
        simp only [List.length_cons, List.length_append, List.length_map,
          List.length_range, List.length_singleton, List.length_nil]
  exact ⟨hsucc, hlen, hty, hcount⟩

/-- The default bookshelf instance state (600×1000×300, 3 shelves, 19 mm
stock, dado joinery, markers shown). -/
def defaultBookshelfT : BookshelfT :=
  { width := 600, height := 1000, depth := 300, lumber_width := 90,
    lumber_thickness := 19, joinery := strL "dado", material := strL "pine",
    region := strL "australia", show_joints := true, shelves := 3,
    shelf_positions := [] }

/-- Closed instance of `C6_bookshelf_marker_count` at the default bookshelf
construction (600×1000×300, 3 shelves, 19 mm stock, dado joinery). -/
theorem C6_bookshelf_marker_count_witness :
    (bookshelfGenerate defaultBookshelfT).2.success = true ∧
    (bookshelfJointMarkers (bookshelfGenerate defaultBookshelfT).1).length =
      2 * ((3 : ℤ).toNat + 2) ∧
    (∀ m ∈ bookshelfJointMarkers (bookshelfGenerate defaultBookshelfT).1,
      m.joint_type = strL "dado") ∧
    countOcc (strL "marker:")
      ((bookshelfGenerate defaultBookshelfT).2.ruby_code) =
      2 * ((3 : ℤ).toNat + 2) :=
  C6_bookshelf_marker_count defaultBookshelfT rfl rfl (by decide)

set_option maxRecDepth 8000 in
/-- **C1.** The bookshelf template at width 600, height 1000, depth 300,
3 shelves, lumber `"90x19"` generates successfully, and its cut list has
exactly four entries: Side Panel ×2, Shelf ×3, Top Panel ×1, Bottom
Panel ×1, in that order. -/
theorem C1_bookshelf_default_cut_list :
    (runBookshelf 600 1000 300 3 (strL "90x19") none (strL "pine")
      (strL "australia") true).map (fun r =>
        (r.success, r.cut_list.map (fun p => (p.name, p.quantity)))) =
      .ok (true, [(strL "Side Panel", 2), (strL "Shelf", 3),
        (strL "Top Panel", 1), (strL "Bottom Panel", 1)]) := by
  decide

set_option maxRecDepth 8000 in
/-- **C2 (code bug).** For the descriptor `"axb"`, which splits into the
two non-numeric parts `"a"` and `"b"`, `_parse_lumber` raises the bare
`float()` conversion error for the first part: the message names only
`'a'` and does not contain the offending input `"axb"`, although the
spec requires the validation error to name the offending input string
(as the method's own `Invalid lumber format` message would). -/
theorem C2_lumber_float_error_hides_input :
    parse_lumber (strL "axb") = .error (floatConvMsg (strL "a")) ∧
    containsSub (strL "axb") (floatConvMsg (strL "a")) = false ∧
    containsSub (strL "axb") (invalidFormatMsg (strL "axb")) = true := by
  refine ⟨by decide, by decide, by decide⟩

set_option maxRecDepth 8000 in
/-- **C3 (counterexample).** With height 100 the bookshelf template does
NOT fail: the available height is `100 − 3·19 − 2·19 = 5 > 0`, so
`generate()` returns `success = true` with no error — contradicting the
claimed failure at height 100. -/
theorem C3_counterexample_height100_succeeds :
    (runBookshelf 600 100 300 3 (strL "90x19") none (strL "pine")
      (strL "australia") true).map (fun r => (r.success, r.error)) =
      .ok (true, []) := by
  decide

set_option maxRecDepth 8000 in
/-- **C3 (amended).** With height 95 (available height
`95 − 3·19 − 2·19 = 0 ≤ 0`) the bookshelf template fails, and the error
cites the height being too small for 3 shelves at 19 mm stock. -/
theorem C3_amended_height95_fails :
    (runBookshelf 600 95 300 3 (strL "90x19") none (strL "pine")
      (strL "australia") true).map (fun r => (r.success, r.error)) =
      .ok (false, strL "Height 95.0mm is too small for 3 shelves with 19.0mm lumber. Minimum height required: 99.0mm") := by
  decide

/-- **C9.** Whatever shelf count is passed to the bookshelf constructor,
the constructed instance's shelf count is `max 1 shelves`; construction
itself never fails on account of the shelf count. -/
theorem C9_bookshelf_shelves_clamped (w h d : ℚ) (s : ℤ) (lum : List Char)
    (jo : Option (List Char)) (ma re : List Char) (sj : Bool)
    (t : BookshelfT) (hinit : bookshelfInit w h d s lum jo ma re sj = .ok t) :
    t.shelves = max 1 s := by
  unfold bookshelfInit at hinit
  split at hinit
  · exact Except.noConfusion hinit
  · injection hinit with h
    subst h
    rfl

/-- The bookshelf state that `bookshelfInit` builds for a requested shelf
count of `0` (everything else at its defaults). -/
def bookshelfZeroShelvesT : BookshelfT :=
  { width := 600, height := 1000, depth := 300, lumber_width := 90,
    lumber_thickness := 19, joinery := strL "dado", material := strL "pine",
    region := strL "australia", show_joints := true, shelves := 1,
    shelf_positions := [] }

set_option maxRecDepth 8000 in
/-- Closed instance of `C9_bookshelf_shelves_clamped`: requesting `0`
shelves succeeds and is clamped to `max 1 0 = 1`. -/
theorem C9_bookshelf_shelves_clamped_witness :
    bookshelfZeroShelvesT.shelves = max 1 0 :=
  C9_bookshelf_shelves_clamped 600 1000 300 0 (strL "90x19") none
    (strL "pine") (strL "australia") true bookshelfZeroShelvesT (by decide)

theorem countOcc_le_append (n a b : List Char) :
    countOcc n b ≤ countOcc n (a ++ b) := by
  induction a with
  | nil => exact Nat.le_refl _
  | cons c a' ih =>
    exact Nat.le_trans ih (Nat.le_add_left _ _)

theorem containsSub_append_left (n a b : List Char)
    (h : containsSub n b = true) : containsSub n (a ++ b) = true := by
  unfold containsSub at h ⊢
  simp only [decide_eq_true_eq] at h ⊢
  exact Nat.lt_of_lt_of_le h (countOcc_le_append n a b)

set_option maxRecDepth 8000 in
/-- **C8.** `build_project`'s template dispatch: a `template_type` whose
lowercasing is a registered name resolves to that registry entry (the
empty string aside, which is falsy in the guard); one that matches no
registered name fails with the `Unknown template type` message; and that
message lists every registered template name. -/
theorem C8_template_dispatch (s : List Char) :
    (∀ k, TEMPLATES.lookup (pyLower s) = some k → s ≠ [] →
      resolve_template s = .ok k) ∧
    (TEMPLATES.lookup (pyLower s) = none →
      resolve_template s = .error (unknownTemplateMsg s)) ∧
    (s = [] → resolve_template s = .error (unknownTemplateMsg s)) ∧
    (∀ name ∈ templateNames,
      containsSub name (unknownTemplateMsg s) = true) := by
  have hall : ∀ nm ∈ templateNames,
      containsSub nm (joinCommaSpace templateNames) = true := by decide
  refine ⟨?_, ?_, ?_, ?_⟩
  · intro k hlk hs
    unfold resolve_template
    rw [if_neg (by simpa [List.isEmpty_iff] using hs), hlk]
  · intro hlk
    unfold resolve_template
    by_cases hs : s.isEmpty
    · rw [if_pos hs]
    · rw [if_neg hs, hlk]
  · intro hs
    subst hs
    rfl
  · intro nm hnm
    unfold unknownTemplateMsg
    exact containsSub_append_left _ _ _ (hall nm hnm)

set_option maxHeartbeats 1000000 in
/-- **C10.** Whatever `top_thickness` is passed to the workbench
constructor, the constructed instance's benchtop thickness is
`max 45 top_thickness` (a value below 45 mm is silently raised, never
rejected), and on a successful `generate()` the `Leg` cut-list entry's
length is derived from the clamped value: `height − max 45 top_thickness`. -/
theorem C10_workbench_top_thickness_clamped (w h d : ℚ) (hsh : Bool)
    (lc : ℤ) (ap : ApronStyle) (tt : ℚ) (lum : List Char)
    (jo : Option (List Char)) (ma re : List Char) (sj : Bool)
    (t : WorkbenchT)
    (hinit : workbenchInit w h d hsh lc ap tt lum jo ma re sj = .ok t) :
    t.top_thickness = max 45 tt ∧
    ((workbenchGenerate t).success = true →
      ∃ p ∈ (workbenchGenerate t).cut_list,
        p.name = strL "Leg" ∧ p.length = h - max 45 tt) := by
  unfold workbenchInit at hinit
  split at hinit
  · exact Except.noConfusion hinit
  · injection hinit with heq
    subst heq
    refine ⟨rfl, ?_⟩
    by_cases h0 : lc = 6 ∨ w > 2000
    · simp only [workbenchGenerate, h0, if_true, eq_self_iff_true]
      split
      · intro hsuc
        simp at hsuc
      · split
        · intro hsuc
          simp at hsuc
        · intro _
          exact ⟨_, List.mem_append_left _ (List.mem_append_left _
            (List.mem_append_left _ (List.mem_cons_of_mem _
              (List.mem_cons_self _ _)))), rfl, rfl⟩
    · simp only [workbenchGenerate, h0, if_false,
        show ¬((4 : ℤ) = 6) from by decide]
      split
      · intro hsuc
        simp at hsuc
      · split
        · intro hsuc
          simp at hsuc
        · intro _
          exact ⟨_, List.mem_append_left _ (List.mem_append_left _
            (List.mem_append_left _ (List.mem_cons_of_mem _
              (List.mem_cons_self _ _)))), rfl, rfl⟩

/-- The workbench state that `workbenchInit` builds for a requested
benchtop thickness of `30` (defaults otherwise). -/
def workbenchThin30T : WorkbenchT :=
  { width := 1800, height := 900, depth := 600, lumber_width := 90,
    lumber_thickness := 45, joinery := strL "mortise_tenon",
    material := strL "pine", region := strL "australia",
    show_joints := true, has_shelf := true, leg_count := 4,
    apron_style := .full, top_thickness := 45 }

set_option maxRecDepth 8000 in
/-- Closed instance of `C10_workbench_top_thickness_clamped`: a 30 mm
request is clamped to `max 45 30 = 45`. -/
theorem C10_workbench_top_thickness_clamped_witness :
    workbenchThin30T.top_thickness = max 45 30 ∧
    ((workbenchGenerate workbenchThin30T).success = true →
      ∃ p ∈ (workbenchGenerate workbenchThin30T).cut_list,
        p.name = strL "Leg" ∧ p.length = 900 - max 45 30) :=
  C10_workbench_top_thickness_clamped 1800 900 600 true 4 .full 30
    (strL "90x45") none (strL "pine") (strL "australia") true
    workbenchThin30T (by decide)

theorem append_ne_nil_left {α : Type} (a b : List α) (h : a ≠ []) :
    a ++ b ≠ [] := by
  cases a
  · exact absurd rfl h
  · simp

/-- A wrapped script is never empty. -/
theorem wrap_ne_nil (r o : List Char) : wrap_in_operation r o ≠ [] := by
  unfold wrap_in_operation
  repeat apply append_ne_nil_left
  decide

/-- The success/failure shape of one `TemplateResult`. -/
def resultOk (r : TemplateResult) : Prop :=
  r.success = true ∧ r.ruby_code ≠ [] ∧ r.cut_list ≠ [] ∧ r.error = []

/-- The failure shape of one `TemplateResult`. -/
def resultErr (r : TemplateResult) : Prop :=
  r.success = false ∧ r.error ≠ [] ∧ r.ruby_code = [] ∧ r.cut_list = []

/-- The two shapes are mutually exclusive (the flag differs). -/
theorem resultOk_not_resultErr (r : TemplateResult) :
    ¬(resultOk r ∧ resultErr r) := by
  rintro ⟨⟨h1, -⟩, ⟨h2, -⟩⟩
  rw [h1] at h2
  exact Bool.noConfusion h2

theorem bookshelf_invariant (t : BookshelfT) :
    resultOk (bookshelfGenerate t).2 ∨ resultErr (bookshelfGenerate t).2 := by
  simp only [bookshelfGenerate]
  split
  · refine .inr ⟨rfl, ?_, rfl, rfl⟩
    unfold bookshelfHeightMsg
    repeat apply append_ne_nil_left
    decide
  · refine .inl ⟨rfl, wrap_ne_nil _ _, List.cons_ne_nil _ _, rfl⟩

theorem box_invariant (t : BoxT) :
    resultOk (boxGenerate t).2 ∨ resultErr (boxGenerate t).2 := by
  obtain ⟨w, h, d, lw, lt, jo, ma, re, sj, hl, bh, wt, bt, idp⟩ := t
  cases hl
  · simp only [boxGenerate, Bool.false_eq_true, if_false]
    split
    · refine .inr ⟨rfl, ?_, rfl, rfl⟩
      unfold boxHeightMsg
      repeat apply append_ne_nil_left
      decide
    split
    · refine .inr ⟨rfl, ?_, rfl, rfl⟩
      unfold boxDimsMsg
      repeat apply append_ne_nil_left
      decide
    · exact .inl ⟨rfl, wrap_ne_nil _ _, List.cons_ne_nil _ _, rfl⟩
  · simp only [boxGenerate, if_true]
    split
    · refine .inr ⟨rfl, ?_, rfl, rfl⟩
      unfold boxHeightMsg
      repeat apply append_ne_nil_left
      decide
    split
    · refine .inr ⟨rfl, ?_, rfl, rfl⟩
      unfold boxDimsMsg
      repeat apply append_ne_nil_left
      decide
    · exact .inl ⟨rfl, wrap_ne_nil _ _, List.cons_ne_nil _ _, rfl⟩

theorem table_invariant (t : TableT) :
    resultOk (tableGenerate t).2 ∨ resultErr (tableGenerate t).2 := by
  simp only [tableGenerate]
  split
  · refine .inr ⟨rfl, ?_, rfl, rfl⟩
    unfold tableDimsMsg
    repeat apply append_ne_nil_left
    decide
  split
  · refine .inr ⟨rfl, ?_, rfl, rfl⟩
    unfold tableHeightMsg
    repeat apply append_ne_nil_left
    decide
  · exact .inl ⟨rfl, wrap_ne_nil _ _, List.cons_ne_nil _ _, rfl⟩

theorem cabinet_invariant (t : CabinetT) :
    resultOk (cabinetGenerate t) ∨ resultErr (cabinetGenerate t) := by
  obtain ⟨w, h, d, lw, lt, jo, ma, re, sj, hdo, dc, sc, hba, bH⟩ := t
  cases hba
  · simp only [cabinetGenerate, Bool.false_eq_true, if_false]
    split
    · refine .inr ⟨rfl, ?_, rfl, rfl⟩
      unfold cabinetWidthMsg
      repeat apply append_ne_nil_left
      decide
    split
    · refine .inr ⟨rfl, ?_, rfl, rfl⟩
      unfold cabinetHeightMsg
      repeat apply append_ne_nil_left
      decide
    · exact .inl ⟨rfl, wrap_ne_nil _ _, List.cons_ne_nil _ _, rfl⟩
  · simp only [cabinetGenerate, if_true]
    split
    · refine .inr ⟨rfl, ?_, rfl, rfl⟩
      unfold cabinetWidthMsg
      repeat apply append_ne_nil_left
      decide
    split
    · refine .inr ⟨rfl, ?_, rfl, rfl⟩
      unfold cabinetHeightMsg
      repeat apply append_ne_nil_left
      decide
    · exact .inl ⟨rfl, wrap_ne_nil _ _, List.cons_ne_nil _ _, rfl⟩

theorem workbench_invariant (t : WorkbenchT) :
    resultOk (workbenchGenerate t) ∨ resultErr (workbenchGenerate t) := by
  by_cases h6 : t.leg_count = 6
  · simp only [workbenchGenerate, h6, eq_self_iff_true, if_true]
    split
    · refine .inr ⟨rfl, ?_, rfl, rfl⟩
      unfold workbenchDimsMsg
      repeat apply append_ne_nil_left
      decide
    split
    · refine .inr ⟨rfl, ?_, rfl, rfl⟩
      unfold workbenchHeightMsg
      repeat apply append_ne_nil_left
      decide
    · exact .inl ⟨rfl, wrap_ne_nil _ _, List.cons_ne_nil _ _, rfl⟩
  · simp only [workbenchGenerate, h6, if_false]
    split
    · refine .inr ⟨rfl, ?_, rfl, rfl⟩
      unfold workbenchDimsMsg
      repeat apply append_ne_nil_left
      decide
    split
    · refine .inr ⟨rfl, ?_, rfl, rfl⟩
      unfold workbenchHeightMsg
      repeat apply append_ne_nil_left
      decide
    · exact .inl ⟨rfl, wrap_ne_nil _ _, List.cons_ne_nil _ _, rfl⟩

theorem desk_invariant (t : DeskT) :
    resultOk (deskGenerate t) ∨ resultErr (deskGenerate t) := by
  simp only [deskGenerate]
  split
  · refine .inr ⟨rfl, ?_, rfl, rfl⟩
    unfold deskWidthMsg
    repeat apply append_ne_nil_left
    decide
  split
  · refine .inr ⟨rfl, ?_, rfl, rfl⟩
    unfold deskHeightMsg
    repeat apply append_ne_nil_left
    decide
  · exact .inl ⟨rfl, wrap_ne_nil _ _, List.cons_ne_nil _ _, rfl⟩

theorem cutting_board_invariant (t : CuttingBoardT) :
    resultOk (cuttingBoardGenerate t) ∨ resultErr (cuttingBoardGenerate t) := by
  simp only [cuttingBoardGenerate]
  split
  · refine .inr ⟨rfl, ?_, rfl, rfl⟩
    unfold cuttingBoardThicknessMsg
    repeat apply append_ne_nil_left
    decide
  split
  · refine .inr ⟨rfl, ?_, rfl, rfl⟩
    unfold cuttingBoardDimsMsg
    repeat apply append_ne_nil_left
    decide
  · refine .inl ⟨rfl, wrap_ne_nil _ _, ?_, rfl⟩
    cases t.pattern
    · exact List.cons_ne_nil _ _
    · exact List.cons_ne_nil _ _

theorem picture_frame_invariant (t : PictureFrameT) :
    resultOk (pictureFrameGenerate t).2 ∨ resultErr (pictureFrameGenerate t).2 := by
  by_cases hm : t.mat_width > 0
  · simp only [pictureFrameGenerate, hm, if_true]
    split
    · refine .inr ⟨rfl, ?_, rfl, rfl⟩
      unfold pictureFrameDimsMsg
      repeat apply append_ne_nil_left
      decide
    split
    · refine .inr ⟨rfl, ?_, rfl, rfl⟩
      unfold pictureFrameMatMsg
      repeat apply append_ne_nil_left
      decide
    · exact .inl ⟨rfl, wrap_ne_nil _ _, List.cons_ne_nil _ _, rfl⟩
  · simp only [pictureFrameGenerate, hm, if_false, false_and]
    split
    · refine .inr ⟨rfl, ?_, rfl, rfl⟩
      unfold pictureFrameDimsMsg
      repeat apply append_ne_nil_left
      decide
    · exact .inl ⟨rfl, wrap_ne_nil _ _, List.cons_ne_nil _ _, rfl⟩

theorem shelf_bracket_invariant (t : ShelfBracketT) :
    resultOk (shelfBracketGenerate t).2 ∨ resultErr (shelfBracketGenerate t).2 := by
  simp only [shelfBracketGenerate]
  split
  · refine .inr ⟨rfl, ?_, rfl, rfl⟩
    unfold shelfBracketHeightMsg
    repeat apply append_ne_nil_left
    decide
  split
  · refine .inr ⟨rfl, ?_, rfl, rfl⟩
    unfold shelfBracketDepthMsg
    repeat apply append_ne_nil_left
    decide
  · refine .inl ⟨rfl, wrap_ne_nil _ _, ?_, rfl⟩
    cases t.bracket_style
    · exact append_ne_nil_left _ _ (List.cons_ne_nil _ _)
    · exact append_ne_nil_left _ _ (List.cons_ne_nil _ _)
    · exact append_ne_nil_left _ _ (List.cons_ne_nil _ _)

theorem tray_invariant (t : TrayT) :
    resultOk (trayGenerate t) ∨ resultErr (trayGenerate t) := by
  simp only [trayGenerate]
  split
  · refine .inr ⟨rfl, ?_, rfl, rfl⟩
    unfold trayDimsMsg
    repeat apply append_ne_nil_left
    decide
  split
  · refine .inr ⟨rfl, ?_, rfl, rfl⟩
    unfold trayWallMsg
    repeat apply append_ne_nil_left
    decide
  · exact .inl ⟨rfl, wrap_ne_nil _ _, List.cons_ne_nil _ _, rfl⟩

/-- **C4.** For every template variant and every input, the
`TemplateResult` of `generate()` has exactly one of two shapes: success
with a non-empty build script, a non-empty cut list and an empty error,
or failure with a non-empty error, an empty build script and an empty cut
list; the two shapes are mutually exclusive (the `success` flag differs),
so never both and never neither. -/
theorem C4_result_invariant :
    (∀ t : BookshelfT,
      resultOk (bookshelfGenerate t).2 ∨ resultErr (bookshelfGenerate t).2) ∧
    (∀ t : BoxT, resultOk (boxGenerate t).2 ∨ resultErr (boxGenerate t).2) ∧
    (∀ t : TableT,
      resultOk (tableGenerate t).2 ∨ resultErr (tableGenerate t).2) ∧
    (∀ t : CabinetT, resultOk (cabinetGenerate t) ∨ resultErr (cabinetGenerate t)) ∧
    (∀ t : WorkbenchT,
      resultOk (workbenchGenerate t) ∨ resultErr (workbenchGenerate t)) ∧
    (∀ t : DeskT, resultOk (deskGenerate t) ∨ resultErr (deskGenerate t)) ∧
    (∀ t : CuttingBoardT,
      resultOk (cuttingBoardGenerate t) ∨ resultErr (cuttingBoardGenerate t)) ∧
    (∀ t : PictureFrameT,
      resultOk (pictureFrameGenerate t).2 ∨ resultErr (pictureFrameGenerate t).2) ∧
    (∀ t : ShelfBracketT,
      resultOk (shelfBracketGenerate t).2 ∨ resultErr (shelfBracketGenerate t).2) ∧
    (∀ t : TrayT, resultOk (trayGenerate t) ∨ resultErr (trayGenerate t)) ∧
    (∀ r : TemplateResult, ¬(resultOk r ∧ resultErr r)) :=
  ⟨bookshelf_invariant, box_invariant, table_invariant, cabinet_invariant,
   workbench_invariant, desk_invariant, cutting_board_invariant,
   picture_frame_invariant, shelf_bracket_invariant, tray_invariant,
   resultOk_not_resultErr⟩

set_option maxHeartbeats 1000000 in
theorem bookshelf_idem (t : BookshelfT) :
    (bookshelfGenerate (bookshelfGenerate t).1).2 = (bookshelfGenerate t).2 := by
  obtain ⟨w, h, d, lw, lt, jo, ma, re, sj, sh, sp⟩ := t
  by_cases hc : h - (sh : ℚ) * lt - 2 * lt ≤ 0
  · simp only [bookshelfGenerate, hc, if_true]
  · simp only [bookshelfGenerate, hc, if_false]

set_option maxHeartbeats 1000000 in
theorem box_idem (t : BoxT) :
    (boxGenerate (boxGenerate t).1).2 = (boxGenerate t).2 := by
  obtain ⟨w, h, d, lw, lt, jo, ma, re, sj, hl, bh, wt, bt, idp⟩ := t
  cases hl
  · by_cases c1 : h - lt ≤ 0
    · simp only [boxGenerate, Bool.false_eq_true, if_false, c1, if_true]
    · by_cases c2 : w - 2 * lt ≤ 0 ∨ d - 2 * lt ≤ 0
      · simp only [boxGenerate, Bool.false_eq_true, if_false, c1, c2, if_true]
      · simp only [boxGenerate, Bool.false_eq_true, if_false, c1, c2]
  · by_cases c1 : h - lt - lt ≤ 0
    · simp only [boxGenerate, if_true, c1]
    · by_cases c2 : w - 2 * lt ≤ 0 ∨ d - 2 * lt ≤ 0
      · simp only [boxGenerate, if_true, c1, if_false, c2]
      · simp only [boxGenerate, if_true, c1, if_false, c2]

set_option maxHeartbeats 1000000 in
theorem table_idem (t : TableT) :
    (tableGenerate (tableGenerate t).1).2 = (tableGenerate t).2 := by
  obtain ⟨w, h, d, lw, lt, jo, ma, re, sj, va, hap, hst, li, ls, lh, ah,
    ath, lxp, lyp, az, sz⟩ := t
  by_cases c1 : w - 2 * li - 2 * lt ≤ 0 ∨ d - 2 * li - 2 * lt ≤ 0
  · simp only [tableGenerate, c1, if_true]
  · by_cases c2 : h - lt ≤ lw
    · simp only [tableGenerate, c1, if_false, c2, if_true]
    · simp only [tableGenerate, c1, if_false, c2]

set_option maxHeartbeats 1000000 in
theorem picture_frame_idem (t : PictureFrameT) :
    (pictureFrameGenerate (pictureFrameGenerate t).1).2 =
      (pictureFrameGenerate t).2 := by
  obtain ⟨w, h, d, lw, lt, jo, ma, re, sj, fw, rd, mw, iw, ih, ft⟩ := t
  by_cases hm : mw > 0
  · by_cases c1 : w - 2 * fw ≤ 0 ∨ h - 2 * fw ≤ 0
    · simp only [pictureFrameGenerate, hm, if_true, c1]
    · by_cases c2 : w - 2 * fw - 2 * mw ≤ 0 ∨ h - 2 * fw - 2 * mw ≤ 0
      · simp only [pictureFrameGenerate, hm, if_true, c1, if_false, c2,
          true_and]
      · simp only [pictureFrameGenerate, hm, if_true, c1, if_false, c2,
          true_and]
  · by_cases c1 : w - 2 * fw ≤ 0 ∨ h - 2 * fw ≤ 0
    · simp only [pictureFrameGenerate, hm, if_false, c1, if_true]
    · simp only [pictureFrameGenerate, hm, if_false, c1, false_and]

set_option maxHeartbeats 1000000 in
theorem shelf_bracket_idem (t : ShelfBracketT) :
    (shelfBracketGenerate (shelfBracketGenerate t).1).2 =
      (shelfBracketGenerate t).2 := by
  obtain ⟨w, h, d, lw, lt, jo, ma, re, sj, bs, bc, hsh, bp, bth, bwi, vl⟩ := t
  by_cases c1 : h < 100
  · simp only [shelfBracketGenerate, c1, if_true]
  · by_cases c2 : d < 100
    · simp only [shelfBracketGenerate, c1, if_false, c2, if_true]
    · simp only [shelfBracketGenerate, c1, if_false, c2]

/-- **C7.** Calling `generate()` twice on the same unmutated instance
yields identical results (cut list and build script alike).  The five
templates that cache computed dimensions on the instance
(bookshelf, box, table, picture frame, shelf bracket) are modelled with
explicit state passing, and regenerating from the once-updated state
reproduces the first result exactly; the other five templates' `generate`
writes no instance state at all (it is a pure function of the constructed
instance in this embedding), so for them the two results are one and the
same term. -/
theorem C7_generate_idempotent :
    (∀ t : BookshelfT,
      (bookshelfGenerate (bookshelfGenerate t).1).2 = (bookshelfGenerate t).2) ∧
    (∀ t : BoxT, (boxGenerate (boxGenerate t).1).2 = (boxGenerate t).2) ∧
    (∀ t : TableT,
      (tableGenerate (tableGenerate t).1).2 = (tableGenerate t).2) ∧
    (∀ t : PictureFrameT,
      (pictureFrameGenerate (pictureFrameGenerate t).1).2 =
        (pictureFrameGenerate t).2) ∧
    (∀ t : ShelfBracketT,
      (shelfBracketGenerate (shelfBracketGenerate t).1).2 =
        (shelfBracketGenerate t).2) :=
  ⟨bookshelf_idem, box_idem, table_idem, picture_frame_idem,
   shelf_bracket_idem⟩
